import Mathlib

/-!
# decaf-emu: GPU command processing and export translation

A shallow embedding of

* `src/gpu/opengl/opengl_driver.cpp` (namespace `gpu::opengl`, class `GLDriver`), and
* `src/libgpu/src/glsl2/glsl2_exp.cpp` (namespace `glsl2`),

followed by theorems about the embedded functions.

Conventions of the embedding.

* 32-bit words are natural numbers.  The register file `mRegisters` is a total map from
  word index to word; accesses outside the C++ array are undefined behaviour in the source and
  are not modelled, so register offsets are added without wrap-around.
* A pointer into one of the driver's maps (`&mColorBuffers[k]`) is the key `k`; the maps never
  erase, so a key identifies its node for the whole run.  `operator[]` on a missing key inserts
  a value-initialised entry.
* Host (OpenGL) calls are appended to a trace, `Host.calls`; names handed out by the host
  (`glGenTextures`, `glGenProgramPipelines`, `glGenFramebuffers`, ...) are fresh and
  non-zero.
* Declarations that live in headers outside the two files (register offsets, bit-field
  layouts, the PM4 header layout and packet readers, guest memory, the shader parser and
  compiler, the host's answers) are fields of the parameter structures `Env` and `Translator`.
* A command buffer (`uint32_t *buffer, uint32_t size`) is the list of the `size` words the
  pointer starts with together with the words the memory holds after them: the source
  compares only the cursor with `size`, so a payload may extend past the end of the buffer.
* A C++ `throw` is the `thrown` outcome; it keeps the state reached when the exception left.
-/

namespace gpu.opengl

/-! ## Host interface -/

/-- The OpenGL enumerators the driver passes to the host. -/
inductive GLenum where
  | GL_TEXTURE_2D | GL_TEXTURE_MAG_FILTER | GL_TEXTURE_MIN_FILTER
  | GL_TEXTURE_WRAP_S | GL_TEXTURE_WRAP_T | GL_TEXTURE_COMPARE_MODE
  | GL_NEAREST | GL_CLAMP_TO_EDGE | GL_NONE
  | GL_RGBA | GL_UNSIGNED_BYTE | GL_DEPTH_COMPONENT32 | GL_DEPTH_COMPONENT | GL_FLOAT
  | GL_FRAMEBUFFER | GL_COLOR_ATTACHMENT0_plus (i : Nat) | GL_DEPTH_ATTACHMENT
  | GL_VERTEX_SHADER | GL_FRAGMENT_SHADER | GL_VERTEX_SHADER_BIT | GL_FRAGMENT_SHADER_BIT
  | GL_COLOR | GL_TRIANGLES | GL_DEPTH_TEST | GL_TEXTURE0 | GL_INFO_LOG_LENGTH
  | GL_ARRAY_BUFFER | GL_STATIC_DRAW
  deriving DecidableEq, Repr

/-- One recorded host call, with the arguments the driver passed (and, for the calls that
return a name, the name the host returned). -/
inductive GLCall where
  | glGenTextures (n : Nat) (name : Nat)
  | glBindTexture (target : GLenum) (texture : Nat)
  | glTexParameteri (target pname param : GLenum)
  | glTexImage2D (target : GLenum) (level : Nat) (internalformat : GLenum)
      (width height border : Nat) (format type : GLenum)
  | glFramebufferTexture (target attachment : GLenum) (texture level : Nat)
  | glProgramUniform4fv (program : Nat) (location : Int) (count : Nat) (values : List Nat)
  | glCreateShaderProgramv (type : GLenum) (code : String) (program : Nat)
  | glGetProgramiv (program : Nat) (pname : GLenum)
  | glGetProgramInfoLog (program : Nat)
  | glGetUniformLocation (program : Nat) (name : String)
  | glGenProgramPipelines (n : Nat) (name : Nat)
  | glUseProgramStages (pipeline : Nat) (stages : GLenum) (program : Nat)
  | glBindProgramPipeline (pipeline : Nat)
  | glBindFramebuffer (target : GLenum) (framebuffer : Nat)
  | glBindVertexArray (array : Nat)
  | glEnable (cap : GLenum)
  | glDisable (cap : GLenum)
  | glActiveTexture (texture : GLenum)
  | glDrawArrays (mode : GLenum) (first count : Nat)
  | glClearBufferfv (buffer : GLenum) (drawbuffer : Nat) (value : List Nat)
  | swapBuffers
  | glGenFramebuffers (n : Nat) (name : Nat)
  | glBindFragDataLocation (program color : Nat) (name : String)
  | glGenBuffers (n : Nat) (name : Nat)
  | glBindBuffer (target : GLenum) (buffer : Nat)
  | glBufferData (target : GLenum) (size : Nat) (data : List Int) (usage : GLenum)
  | glGenVertexArrays (n : Nat) (name : Nat)
  | glGetAttribLocation (program : Nat) (name : String)
  | glEnableVertexAttribArray (index : Int)
  | glVertexAttribPointer (index : Int) (size : Nat) (type : GLenum) (normalized : Bool)
      (stride pointer : Nat)
  deriving DecidableEq, Repr

/-- The recording host: the calls made so far, oldest first, and how many texture, pipeline,
framebuffer, buffer and vertex array names it has handed out. -/
structure Host where
  calls : List GLCall
  textures : Nat
  pipelines : Nat
  framebuffers : Nat := 0
  buffers : Nat := 0
  vertexArrays : Nat := 0
  deriving DecidableEq, Repr

/-- Append one call to the trace. -/
def Host.call (h : Host) (c : GLCall) : Host :=
  { h with calls := h.calls ++ [c] }

/-- Host side of `glGenTextures(1, &name)`: a fresh non-zero name. -/
def Host.glGenTextures (h : Host) : Nat × Host :=
  (h.textures + 1,
    { h with calls := h.calls ++ [GLCall.glGenTextures 1 (h.textures + 1)],
             textures := h.textures + 1 })

/-- Host side of `glGenProgramPipelines(1, &name)`: a fresh non-zero name. -/
def Host.glGenProgramPipelines (h : Host) : Nat × Host :=
  (h.pipelines + 1,
    { h with calls := h.calls ++ [GLCall.glGenProgramPipelines 1 (h.pipelines + 1)],
             pipelines := h.pipelines + 1 })

/-- Host side of `glGenFramebuffers(1, &name)`: a fresh non-zero name. -/
def Host.glGenFramebuffers (h : Host) : Nat × Host :=
  (h.framebuffers + 1,
    { h with calls := h.calls ++ [GLCall.glGenFramebuffers 1 (h.framebuffers + 1)],
             framebuffers := h.framebuffers + 1 })

/-- Host side of `glGenBuffers(1, &name)`: a fresh non-zero name. -/
def Host.glGenBuffers (h : Host) : Nat × Host :=
  (h.buffers + 1,
    { h with calls := h.calls ++ [GLCall.glGenBuffers 1 (h.buffers + 1)],
             buffers := h.buffers + 1 })

/-- Host side of `glGenVertexArrays(1, &name)`: a fresh non-zero name. -/
def Host.glGenVertexArrays (h : Host) : Nat × Host :=
  (h.vertexArrays + 1,
    { h with calls := h.calls ++ [GLCall.glGenVertexArrays 1 (h.vertexArrays + 1)],
             vertexArrays := h.vertexArrays + 1 })

/-! ## PM4 packets -/

/-- Values of `pm4::PacketType`, the two top bits of a header word. -/
inductive PacketType where
  | Type0 | Type1 | Type2 | Type3
  deriving DecidableEq, Repr

/-- Values of the opcode field of a type-3 header: the sixteen enumerators that
`handlePacketType3` has a case for, and every other value. -/
inductive Opcode3 where
  | DECAF_COPY_COLOR_TO_SCAN | DECAF_SWAP_BUFFERS | DECAF_CLEAR_COLOR | DECAF_CLEAR_DEPTH_STENCIL
  | DRAW_INDEX_AUTO | DRAW_INDEX_2 | INDEX_TYPE | NUM_INSTANCES
  | SET_ALU_CONST | SET_CONFIG_REG | SET_CONTEXT_REG | SET_CTL_CONST | SET_LOOP_CONST
  | SET_SAMPLER | SET_RESOURCE | INDIRECT_BUFFER_PRIV
  | other (value : Nat)
  deriving DecidableEq, Repr

namespace pm4

/-- Payload of `DECAF_COPY_COLOR_TO_SCAN`. -/
structure DecafCopyColorToScan where
  bufferAddr : Nat
  cb_color_size : Nat
  cb_color_info : Nat
  scanTarget : Nat
  deriving DecidableEq, Repr

/-- Payload of `DECAF_CLEAR_COLOR`; the four colour components are the raw 32-bit patterns of
the floats. -/
structure DecafClearColor where
  red : Nat
  green : Nat
  blue : Nat
  alpha : Nat
  bufferAddr : Nat
  cb_color_size : Nat
  cb_color_info : Nat
  deriving DecidableEq, Repr

/-- Payload of `INDEX_TYPE` (the raw `type.value`). -/
structure IndexType where
  type : Nat
  deriving DecidableEq, Repr

/-- Payload of `NUM_INSTANCES`. -/
structure NumInstances where
  count : Nat
  deriving DecidableEq, Repr

/-- Payload shared by the seven `SET_*` packets (`SetAluConsts`, `SetConfigRegs`,
`SetContextRegs`, `SetControlConstants`, `SetLoopConsts`, `SetSamplers`, `SetResources`):
the first register offset and the values. -/
structure SetRegs where
  id : Nat
  values : List Nat
  deriving DecidableEq, Repr

/-- Payload of `INDIRECT_BUFFER_PRIV`. -/
structure IndirectBufferCall where
  addr : Nat
  size : Nat
  deriving DecidableEq, Repr

end pm4

/-! ## Driver objects -/

/-- Entry of `mColorBuffers`. -/
structure ColorBuffer where
  object : Nat
  cb_color_base : Nat
  deriving DecidableEq, Repr

/-- Entry of `mDepthBuffers`. -/
structure DepthBuffer where
  object : Nat
  db_depth_base : Nat
  deriving DecidableEq, Repr

/-- Entry of `mFetchShaders`. -/
structure FetchShader where
  parsed : Bool
  pgm_start_fs : Nat
  deriving DecidableEq, Repr

/-- Entry of `mVertexShaders`. -/
structure VertexShader where
  object : Nat
  uniformRegisters : Int
  code : String
  pgm_start_vs : Nat
  deriving DecidableEq, Repr

/-- Entry of `mPixelShaders`. -/
structure PixelShader where
  object : Nat
  uniformRegisters : Int
  code : String
  pgm_start_ps : Nat
  deriving DecidableEq, Repr

/-- Key of `mShaders`: the fetch, vertex and pixel program start addresses. -/
structure ShaderKey where
  fetch : Nat
  vertex : Nat
  pixel : Nat
  deriving DecidableEq, Repr

/-- Entry of `mShaders`; the three stage pointers are keys of the stage maps. -/
structure Shader where
  object : Nat
  fetch : Option Nat
  vertex : Option Nat
  pixel : Option Nat
  deriving DecidableEq, Repr

/-- The register file: word index to word. -/
abbrev Registers := Nat → Nat

/-- What the driver takes from headers and collaborators outside `opengl_driver.cpp`. -/
structure Env where
  /- latte::Register byte offsets -/
  CB_COLOR0_BASE : Nat
  CB_COLOR0_SIZE : Nat
  CB_COLOR0_INFO : Nat
  DB_DEPTH_BASE : Nat
  DB_DEPTH_SIZE : Nat
  DB_DEPTH_INFO : Nat
  SQ_CONFIG : Nat
  SQ_ALU_CONSTANT0_0 : Nat
  SQ_ALU_CONSTANT0_256 : Nat
  SQ_PGM_START_FS : Nat
  SQ_PGM_START_VS : Nat
  SQ_PGM_START_PS : Nat
  SQ_PGM_SIZE_FS : Nat
  SQ_PGM_SIZE_VS : Nat
  SQ_PGM_SIZE_PS : Nat
  SQ_VTX_SEMANTIC_0 : Nat
  SQ_VTX_SEMANTIC_CLEAR : Nat
  VGT_DMA_INDEX_TYPE : Nat
  VGT_DMA_NUM_INSTANCES : Nat
  /-- The nine blend-control offsets named by `setRegister`: `CB_BLEND_CONTROL`,
  `CB_BLEND0_CONTROL` .. `CB_BLEND7_CONTROL`. -/
  CB_BLEND_CONTROLS : List Nat
  /-- None of the 32 semantic registers is the clear register (they are distinct
  enumerators of `latte::Register`). -/
  semantic_ne_clear : ∀ i, i < 32 → SQ_VTX_SEMANTIC_0 + i * 4 ≠ SQ_VTX_SEMANTIC_CLEAR
  /- latte tile constants -/
  tile_width : Nat
  tile_height : Nat
  /- bit-fields of register values -/
  CB_COLORN_BASE_BASE_256B : Nat → Nat
  CB_COLORN_SIZE_PITCH_TILE_MAX : Nat → Nat
  CB_COLORN_SIZE_SLICE_TILE_MAX : Nat → Nat
  DB_DEPTH_BASE_BASE_256B : Nat → Nat
  DB_DEPTH_SIZE_PITCH_TILE_MAX : Nat → Nat
  DB_DEPTH_SIZE_SLICE_TILE_MAX : Nat → Nat
  SQ_CONFIG_DX9_CONSTS : Nat → Bool
  SQ_PGM_START_FS_PGM_START : Nat → Nat
  SQ_PGM_START_VS_PGM_START : Nat → Nat
  SQ_PGM_START_PS_PGM_START : Nat → Nat
  SQ_PGM_SIZE_FS_PGM_SIZE : Nat → Nat
  SQ_PGM_SIZE_VS_PGM_SIZE : Nat → Nat
  SQ_PGM_SIZE_PS_PGM_SIZE : Nat → Nat
  /- pm4 header fields -/
  type : Nat → PacketType
  opcode : Nat → Opcode3
  size : Nat → Nat
  /- pm4::read<T>(reader) on the payload words -/
  readDecafCopyColorToScan : List Nat → pm4.DecafCopyColorToScan
  readDecafClearColor : List Nat → pm4.DecafClearColor
  readIndexType : List Nat → pm4.IndexType
  readNumInstances : List Nat → pm4.NumInstances
  readSetAluConsts : List Nat → pm4.SetRegs
  readSetConfigRegs : List Nat → pm4.SetRegs
  readSetContextRegs : List Nat → pm4.SetRegs
  readSetControlConstants : List Nat → pm4.SetRegs
  readSetLoopConsts : List Nat → pm4.SetRegs
  readSetSamplers : List Nat → pm4.SetRegs
  readSetResources : List Nat → pm4.SetRegs
  readIndirectBufferCall : List Nat → pm4.IndirectBufferCall
  /-- Guest memory seen through the pointer `addr.get()`: `memory addr i` is the word
  `buffer[i]` of the `uint32_t *buffer` at that address. -/
  memory : Nat → Nat → Nat
  /- shader parser and recompiler: success flag and the shader they leave behind -/
  parseFetchShader : FetchShader → Nat → Nat → Bool × FetchShader
  compileVertexShader : VertexShader → FetchShader → Nat → Nat → Bool × VertexShader
  compilePixelShader : PixelShader → Nat → Nat → Bool × PixelShader
  /- answers of the host -/
  glCreateShaderProgramv : Host → GLenum → String → Nat
  getProgramLog : Host → Nat → String
  glGetUniformLocation : Host → Nat → String → Int
  glGetAttribLocation : Host → Nat → String → Int
  /-- The file system: the bytes of the file of that name, empty when it cannot be opened. -/
  fileContents : String → String

/-- The driver's mutable state together with the recording host. -/
structure GLDriver where
  mRegisters : Registers
  mColorBuffers : Nat → Option ColorBuffer
  mDepthBuffers : Nat → Option DepthBuffer
  mFetchShaders : Nat → Option FetchShader
  mVertexShaders : Nat → Option VertexShader
  mPixelShaders : Nat → Option PixelShader
  mShaders : ShaderKey → Option Shader
  mActiveShader : Option ShaderKey
  mActiveDepthBuffer : Option Nat
  mActiveColorBuffers : Nat → Option Nat
  mFrameBuffer_object : Nat
  mScreenDraw_vertArray : Nat
  mScreenDraw_pipeline : Nat
  gl : Host
  mScreenDraw_vertexProgram : Nat := 0
  mScreenDraw_pixelProgram : Nat := 0
  mScreenDraw_vertBuffer : Nat := 0

/-- Result of code that may throw: the state is kept in both cases. -/
inductive Outcome (σ : Type) where
  | ok (s : σ)
  | thrown (msg : String) (s : σ)
  deriving DecidableEq

/-- The state an outcome carries. -/
def Outcome.state {σ : Type} : Outcome σ → σ
  | .ok s => s
  | .thrown _ s => s

/-! ## Register writes -/

/-- The literal recursion of `GLDriver::setRegister` on the register file, with a bound on the
call depth: store, then for `SQ_VTX_SEMANTIC_CLEAR` re-enter for each of the 32 semantic
registers. -/
def setRegisterFuel (K : Env) : Nat → Nat → Nat → Registers → Option Registers
  | 0, _, _, _ => none
  | fuel + 1, reg, value, regs =>
    let regs := Function.update regs (reg / 4) value
    if reg = K.SQ_VTX_SEMANTIC_CLEAR then
      (List.range 32).foldlM
        (fun r i => setRegisterFuel K fuel (K.SQ_VTX_SEMANTIC_0 + i * 4) 0xffffffff r) regs
    else if reg ∈ K.CB_BLEND_CONTROLS then
      some regs
    else
      some regs

/-- The function `GLDriver::setRegister` on the register file.  The re-entrant calls are for
`SQ_VTX_SEMANTIC_0 + i * 4`, which is never `SQ_VTX_SEMANTIC_CLEAR`, so each of them only
stores (see `setRegisterFuel_eq_setRegister`). -/
def setRegisterRegs (K : Env) (reg value : Nat) (regs : Registers) : Registers :=
  let regs := Function.update regs (reg / 4) value
  if reg = K.SQ_VTX_SEMANTIC_CLEAR then
    (List.range 32).foldl
      (fun r i => Function.update r ((K.SQ_VTX_SEMANTIC_0 + i * 4) / 4) 0xffffffff) regs
  else if reg ∈ K.CB_BLEND_CONTROLS then
    regs
  else
    regs

/-- The function `GLDriver::setRegister`. -/
def setRegister (K : Env) (reg value : Nat) (s : GLDriver) : GLDriver :=
  { s with mRegisters := setRegisterRegs K reg value s.mRegisters }

/-- The loop `for (i = 0; i < data.values.size(); ++i) setRegister(data.id + i * 4,
data.values[i])` shared by the seven `SET_*` handlers, from index `i` on. -/
def setRegsLoop (K : Env) (id : Nat) : Nat → List Nat → GLDriver → GLDriver
  | _, [], s => s
  | i, v :: vs, s => setRegsLoop K id (i + 1) vs (setRegister K (id + i * 4) v s)

/-- The function `GLDriver::setAluConsts`. -/
def setAluConsts (K : Env) (data : pm4.SetRegs) (s : GLDriver) : GLDriver :=
  setRegsLoop K data.id 0 data.values s

/-- The function `GLDriver::setConfigRegs`. -/
def setConfigRegs (K : Env) (data : pm4.SetRegs) (s : GLDriver) : GLDriver :=
  setRegsLoop K data.id 0 data.values s

/-- The function `GLDriver::setContextRegs`. -/
def setContextRegs (K : Env) (data : pm4.SetRegs) (s : GLDriver) : GLDriver :=
  setRegsLoop K data.id 0 data.values s

/-- The function `GLDriver::setControlConstants`. -/
def setControlConstants (K : Env) (data : pm4.SetRegs) (s : GLDriver) : GLDriver :=
  setRegsLoop K data.id 0 data.values s

/-- The function `GLDriver::setLoopConsts`. -/
def setLoopConsts (K : Env) (data : pm4.SetRegs) (s : GLDriver) : GLDriver :=
  setRegsLoop K data.id 0 data.values s

/-- The function `GLDriver::setSamplers`. -/
def setSamplers (K : Env) (data : pm4.SetRegs) (s : GLDriver) : GLDriver :=
  setRegsLoop K data.id 0 data.values s

/-- The function `GLDriver::setResources`. -/
def setResources (K : Env) (data : pm4.SetRegs) (s : GLDriver) : GLDriver :=
  setRegsLoop K data.id 0 data.values s

/-- The function `GLDriver::indexType`: a plain store, not through `setRegister`. -/
def indexType (K : Env) (data : pm4.IndexType) (s : GLDriver) : GLDriver :=
  { s with mRegisters := Function.update s.mRegisters (K.VGT_DMA_INDEX_TYPE / 4) data.type }

/-- The function `GLDriver::numInstances`: a plain store, not through `setRegister`. -/
def numInstances (K : Env) (data : pm4.NumInstances) (s : GLDriver) : GLDriver :=
  { s with mRegisters := Function.update s.mRegisters (K.VGT_DMA_NUM_INSTANCES / 4) data.count }

/-- The template `getRegister<T>(id)`: the word at `id / 4`. -/
def getRegister (s : GLDriver) (id : Nat) : Nat :=
  s.mRegisters (id / 4)

/-! ## Surface caches -/

/-- The entry a pointer `&mColorBuffers[k]` refers to. -/
def colorBufferAt (s : GLDriver) (k : Nat) : ColorBuffer :=
  (s.mColorBuffers k).getD { object := 0, cb_color_base := 0 }

/-- The entry a pointer `&mDepthBuffers[k]` refers to. -/
def depthBufferAt (s : GLDriver) (k : Nat) : DepthBuffer :=
  (s.mDepthBuffers k).getD { object := 0, db_depth_base := 0 }

/-- The function `GLDriver::getColorBuffer`; returns the pointer (the key) and the new state.
The pitch and height are computed on natural numbers: the narrowing casts are not modelled,
and a division by a zero pitch, undefined in the source, gives 0. -/
def getColorBuffer (K : Env) (cb_color_base cb_color_size _cb_color_info : Nat)
    (s : GLDriver) : Nat × GLDriver :=
  let key := K.CB_COLORN_BASE_BASE_256B cb_color_base
  let buffer : ColorBuffer := { colorBufferAt s key with cb_color_base := cb_color_base }
  if buffer.object = 0 then
    let pitch_tile_max := K.CB_COLORN_SIZE_PITCH_TILE_MAX cb_color_size
    let slice_tile_max := K.CB_COLORN_SIZE_SLICE_TILE_MAX cb_color_size
    let pitch := (pitch_tile_max + 1) * K.tile_width
    let height := ((slice_tile_max + 1) * (K.tile_width * K.tile_height)) / pitch
    let made := s.gl.glGenTextures
    let object := made.1
    let gl := made.2
    let gl := gl.call (.glBindTexture .GL_TEXTURE_2D object)
    let gl := gl.call (.glTexParameteri .GL_TEXTURE_2D .GL_TEXTURE_MAG_FILTER .GL_NEAREST)
    let gl := gl.call (.glTexParameteri .GL_TEXTURE_2D .GL_TEXTURE_MIN_FILTER .GL_NEAREST)
    let gl := gl.call (.glTexParameteri .GL_TEXTURE_2D .GL_TEXTURE_WRAP_S .GL_CLAMP_TO_EDGE)
    let gl := gl.call (.glTexParameteri .GL_TEXTURE_2D .GL_TEXTURE_WRAP_T .GL_CLAMP_TO_EDGE)
    let gl := gl.call
      (.glTexImage2D .GL_TEXTURE_2D 0 .GL_RGBA pitch height 0 .GL_RGBA .GL_UNSIGNED_BYTE)
    (key, { s with
      mColorBuffers := Function.update s.mColorBuffers key (some { buffer with object := object }),
      gl := gl })
  else
    (key, { s with mColorBuffers := Function.update s.mColorBuffers key (some buffer) })

/-- The function `GLDriver::getDepthBuffer`; returns the pointer (the key) and the new state.
The pitch and height are computed as in `getColorBuffer`. -/
def getDepthBuffer (K : Env) (db_depth_base db_depth_size _db_depth_info : Nat)
    (s : GLDriver) : Nat × GLDriver :=
  let key := K.DB_DEPTH_BASE_BASE_256B db_depth_base
  let buffer : DepthBuffer := { depthBufferAt s key with db_depth_base := db_depth_base }
  if buffer.object = 0 then
    let pitch_tile_max := K.DB_DEPTH_SIZE_PITCH_TILE_MAX db_depth_size
    let slice_tile_max := K.DB_DEPTH_SIZE_SLICE_TILE_MAX db_depth_size
    let pitch := (pitch_tile_max + 1) * K.tile_width
    let height := ((slice_tile_max + 1) * (K.tile_width * K.tile_height)) / pitch
    let made := s.gl.glGenTextures
    let object := made.1
    let gl := made.2
    let gl := gl.call (.glBindTexture .GL_TEXTURE_2D object)
    let gl := gl.call (.glTexParameteri .GL_TEXTURE_2D .GL_TEXTURE_MAG_FILTER .GL_NEAREST)
    let gl := gl.call (.glTexParameteri .GL_TEXTURE_2D .GL_TEXTURE_MIN_FILTER .GL_NEAREST)
    let gl := gl.call (.glTexParameteri .GL_TEXTURE_2D .GL_TEXTURE_WRAP_S .GL_CLAMP_TO_EDGE)
    let gl := gl.call (.glTexParameteri .GL_TEXTURE_2D .GL_TEXTURE_WRAP_T .GL_CLAMP_TO_EDGE)
    let gl := gl.call (.glTexParameteri .GL_TEXTURE_2D .GL_TEXTURE_COMPARE_MODE .GL_NONE)
    let gl := gl.call
      (.glTexImage2D .GL_TEXTURE_2D 0 .GL_DEPTH_COMPONENT32 pitch height 0
        .GL_DEPTH_COMPONENT .GL_FLOAT)
    (key, { s with
      mDepthBuffers := Function.update s.mDepthBuffers key (some { buffer with object := object }),
      gl := gl })
  else
    (key, { s with mDepthBuffers := Function.update s.mDepthBuffers key (some buffer) })

/-! ## Binding checks -/

/-- One iteration, for slot `i`, of the loop of `GLDriver::checkActiveColorBuffer`. -/
def checkActiveColorBufferSlot (K : Env) (i : Nat) (s : GLDriver) : GLDriver :=
  let cb_color_base := getRegister s (K.CB_COLOR0_BASE + i * 4)
  let active := s.mActiveColorBuffers i
  if K.CB_COLORN_BASE_BASE_256B cb_color_base = 0 then
    if active.isSome then
      { s with
        gl := s.gl.call
          (.glFramebufferTexture .GL_FRAMEBUFFER (.GL_COLOR_ATTACHMENT0_plus i) 0 0),
        mActiveColorBuffers := Function.update s.mActiveColorBuffers i none }
    else
      s
  else if active.any (fun p => K.CB_COLORN_BASE_BASE_256B (colorBufferAt s p).cb_color_base
      = K.CB_COLORN_BASE_BASE_256B cb_color_base) then
    s
  else
    let cb_color_size := getRegister s (K.CB_COLOR0_SIZE + i * 4)
    let cb_color_info := getRegister s (K.CB_COLOR0_INFO + i * 4)
    let got := getColorBuffer K cb_color_base cb_color_size cb_color_info s
    let p := got.1
    let s := got.2
    { s with
      mActiveColorBuffers := Function.update s.mActiveColorBuffers i (some p),
      gl := s.gl.call
        (.glFramebufferTexture .GL_FRAMEBUFFER (.GL_COLOR_ATTACHMENT0_plus i)
          (colorBufferAt s p).object 0) }

/-- The function `GLDriver::checkActiveColorBuffer`: slots 0 to 7 in order; always true. -/
def checkActiveColorBuffer (K : Env) (s : GLDriver) : Bool × GLDriver :=
  (true, (List.range 8).foldl (fun s i => checkActiveColorBufferSlot K i s) s)

/-- The function `GLDriver::checkActiveDepthBuffer`; always true. -/
def checkActiveDepthBuffer (K : Env) (s : GLDriver) : Bool × GLDriver :=
  let db_depth_base := getRegister s K.DB_DEPTH_BASE
  let active := s.mActiveDepthBuffer
  if K.DB_DEPTH_BASE_BASE_256B db_depth_base = 0 then
    if active.isSome then
      (true, { s with
        gl := s.gl.call (.glFramebufferTexture .GL_FRAMEBUFFER .GL_DEPTH_ATTACHMENT 0 0),
        mActiveDepthBuffer := none })
    else
      (true, s)
  else if active.any (fun p => K.DB_DEPTH_BASE_BASE_256B (depthBufferAt s p).db_depth_base
      = K.DB_DEPTH_BASE_BASE_256B db_depth_base) then
    (true, s)
  else
    let db_depth_size := getRegister s K.DB_DEPTH_SIZE
    let db_depth_info := getRegister s K.DB_DEPTH_INFO
    let got := getDepthBuffer K db_depth_base db_depth_size db_depth_info s
    let p := got.1
    let s := got.2
    (true, { s with
      mActiveDepthBuffer := some p,
      gl := s.gl.call
        (.glFramebufferTexture .GL_FRAMEBUFFER .GL_DEPTH_ATTACHMENT (depthBufferAt s p).object 0) })

/-! ## Shaders and uniforms -/

/-- The entry a pointer `&mFetchShaders[k]` refers to. -/
def fetchShaderAt (s : GLDriver) (k : Nat) : FetchShader :=
  (s.mFetchShaders k).getD { parsed := false, pgm_start_fs := 0 }

/-- The entry a pointer `&mVertexShaders[k]` refers to. -/
def vertexShaderAt (s : GLDriver) (k : Nat) : VertexShader :=
  (s.mVertexShaders k).getD { object := 0, uniformRegisters := 0, code := "", pgm_start_vs := 0 }

/-- The entry a pointer `&mPixelShaders[k]` refers to. -/
def pixelShaderAt (s : GLDriver) (k : Nat) : PixelShader :=
  (s.mPixelShaders k).getD { object := 0, uniformRegisters := 0, code := "", pgm_start_ps := 0 }

/-- The entry a pointer `&mShaders[k]` refers to. -/
def shaderAt (s : GLDriver) (k : ShaderKey) : Shader :=
  (s.mShaders k).getD { object := 0, fetch := none, vertex := none, pixel := none }

/-- The `n` words the host reads from `&mRegisters[index]`. -/
def registerWords (regs : Registers) (index n : Nat) : List Nat :=
  (List.range n).map (fun j => regs (index + j))

/-- The function `GLDriver::checkActiveUniforms`. -/
def checkActiveUniforms (K : Env) (s : GLDriver) : Bool × GLDriver :=
  let sq_config := getRegister s K.SQ_CONFIG
  match s.mActiveShader with
  | none => (true, s)
  | some active =>
    if K.SQ_CONFIG_DX9_CONSTS sq_config then
      let s :=
        match (shaderAt s active).vertex with
        | some v =>
          if (vertexShaderAt s v).object ≠ 0 then
            let values := registerWords s.mRegisters (K.SQ_ALU_CONSTANT0_256 / 4) (256 * 4 * 4)
            let call := GLCall.glProgramUniform4fv (vertexShaderAt s v).object
              (vertexShaderAt s v).uniformRegisters (256 * 4) values
            { s with gl := s.gl.call call }
          else s
        | none => s
      let s :=
        match (shaderAt s active).pixel with
        | some p =>
          if (pixelShaderAt s p).object ≠ 0 then
            let values := registerWords s.mRegisters (K.SQ_ALU_CONSTANT0_0 / 4) (256 * 4 * 4)
            let call := GLCall.glProgramUniform4fv (pixelShaderAt s p).object
              (pixelShaderAt s p).uniformRegisters (256 * 4) values
            { s with gl := s.gl.call call }
          else s
        | none => s
      (true, s)
    else
      (true, s)

/-- The lambda `getProgramLog` of `checkActiveShader`: two host queries and the log text. -/
def getProgramLog (K : Env) (program : Nat) (gl : Host) : String × Host :=
  let gl := gl.call (.glGetProgramiv program .GL_INFO_LOG_LENGTH)
  let gl := gl.call (.glGetProgramInfoLog program)
  (K.getProgramLog gl program, gl)

/-- The test at the top of `GLDriver::checkActiveShader` ("OpenGL shader matches latte
shader"), exactly as written: three inequalities joined with `&&`. -/
def activeShaderMatches (K : Env) (s : GLDriver) (pgm_start_fs pgm_start_vs pgm_start_ps : Nat) :
    Bool :=
  match s.mActiveShader with
  | none => false
  | some active =>
    (match (shaderAt s active).fetch with
      | some f => decide (K.SQ_PGM_START_FS_PGM_START (fetchShaderAt s f).pgm_start_fs
          ≠ K.SQ_PGM_START_FS_PGM_START pgm_start_fs)
      | none => false)
    && (match (shaderAt s active).vertex with
      | some v => decide (K.SQ_PGM_START_VS_PGM_START (vertexShaderAt s v).pgm_start_vs
          ≠ K.SQ_PGM_START_VS_PGM_START pgm_start_vs)
      | none => false)
    && (match (shaderAt s active).pixel with
      | some p => decide (K.SQ_PGM_START_PS_PGM_START (pixelShaderAt s p).pgm_start_ps
          ≠ K.SQ_PGM_START_PS_PGM_START pgm_start_ps)
      | none => false)

/-- The block "Parse fetch shader if needed" of `checkActiveShader`; `false` is the early
`return false`. -/
def checkFetchShader (K : Env) (fs : Nat) (pgm_start_fs pgm_size_fs : Nat) (s : GLDriver) :
    Bool × GLDriver :=
  if ¬ (fetchShaderAt s fs).parsed then
    let program := (K.SQ_PGM_START_FS_PGM_START pgm_start_fs * 2 ^ 8) % 2 ^ 32
    let size := (K.SQ_PGM_SIZE_FS_PGM_SIZE pgm_size_fs * 2 ^ 3) % 2 ^ 32
    let res := K.parseFetchShader (fetchShaderAt s fs) program size
    let ok := res.1
    let fetchShader := res.2
    (ok, { s with mFetchShaders := Function.update s.mFetchShaders fs (some fetchShader) })
  else
    (true, s)

/-- The block "Compile vertex shader if needed" of `checkActiveShader`; `false` is an early
`return false`. -/
def checkVertexShader (K : Env) (fs vs : Nat) (pgm_start_vs pgm_size_vs : Nat) (s : GLDriver) :
    Bool × GLDriver :=
  if (vertexShaderAt s vs).object = 0 then
    let program := (K.SQ_PGM_START_VS_PGM_START pgm_start_vs * 2 ^ 8) % 2 ^ 32
    let size := (K.SQ_PGM_SIZE_VS_PGM_SIZE pgm_size_vs * 2 ^ 3) % 2 ^ 32
    let res := K.compileVertexShader (vertexShaderAt s vs) (fetchShaderAt s fs) program size
    let ok := res.1
    let vertexShader := res.2
    let s := { s with mVertexShaders := Function.update s.mVertexShaders vs (some vertexShader) }
    if ¬ ok then
      (false, s)
    else
      let object := K.glCreateShaderProgramv s.gl .GL_VERTEX_SHADER vertexShader.code
      let gl := s.gl.call (.glCreateShaderProgramv .GL_VERTEX_SHADER vertexShader.code object)
      let vertexShader := { vertexShader with object := object }
      let logged := getProgramLog K object gl
      let log := logged.1
      let gl := logged.2
      let s := { s with
        mVertexShaders := Function.update s.mVertexShaders vs (some vertexShader), gl := gl }
      if log.length ≠ 0 then
        (false, s)
      else
        let location := K.glGetUniformLocation s.gl object "VC"
        (true, { s with
          mVertexShaders := Function.update s.mVertexShaders vs
            (some { vertexShader with uniformRegisters := location }),
          gl := s.gl.call (.glGetUniformLocation object "VC") })
  else
    (true, s)

/-- The block "Compile pixel shader if needed" of `checkActiveShader`; `false` is an early
`return false`. -/
def checkPixelShader (K : Env) (ps : Nat) (pgm_start_ps pgm_size_ps : Nat) (s : GLDriver) :
    Bool × GLDriver :=
  if (pixelShaderAt s ps).object = 0 then
    let program := (K.SQ_PGM_START_PS_PGM_START pgm_start_ps * 2 ^ 8) % 2 ^ 32
    let size := (K.SQ_PGM_SIZE_PS_PGM_SIZE pgm_size_ps * 2 ^ 3) % 2 ^ 32
    let res := K.compilePixelShader (pixelShaderAt s ps) program size
    let ok := res.1
    let pixelShader := res.2
    let s := { s with mPixelShaders := Function.update s.mPixelShaders ps (some pixelShader) }
    if ¬ ok then
      (false, s)
    else
      let object := K.glCreateShaderProgramv s.gl .GL_FRAGMENT_SHADER pixelShader.code
      let gl := s.gl.call (.glCreateShaderProgramv .GL_FRAGMENT_SHADER pixelShader.code object)
      let pixelShader := { pixelShader with object := object }
      let logged := getProgramLog K object gl
      let log := logged.1
      let gl := logged.2
      let s := { s with
        mPixelShaders := Function.update s.mPixelShaders ps (some pixelShader), gl := gl }
      if log.length ≠ 0 then
        (false, s)
      else
        let location := K.glGetUniformLocation s.gl object "VC"
        (true, { s with
          mPixelShaders := Function.update s.mPixelShaders ps
            (some { pixelShader with uniformRegisters := location }),
          gl := s.gl.call (.glGetUniformLocation object "VC") })
  else
    (true, s)

/-- The block "Create pipeline" of `checkActiveShader`. -/
def linkShader (fs vs ps : Nat) (key : ShaderKey) (s : GLDriver) : GLDriver :=
  if (fetchShaderAt s fs).parsed ∧ (vertexShaderAt s vs).object ≠ 0
      ∧ (pixelShaderAt s ps).object ≠ 0 then
    let made := s.gl.glGenProgramPipelines
    let object := made.1
    let gl := made.2
    let gl := gl.call (.glUseProgramStages object .GL_VERTEX_SHADER_BIT (vertexShaderAt s vs).object)
    let gl := gl.call (.glUseProgramStages object .GL_FRAGMENT_SHADER_BIT (pixelShaderAt s ps).object)
    { s with
      mShaders := Function.update s.mShaders key
        (some { object := object, fetch := some fs, vertex := some vs, pixel := some ps }),
      gl := gl }
  else
    s

/-- The four `operator[]` lookups at the start of "Update OpenGL shader": each inserts a
value-initialised entry when its key is missing. -/
def lookupShaders (fs vs ps : Nat) (key : ShaderKey) (s : GLDriver) : GLDriver :=
  { s with
    mFetchShaders := Function.update s.mFetchShaders fs (some (fetchShaderAt s fs)),
    mVertexShaders := Function.update s.mVertexShaders vs (some (vertexShaderAt s vs)),
    mPixelShaders := Function.update s.mPixelShaders ps (some (pixelShaderAt s ps)),
    mShaders := Function.update s.mShaders key (some (shaderAt s key)) }

/-- The end of `checkActiveShader`: "Bind shader" and `return true`. -/
def bindShader (key : ShaderKey) (s : GLDriver) : Bool × GLDriver :=
  (true, { s with gl := s.gl.call (.glBindProgramPipeline (shaderAt s key).object) })

/-- The idiom `if (!check) return false;`: go on with `next` when the check returned true. -/
def andCheck (r : Bool × GLDriver) (next : GLDriver → Bool × GLDriver) : Bool × GLDriver :=
  if r.1 then next r.2 else (false, r.2)

/-- The function `GLDriver::checkActiveShader`. -/
def checkActiveShader (K : Env) (s : GLDriver) : Bool × GLDriver :=
  let pgm_start_fs := getRegister s K.SQ_PGM_START_FS
  let pgm_start_vs := getRegister s K.SQ_PGM_START_VS
  let pgm_start_ps := getRegister s K.SQ_PGM_START_PS
  let pgm_size_fs := getRegister s K.SQ_PGM_SIZE_FS
  let pgm_size_vs := getRegister s K.SQ_PGM_SIZE_VS
  let pgm_size_ps := getRegister s K.SQ_PGM_SIZE_PS
  if activeShaderMatches K s pgm_start_fs pgm_start_vs pgm_start_ps then
    (true, s)
  else
    let fs := K.SQ_PGM_START_FS_PGM_START pgm_start_fs
    let vs := K.SQ_PGM_START_VS_PGM_START pgm_start_vs
    let ps := K.SQ_PGM_START_PS_PGM_START pgm_start_ps
    let key : ShaderKey := { fetch := fs, vertex := vs, pixel := ps }
    let s := lookupShaders fs vs ps key s
    if (shaderAt s key).object = 0 then
      andCheck (checkFetchShader K fs pgm_start_fs pgm_size_fs s) fun s =>
      andCheck (checkVertexShader K fs vs pgm_start_vs pgm_size_vs s) fun s =>
      andCheck (checkPixelShader K ps pgm_start_ps pgm_size_ps s) fun s =>
      bindShader key (linkShader fs vs ps key s)
    else
      bindShader key s

/-- The function `GLDriver::checkReadyDraw`. -/
def checkReadyDraw (K : Env) (s : GLDriver) : Bool × GLDriver :=
  andCheck (checkActiveShader K s) fun s =>
  andCheck (checkActiveUniforms K s) fun s =>
  andCheck (checkActiveColorBuffer K s) fun s =>
  andCheck (checkActiveDepthBuffer K s) fun s =>
  (true, s)

/-! ## Start-up -/

/-- The function `readFileToString`: the bytes of the file, empty when it cannot be opened. -/
def readFileToString (K : Env) (filename : String) : String :=
  K.fileContents filename

/-- The array `vertices` of `initGL`: six vertices of two position and two texture
coordinates each. -/
def screenVertices : List Int :=
  [-1, 1, 0, 1,
    1, 1, 1, 1,
    1, -1, 1, 0,
    1, -1, 1, 0,
    -1, -1, 0, 0,
    -1, 1, 0, 1]

/-- The function `GLDriver::initGL`.  Activating the device context, initialising the
binding library and its error callback, and the log lines are not modelled. -/
def initGL (K : Env) (s : GLDriver) : GLDriver :=
  -- Clear active state
  let s := { s with
    mActiveShader := none, mActiveDepthBuffer := none, mActiveColorBuffers := fun _ => none }
  -- Create our default framebuffer
  let made := s.gl.glGenFramebuffers
  let frameBuffer := made.1
  let gl := made.2
  let gl := gl.call (.glBindFramebuffer .GL_FRAMEBUFFER frameBuffer)
  let vertexCode := readFileToString K "resources/shaders/screen_vertex.glsl"
  let pixelCode := readFileToString K "resources/shaders/screen_pixel.glsl"
  -- Create vertex program
  let vertexProgram := K.glCreateShaderProgramv gl .GL_VERTEX_SHADER vertexCode
  let gl := gl.call (.glCreateShaderProgramv .GL_VERTEX_SHADER vertexCode vertexProgram)
  -- Create pixel program
  let pixelProgram := K.glCreateShaderProgramv gl .GL_FRAGMENT_SHADER pixelCode
  let gl := gl.call (.glCreateShaderProgramv .GL_FRAGMENT_SHADER pixelCode pixelProgram)
  let gl := gl.call (.glBindFragDataLocation pixelProgram 0 "ps_color")
  let gl := gl.call (.glGetProgramiv vertexProgram .GL_INFO_LOG_LENGTH)
  let gl := gl.call (.glGetProgramInfoLog vertexProgram)
  -- Create pipeline
  let made := gl.glGenProgramPipelines
  let pipeline := made.1
  let gl := made.2
  let gl := gl.call (.glBindProgramPipeline pipeline)
  let gl := gl.call (.glUseProgramStages pipeline .GL_VERTEX_SHADER_BIT vertexProgram)
  let gl := gl.call (.glUseProgramStages pipeline .GL_FRAGMENT_SHADER_BIT pixelProgram)
  -- Create vertex buffer
  let made := gl.glGenBuffers
  let vertBuffer := made.1
  let gl := made.2
  let gl := gl.call (.glBindBuffer .GL_ARRAY_BUFFER vertBuffer)
  let gl := gl.call
    (.glBufferData .GL_ARRAY_BUFFER (screenVertices.length * 4) screenVertices .GL_STATIC_DRAW)
  -- Create vertex array
  let made := gl.glGenVertexArrays
  let vertArray := made.1
  let gl := made.2
  let gl := gl.call (.glBindVertexArray vertArray)
  let gl := gl.call (.glBindBuffer .GL_ARRAY_BUFFER vertBuffer)
  let fs_position := K.glGetAttribLocation gl vertexProgram "fs_position"
  let gl := gl.call (.glGetAttribLocation vertexProgram "fs_position")
  let gl := gl.call (.glEnableVertexAttribArray fs_position)
  let gl := gl.call (.glVertexAttribPointer fs_position 2 .GL_FLOAT false (4 * 4) 0)
  let fs_texCoord := K.glGetAttribLocation gl vertexProgram "fs_texCoord"
  let gl := gl.call (.glGetAttribLocation vertexProgram "fs_texCoord")
  let gl := gl.call (.glEnableVertexAttribArray fs_texCoord)
  let gl := gl.call (.glVertexAttribPointer fs_texCoord 2 .GL_FLOAT false (4 * 4) (2 * 4))
  { s with
    mFrameBuffer_object := frameBuffer,
    mScreenDraw_vertexProgram := vertexProgram,
    mScreenDraw_pixelProgram := pixelProgram,
    mScreenDraw_pipeline := pipeline,
    mScreenDraw_vertBuffer := vertBuffer,
    mScreenDraw_vertArray := vertArray,
    gl := gl }

/-! ## Packet handlers -/

/-- The function `GLDriver::decafCopyColorToScan`. -/
def decafCopyColorToScan (K : Env) (data : pm4.DecafCopyColorToScan) (s : GLDriver) : GLDriver :=
  let cb_color_base := data.bufferAddr
  let got := getColorBuffer K cb_color_base data.cb_color_size data.cb_color_info s
  let buffer := got.1
  let s := got.2
  let gl := s.gl.call (.glBindFramebuffer .GL_FRAMEBUFFER 0)
  let gl := gl.call (.glBindVertexArray s.mScreenDraw_vertArray)
  let gl := gl.call (.glBindProgramPipeline s.mScreenDraw_pipeline)
  let gl := gl.call (.glEnable .GL_TEXTURE_2D)
  let gl := gl.call (.glDisable .GL_DEPTH_TEST)
  let gl := gl.call (.glActiveTexture .GL_TEXTURE0)
  let gl := gl.call (.glBindTexture .GL_TEXTURE_2D (colorBufferAt s buffer).object)
  let gl := gl.call (.glDrawArrays .GL_TRIANGLES 0 6)
  let gl := gl.call (.glBindFramebuffer .GL_FRAMEBUFFER s.mFrameBuffer_object)
  { s with gl := gl }

/-- The function `GLDriver::decafSwapBuffers`. -/
def decafSwapBuffers (s : GLDriver) : GLDriver :=
  { s with gl := s.gl.call .swapBuffers }

/-- The first loop of `GLDriver::decafClearColor`, from slot `8 - n` on: the first slot that
is active, and whose buffer has the packet's address, if there is one. -/
def findActiveColorBuffer (K : Env) (data : pm4.DecafClearColor) (s : GLDriver) :
    Nat → Option Nat
  | 0 => none
  | n + 1 =>
    let i := 8 - (n + 1)
    match s.mActiveColorBuffers i with
    | none => findActiveColorBuffer K data s n
    | some active =>
      if K.CB_COLORN_BASE_BASE_256B (colorBufferAt s active).cb_color_base = data.bufferAddr then
        some i
      else
        findActiveColorBuffer K data s n

/-- The function `GLDriver::decafClearColor`. -/
def decafClearColor (K : Env) (data : pm4.DecafClearColor) (s : GLDriver) : GLDriver :=
  let colors := [data.red, data.green, data.blue, data.alpha]
  match findActiveColorBuffer K data s 8 with
  | some i => { s with gl := s.gl.call (.glClearBufferfv .GL_COLOR i colors) }
  | none =>
    let cb_color_base := data.bufferAddr
    let got := getColorBuffer K cb_color_base data.cb_color_size data.cb_color_info s
    let buffer := got.1
    let s := got.2
    let gl := s.gl.call
      (.glFramebufferTexture .GL_FRAMEBUFFER (.GL_COLOR_ATTACHMENT0_plus 0)
        (colorBufferAt s buffer).object 0)
    let gl := gl.call (.glClearBufferfv .GL_COLOR 0 colors)
    let gl := gl.call (.glFramebufferTexture .GL_FRAMEBUFFER (.GL_COLOR_ATTACHMENT0_plus 0) 0 0)
    { s with mActiveColorBuffers := Function.update s.mActiveColorBuffers 0 none, gl := gl }

/-- The function `GLDriver::decafClearDepthStencil`: empty. -/
def decafClearDepthStencil (s : GLDriver) : GLDriver := s

/-- The function `GLDriver::drawIndexAuto`: only the readiness check. -/
def drawIndexAuto (K : Env) (s : GLDriver) : GLDriver :=
  (checkReadyDraw K s).2

/-- The function `GLDriver::drawIndex2`: only the readiness check. -/
def drawIndex2 (K : Env) (s : GLDriver) : GLDriver :=
  (checkReadyDraw K s).2

/-! ## The command stream interpreter -/

/-- What running a buffer gives: `none` when the nesting of indirect buffers exceeds the
bound given to `runCommandBuffer`, otherwise the outcome. -/
abbrev Run := Option (Outcome GLDriver)

/-- The first `size` words guest memory holds at the pointer `addr.get()`. -/
def Env.words (K : Env) (addr size : Nat) : List Nat :=
  (List.range size).map (K.memory addr)

/-- The words guest memory holds after the first `size` words at the pointer `addr.get()`:
`K.beyond addr size i` is the word `buffer[size + i]`. -/
def Env.beyond (K : Env) (addr size : Nat) : Nat → Nat :=
  fun i => K.memory addr (size + i)

/-- The function `GLDriver::indirectBufferCall`; `run` is `runCommandBuffer`, which gets the
pointer as the `data.size` words it starts with and the words that follow them. -/
def indirectBufferCall (K : Env) (run : List Nat → (Nat → Nat) → GLDriver → Run)
    (data : pm4.IndirectBufferCall) (s : GLDriver) : Run :=
  run (K.words data.addr data.size) (K.beyond data.addr data.size) s

/-- The function `GLDriver::handlePacketType3`; `run` is `runCommandBuffer`. -/
def handlePacketType3 (K : Env) (run : List Nat → (Nat → Nat) → GLDriver → Run)
    (header : Nat) (data : List Nat) (s : GLDriver) : Run :=
  match K.opcode header with
  | .DECAF_COPY_COLOR_TO_SCAN =>
    some (.ok (decafCopyColorToScan K (K.readDecafCopyColorToScan data) s))
  | .DECAF_SWAP_BUFFERS => some (.ok (decafSwapBuffers s))
  | .DECAF_CLEAR_COLOR => some (.ok (decafClearColor K (K.readDecafClearColor data) s))
  | .DECAF_CLEAR_DEPTH_STENCIL => some (.ok (decafClearDepthStencil s))
  | .DRAW_INDEX_AUTO => some (.ok (drawIndexAuto K s))
  | .DRAW_INDEX_2 => some (.ok (drawIndex2 K s))
  | .INDEX_TYPE => some (.ok (indexType K (K.readIndexType data) s))
  | .NUM_INSTANCES => some (.ok (numInstances K (K.readNumInstances data) s))
  | .SET_ALU_CONST => some (.ok (setAluConsts K (K.readSetAluConsts data) s))
  | .SET_CONFIG_REG => some (.ok (setConfigRegs K (K.readSetConfigRegs data) s))
  | .SET_CONTEXT_REG => some (.ok (setContextRegs K (K.readSetContextRegs data) s))
  | .SET_CTL_CONST => some (.ok (setControlConstants K (K.readSetControlConstants data) s))
  | .SET_LOOP_CONST => some (.ok (setLoopConsts K (K.readSetLoopConsts data) s))
  | .SET_SAMPLER => some (.ok (setSamplers K (K.readSetSamplers data) s))
  | .SET_RESOURCE => some (.ok (setResources K (K.readSetResources data) s))
  | .INDIRECT_BUFFER_PRIV => indirectBufferCall K run (K.readIndirectBufferCall data) s
  | .other _ => some (.ok s)

/-- The word `buffer[i]` of `runCommandBuffer`, whose pointer arithmetic compares `i` with
nothing: `buffer` is the `size` words the pointer starts with, `beyond j` the word the memory
holds `j` words after them. -/
def wordAt (buffer : List Nat) (beyond : Nat → Nat) (i : Nat) : Nat :=
  if i < buffer.length then buffer.getD i 0 else beyond (i - buffer.length)

/-- The view `{ &buffer[pos + 1], size }` handed to `handlePacketType3`: the `size` words
`buffer[pos + 1] .. buffer[pos + size]`, whether or not they lie within the buffer. -/
def payloadAt (buffer : List Nat) (beyond : Nat → Nat) (pos size : Nat) : List Nat :=
  (List.range size).map fun i => wordAt buffer beyond (pos + 1 + i)

/-- The loop of `GLDriver::runCommandBuffer` from cursor `pos`, for at most `steps`
iterations; `handle` is `handlePacketType3`.  The buffer pointer and its size are given as
the list `buffer` of the `size` words the pointer starts with and the words `beyond` that
the memory holds after them; only the loop condition compares the cursor with the size. -/
def runCommandBufferLoop (K : Env) (handle : Nat → List Nat → GLDriver → Run)
    (buffer : List Nat) (beyond : Nat → Nat) : Nat → Nat → GLDriver → Run
  | 0, _, _ => none
  | steps + 1, pos, s =>
    if pos < buffer.length then
      let header := buffer.getD pos 0
      match K.type header with
      | .Type3 =>
        let size := K.size header + 1
        match handle header (payloadAt buffer beyond pos size) s with
        | some (.ok s) => runCommandBufferLoop K handle buffer beyond steps (pos + (size + 1)) s
        | r => r
      | _ => some (.thrown "What the fuck son" s)
    else
      some (.ok s)

/-- The function `GLDriver::runCommandBuffer` on the words of the buffer and the words the
memory holds after them.  `depth` bounds the nesting of indirect buffers; the loop itself
gets one iteration more than the buffer has words, which it never uses up because the
cursor advances by at least two words per iteration. -/
def runCommandBuffer (K : Env) : Nat → List Nat → (Nat → Nat) → GLDriver → Run
  | 0, _, _, _ => none
  | depth + 1, buffer, beyond, s =>
    runCommandBufferLoop K (handlePacketType3 K (runCommandBuffer K depth)) buffer beyond
      (buffer.length + 1) 0 s

end gpu.opengl

namespace glsl2

/-! ## Export translation (`glsl2_exp.cpp`) -/

/-- Values of a `SQ_SEL` field: the seven enumerators `insertSelectValue` has a case for, and
every other value. -/
inductive SQ_SEL where
  | SEL_X | SEL_Y | SEL_Z | SEL_W | SEL_0 | SEL_1 | SEL_MASK
  | other (value : Nat)
  deriving DecidableEq, Repr

/-- Values of the `TYPE` field of an export word: the three enumerators `EXP` has a case for,
and every other value. -/
inductive SQ_EXPORT_TYPE where
  | PIXEL | POS | PARAM
  | other (value : Nat)
  deriving DecidableEq, Repr

/-- Values of `SQ_MEM_EXPORT_TYPE`: the two enumerators `MEM_STREAM` has a case for, and every
other value. -/
inductive SQ_MEM_EXPORT_TYPE where
  | WRITE | WRITE_IND
  | other (value : Nat)
  deriving DecidableEq, Repr

/-- An entry of `Shader::exports`. -/
structure Export where
  type : SQ_EXPORT_TYPE
  id : Nat
  deriving DecidableEq, Repr

/-- An entry of `Shader::feedbacks[streamIndex]`. -/
structure Feedback where
  streamIndex : Nat
  offset : Nat
  size : Nat
  deriving DecidableEq, Repr

/-- The part of the shader object the export translation writes to. -/
structure Shader where
  exports : List Export
  feedbacks : Nat → List Feedback

/-- The part of the translation state the export translation uses: the output text and the
owning shader (a null pointer is `none`). -/
structure State where
  out : String
  shader : Option Shader

/-- Fields of `cf.exp.word0`.  `RW_REL` is zero for absolute addressing. -/
structure ExpWord0 where
  TYPE : SQ_EXPORT_TYPE
  ARRAY_BASE : Nat
  RW_GPR : Nat
  RW_REL : Nat
  deriving DecidableEq, Repr

/-- Fields of `cf.exp.swiz`. -/
structure ExpSwiz where
  SRC_SEL_X : SQ_SEL
  SRC_SEL_Y : SQ_SEL
  SRC_SEL_Z : SQ_SEL
  SRC_SEL_W : SQ_SEL
  deriving DecidableEq, Repr

/-- Fields of `cf.exp.buf`. -/
structure ExpBuf where
  ARRAY_SIZE : Nat
  COMP_MASK : Nat
  deriving DecidableEq, Repr

/-- Fields of `cf.exp.word1`. -/
structure ExpWord1 where
  BURST_COUNT : Nat
  CF_INST : Nat
  deriving DecidableEq, Repr

/-- The export view `cf.exp` of a control-flow instruction. -/
structure ExpInst where
  word0 : ExpWord0
  swiz : ExpSwiz
  buf : ExpBuf
  word1 : ExpWord1
  deriving DecidableEq, Repr

/-- A control-flow instruction, as far as the export translation reads it. -/
structure ControlFlowInst where
  exp : ExpInst
  deriving DecidableEq, Repr

/-- What the export translation takes from `glsl2_translate.h` and the latte headers. -/
structure Translator where
  insertLineStart : State → State
  insertLineEnd : State → State
  SQ_CF_INST_MEM_STREAM0 : Nat
  /-- The cast `static_cast<SQ_MEM_EXPORT_TYPE>(type)`. -/
  memExportType : SQ_EXPORT_TYPE → SQ_MEM_EXPORT_TYPE
  /-- The number `fmt` prints for an export type. -/
  exportTypeValue : SQ_EXPORT_TYPE → Nat

open gpu.opengl (Outcome)

/-- The function `insertExportRegister`. -/
def insertExportRegister (out : String) (gpr : Nat) (rel : Nat) : String :=
  let out := out ++ "R[" ++ toString gpr
  let out := if rel ≠ 0 then out ++ " + AL" else out
  out ++ "]"

/-- The function `getExportRegister`. -/
def getExportRegister (gpr : Nat) (rel : Nat) : String :=
  insertExportRegister "" gpr rel

/-- The function `insertSelectValue`. -/
def insertSelectValue (out : String) (src : String) (sel : SQ_SEL) : Outcome String :=
  match sel with
  | .SEL_X => .ok (out ++ src ++ ".x")
  | .SEL_Y => .ok (out ++ src ++ ".y")
  | .SEL_Z => .ok (out ++ src ++ ".z")
  | .SEL_W => .ok (out ++ src ++ ".w")
  | .SEL_0 => .ok (out ++ "0")
  | .SEL_1 => .ok (out ++ "1")
  | .SEL_MASK => .thrown "Unexpected SQ_SEL::SEL_MASK" out
  | .other value => .thrown ("Unexpected SQ_SEL value " ++ toString value) out

/-- The test inside the first loop of `insertSelectVector`: the selection is none of X, Y, Z,
W. -/
def notComponent (sel : SQ_SEL) : Bool :=
  sel ≠ .SEL_X && sel ≠ .SEL_Y && sel ≠ .SEL_Z && sel ≠ .SEL_W

/-- The switch inside the swizzle loop of `insertSelectVector` (it has no default). -/
def insertSwizzleLetter (out : String) (sel : SQ_SEL) : String :=
  match sel with
  | .SEL_X => out ++ "x"
  | .SEL_Y => out ++ "y"
  | .SEL_Z => out ++ "z"
  | .SEL_W => out ++ "w"
  | _ => out

/-- Then-continue for code that may throw. -/
def andThen {σ : Type} (o : Outcome σ) (f : σ → Outcome σ) : Outcome σ :=
  match o with
  | .ok s => f s
  | .thrown msg s => .thrown msg s

/-- The function `insertSelectVector`.  Every caller passes `numSels ≤ 4`; `sels[i]` is read
only for `i < numSels`. -/
def insertSelectVector (out : String) (src : String) (selX selY selZ selW : SQ_SEL)
    (numSels : Nat) : Outcome String :=
  let sels := [selX, selY, selZ, selW]
  if numSels = 1 then
    insertSelectValue out src (sels.getD 0 .SEL_MASK)
  else
    let isTrivialSwizzle :=
      (List.range numSels).foldl
        (fun t i => if notComponent (sels.getD i .SEL_MASK) then false else t) true
    if isTrivialSwizzle then
      let out := out ++ src ++ "."
      .ok ((List.range numSels).foldl
        (fun out i => insertSwizzleLetter out (sels.getD i .SEL_MASK)) out)
    else
      let out := out ++ "vec" ++ toString numSels ++ "("
      andThen (insertSelectValue out src (sels.getD 0 .SEL_MASK)) fun out =>
      andThen (if numSels ≥ 2 then insertSelectValue (out ++ ", ") src (sels.getD 1 .SEL_MASK)
        else .ok out) fun out =>
      andThen (if numSels ≥ 3 then insertSelectValue (out ++ ", ") src (sels.getD 2 .SEL_MASK)
        else .ok out) fun out =>
      andThen (if numSels ≥ 4 then insertSelectValue (out ++ ", ") src (sels.getD 3 .SEL_MASK)
        else .ok out) fun out =>
      .ok (out ++ ")")

/-- What `condenseSelections` leaves behind: the returned string, the four selector
references and `numSels`. -/
structure Condensed where
  value : String
  selX : SQ_SEL
  selY : SQ_SEL
  selZ : SQ_SEL
  selW : SQ_SEL
  numSels : Nat
  deriving DecidableEq, Repr

/-- The letter `condenseSelections` pushes for position `i`. -/
def pushLetter (value : String) (i : Nat) : String :=
  if i = 0 then value.push 'x'
  else if i = 1 then value.push 'y'
  else if i = 2 then value.push 'z'
  else if i = 3 then value.push 'w'
  else value

/-- One iteration of the loop of `condenseSelections` on `(sels, numSelsOut, value)`. -/
def condenseStep (st : List SQ_SEL × Nat × String) (i : Nat) : List SQ_SEL × Nat × String :=
  let (sels, numSelsOut, value) := st
  if sels.getD i .SEL_MASK ≠ .SEL_MASK then
    (sels.set numSelsOut (sels.getD i .SEL_MASK), numSelsOut + 1, pushLetter value i)
  else
    (sels, numSelsOut, value)

/-- The function `condenseSelections`.  Every caller passes `numSels = 4`. -/
def condenseSelections (selX selY selZ selW : SQ_SEL) (numSels : Nat) : Condensed :=
  let (sels, numSelsOut, value) :=
    (List.range numSels).foldl condenseStep ([selX, selY, selZ, selW], 0, "")
  { value := value,
    selX := sels.getD 0 .SEL_MASK, selY := sels.getD 1 .SEL_MASK,
    selZ := sels.getD 2 .SEL_MASK, selW := sels.getD 3 .SEL_MASK,
    numSels := numSelsOut }

/-- The function `insertMaskVector`. -/
def insertMaskVector (out : String) (src : String) (mask : Nat) : Outcome String :=
  let selX := if mask &&& (1 <<< 0) ≠ 0 then SQ_SEL.SEL_X else SQ_SEL.SEL_MASK
  let selY := if mask &&& (1 <<< 1) ≠ 0 then SQ_SEL.SEL_Y else SQ_SEL.SEL_MASK
  let selZ := if mask &&& (1 <<< 2) ≠ 0 then SQ_SEL.SEL_Z else SQ_SEL.SEL_MASK
  let selW := if mask &&& (1 <<< 3) ≠ 0 then SQ_SEL.SEL_W else SQ_SEL.SEL_MASK
  let c := condenseSelections selX selY selZ selW 4
  insertSelectVector out src c.selX c.selY c.selZ c.selW c.numSels

/-- The 32-bit unsigned `x - 60`. -/
def sub60 (x : Nat) : Nat :=
  (x + (2 ^ 32 - 60)) % 2 ^ 32

/-- The function `registerExport`. -/
def registerExport (state : State) (type : SQ_EXPORT_TYPE) (arrayBase : Nat) : State :=
  let exp : Export :=
    { type := type, id := if type = .POS then sub60 arrayBase else arrayBase }
  match state.shader with
  | some shader => { state with shader := some { shader with exports := shader.exports ++ [exp] } }
  | none => state

/-- The function `registerFeedback`. -/
def registerFeedback (state : State) (streamIndex offset size : Nat) : State :=
  match state.shader with
  | some shader =>
    let xfb : Feedback := { streamIndex := streamIndex, offset := offset, size := size }
    { state with shader := some { shader with
        feedbacks := Function.update shader.feedbacks streamIndex
          (shader.feedbacks streamIndex ++ [xfb]) } }
  | none => state

/-- Write text to `state.out`. -/
def State.write (state : State) (text : String) : State :=
  { state with out := state.out ++ text }

/-- Run a writer on `state.out`, keeping what it wrote when it throws. -/
def State.writeWith (state : State) (f : String → Outcome String) : Outcome State :=
  match f state.out with
  | .ok out => .ok { state with out := out }
  | .thrown msg out => .thrown msg { state with out := out }

/-- The body of the burst loop of `EXP` for index `i`; `c` is the result of
`condenseSelections`. -/
def expIteration (T : Translator) (cf : ControlFlowInst) (c : Condensed) (i : Nat)
    (state : State) : Outcome State :=
  let type := cf.exp.word0.TYPE
  let outIndex := cf.exp.word0.ARRAY_BASE + i
  let src := getExportRegister (cf.exp.word0.RW_GPR + i) cf.exp.word0.RW_REL
  let state := registerExport state type outIndex
  let state := T.insertLineStart state
  let target : Outcome State :=
    match type with
    | .POS => .ok (state.write ("exp_position_" ++ toString (sub60 outIndex)))
    | .PARAM => .ok (state.write ("exp_param_" ++ toString outIndex))
    | .PIXEL => .ok (state.write ("exp_pixel_" ++ toString outIndex))
    | _ => .thrown ("Unsupported export type " ++ toString (T.exportTypeValue type)) state
  andThen target fun state =>
  let state := state.write ("." ++ c.value ++ " = ")
  andThen (state.writeWith fun out =>
    insertSelectVector out src c.selX c.selY c.selZ c.selW c.numSels) fun state =>
  let state := state.write ";"
  .ok (T.insertLineEnd state)

/-- The burst loop of `EXP`: `n` more iterations, starting with index `i`. -/
def expLoop (T : Translator) (cf : ControlFlowInst) (c : Condensed) :
    Nat → Nat → State → Outcome State
  | 0, _, state => .ok state
  | n + 1, i, state => andThen (expIteration T cf c i state) (expLoop T cf c n (i + 1))

/-- The function `EXP`.  The loop `for (i = 0; i <= BURST_COUNT; ++i)` makes `BURST_COUNT + 1`
iterations. -/
def EXP (T : Translator) (state : State) (cf : ControlFlowInst) : Outcome State :=
  let selX := cf.exp.swiz.SRC_SEL_X
  let selY := cf.exp.swiz.SRC_SEL_Y
  let selZ := cf.exp.swiz.SRC_SEL_Z
  let selW := cf.exp.swiz.SRC_SEL_W
  if selX = .SEL_MASK ∧ selY = .SEL_MASK ∧ selZ = .SEL_MASK ∧ selW = .SEL_MASK then
    .ok state
  else
    let c := condenseSelections selX selY selZ selW 4
    expLoop T cf c (cf.exp.word1.BURST_COUNT + 1) 0 state

/-- The function `MEM_STREAM`.  It is registered for the four stream opcodes only, for which
`CF_INST - SQ_CF_INST_MEM_STREAM0` is not negative. -/
def MEM_STREAM (T : Translator) (state : State) (cf : ControlFlowInst) : Outcome State :=
  let streamIndex := cf.exp.word1.CF_INST - T.SQ_CF_INST_MEM_STREAM0
  let type := cf.exp.word0.TYPE
  let offset := cf.exp.word0.ARRAY_BASE * 4
  let valueSize := cf.exp.buf.ARRAY_SIZE + 1
  let src := getExportRegister cf.exp.word0.RW_GPR cf.exp.word0.RW_REL
  match T.memExportType type with
  | .WRITE_IND =>
    .thrown ("Unsupported EXPORT_WRITE_IND in MEM_STREAM" ++ toString streamIndex) state
  | .other _ =>
    .thrown ("Invalid export type " ++ toString (T.exportTypeValue type) ++ " for MEM_STREAM"
      ++ toString streamIndex) state
  | .WRITE =>
    if valueSize > 4 then
      .thrown ("Unsupported value size " ++ toString valueSize ++ " in MEM_STREAM"
        ++ toString streamIndex) state
    else
      let state := registerFeedback state streamIndex offset valueSize
      let state := T.insertLineStart state
      let state := state.write
        ("feedback_" ++ toString streamIndex ++ "_" ++ toString offset ++ " = ")
      andThen (state.writeWith fun out => insertMaskVector out src cf.exp.buf.COMP_MASK)
        fun state =>
      let state := state.write ";"
      .ok (T.insertLineEnd state)

end glsl2

namespace gpu.opengl

/-! ## A reference environment and the fresh driver, for concrete instances -/

/-- Decoding of the opcode byte in the reference environment. -/
def refOpcode (code : Nat) : Opcode3 :=
  if code = 0x27 then .DRAW_INDEX_2
  else if code = 0x2A then .INDEX_TYPE
  else if code = 0x2D then .DRAW_INDEX_AUTO
  else if code = 0x2F then .NUM_INSTANCES
  else if code = 0x32 then .INDIRECT_BUFFER_PRIV
  else if code = 0x68 then .SET_CONFIG_REG
  else if code = 0x69 then .SET_CONTEXT_REG
  else if code = 0x6A then .SET_ALU_CONST
  else if code = 0x6C then .SET_LOOP_CONST
  else if code = 0x6D then .SET_RESOURCE
  else if code = 0x6E then .SET_SAMPLER
  else if code = 0x6F then .SET_CTL_CONST
  else if code = 0xD0 then .DECAF_COPY_COLOR_TO_SCAN
  else if code = 0xD1 then .DECAF_SWAP_BUFFERS
  else if code = 0xD2 then .DECAF_CLEAR_COLOR
  else if code = 0xD3 then .DECAF_CLEAR_DEPTH_STENCIL
  else .other code

/-- Reader of a `SET_*` payload in the reference environment: a register index relative to
`base`, then the values. -/
def refReadSetRegs (base : Nat) (data : List Nat) : pm4.SetRegs :=
  { id := base + data.headD 0 * 4, values := data.tail }

/-- A type-3 header word of the reference environment. -/
def refHeader (code size : Nat) : Nat :=
  3 * 2 ^ 30 + size * 2 ^ 16 + code * 2 ^ 8

/-- A reference environment: R6xx/R7xx style register offsets and PM4 header layout, eight by
eight tiles, a parser and compiler that always succeed, a host that never reports a log, and
one nested command buffer (a `NUM_INSTANCES` packet) at guest address `0x1000`. -/
def refEnv : Env where
  CB_COLOR0_BASE := 0x28040
  CB_COLOR0_SIZE := 0x28060
  CB_COLOR0_INFO := 0x280A0
  DB_DEPTH_BASE := 0x2800C
  DB_DEPTH_SIZE := 0x28000
  DB_DEPTH_INFO := 0x28010
  SQ_CONFIG := 0x8C00
  SQ_ALU_CONSTANT0_0 := 0x30000
  SQ_ALU_CONSTANT0_256 := 0x31000
  SQ_PGM_START_FS := 0x28894
  SQ_PGM_START_VS := 0x28858
  SQ_PGM_START_PS := 0x28840
  SQ_PGM_SIZE_FS := 0x288A4
  SQ_PGM_SIZE_VS := 0x28868
  SQ_PGM_SIZE_PS := 0x28850
  SQ_VTX_SEMANTIC_0 := 0x28380
  SQ_VTX_SEMANTIC_CLEAR := 0x288E0
  VGT_DMA_INDEX_TYPE := 0x28A7C
  VGT_DMA_NUM_INSTANCES := 0x28A88
  CB_BLEND_CONTROLS :=
    [0x28804, 0x28780, 0x28784, 0x28788, 0x2878C, 0x28790, 0x28794, 0x28798, 0x2879C]
  semantic_ne_clear := by intro i hi; omega
  tile_width := 8
  tile_height := 8
  CB_COLORN_BASE_BASE_256B := fun v => v
  CB_COLORN_SIZE_PITCH_TILE_MAX := fun v => v % 2 ^ 10
  CB_COLORN_SIZE_SLICE_TILE_MAX := fun v => (v / 2 ^ 10) % 2 ^ 20
  DB_DEPTH_BASE_BASE_256B := fun v => v
  DB_DEPTH_SIZE_PITCH_TILE_MAX := fun v => v % 2 ^ 10
  DB_DEPTH_SIZE_SLICE_TILE_MAX := fun v => (v / 2 ^ 10) % 2 ^ 20
  SQ_CONFIG_DX9_CONSTS := fun v => decide ((v / 2 ^ 2) % 2 = 1)
  SQ_PGM_START_FS_PGM_START := fun v => v
  SQ_PGM_START_VS_PGM_START := fun v => v
  SQ_PGM_START_PS_PGM_START := fun v => v
  SQ_PGM_SIZE_FS_PGM_SIZE := fun v => v
  SQ_PGM_SIZE_VS_PGM_SIZE := fun v => v
  SQ_PGM_SIZE_PS_PGM_SIZE := fun v => v
  type := fun h =>
    if h / 2 ^ 30 = 0 then .Type0 else if h / 2 ^ 30 = 1 then .Type1
    else if h / 2 ^ 30 = 2 then .Type2 else .Type3
  opcode := fun h => refOpcode ((h / 2 ^ 8) % 2 ^ 8)
  size := fun h => (h / 2 ^ 16) % 2 ^ 14
  readDecafCopyColorToScan := fun d =>
    { bufferAddr := d.getD 0 0, cb_color_size := d.getD 1 0, cb_color_info := d.getD 2 0,
      scanTarget := d.getD 3 0 }
  readDecafClearColor := fun d =>
    { bufferAddr := d.getD 0 0, cb_color_size := d.getD 1 0, cb_color_info := d.getD 2 0,
      red := d.getD 3 0, green := d.getD 4 0, blue := d.getD 5 0, alpha := d.getD 6 0 }
  readIndexType := fun d => { type := d.getD 0 0 }
  readNumInstances := fun d => { count := d.getD 0 0 }
  readSetAluConsts := refReadSetRegs 0x30000
  readSetConfigRegs := refReadSetRegs 0x8000
  readSetContextRegs := refReadSetRegs 0x28000
  readSetControlConstants := refReadSetRegs 0x3CFF0
  readSetLoopConsts := refReadSetRegs 0x3E200
  readSetSamplers := refReadSetRegs 0x3C000
  readSetResources := refReadSetRegs 0x38000
  readIndirectBufferCall := fun d => { addr := d.getD 0 0, size := d.getD 1 0 }
  memory := fun addr i =>
    if addr = 0x1000 then [refHeader 0x2F 0, 7].getD i 0 else 0
  parseFetchShader := fun f _ _ => (true, { f with parsed := true })
  compileVertexShader := fun v _ _ _ => (true, { v with code := "void main() \x7b \x7d" })
  compilePixelShader := fun p _ _ => (true, { p with code := "void main() \x7b \x7d" })
  glCreateShaderProgramv := fun h _ _ => h.calls.length + 1
  getProgramLog := fun _ _ => ""
  glGetUniformLocation := fun _ _ _ => 0
  glGetAttribLocation := fun _ _ name => if name = "fs_position" then 0 else 1
  fileContents := fun _ => "void main() \x7b \x7d"

/-- A memory that holds only zero words after a buffer. -/
def zeros : Nat → Nat := fun _ => 0

/-- The driver right after start-up, before any command buffer: zeroed registers, empty
caches, nothing bound, and a host that has seen no call. -/
def freshDriver : GLDriver where
  mRegisters := fun _ => 0
  mColorBuffers := fun _ => none
  mDepthBuffers := fun _ => none
  mFetchShaders := fun _ => none
  mVertexShaders := fun _ => none
  mPixelShaders := fun _ => none
  mShaders := fun _ => none
  mActiveShader := none
  mActiveDepthBuffer := none
  mActiveColorBuffers := fun _ => none
  mFrameBuffer_object := 1
  mScreenDraw_vertArray := 1
  mScreenDraw_pipeline := 1
  gl := { calls := [], textures := 0, pipelines := 0 }

/-! ## Predicates used to state the driver theorems -/

/-- Word `w` is the word of one of the 32 semantic registers. -/
def semanticWord (K : Env) (w : Nat) : Prop :=
  ∃ k, k < 32 ∧ w = (K.SQ_VTX_SEMANTIC_0 + k * 4) / 4

instance semanticWordDecidable (K : Env) (w : Nat) : Decidable (semanticWord K w) := by
  unfold semanticWord; infer_instance

/-- The representation invariant of the surface caches and binding slots: an entry records a
base whose `BASE_256B` is its key (`getColorBuffer` and `getDepthBuffer` store the base they
looked the entry up with), and a binding slot points to an entry that exists. -/
structure WellFormed (K : Env) (s : GLDriver) : Prop where
  colorKey : ∀ k e, s.mColorBuffers k = some e → K.CB_COLORN_BASE_BASE_256B e.cb_color_base = k
  depthKey : ∀ k e, s.mDepthBuffers k = some e → K.DB_DEPTH_BASE_BASE_256B e.db_depth_base = k
  colorActive : ∀ i p, s.mActiveColorBuffers i = some p → (s.mColorBuffers p).isSome = true
  depthActive : ∀ p, s.mActiveDepthBuffer = some p → (s.mDepthBuffers p).isSome = true

/-- Colour slot `i` agrees with its base register: unbound when the base is 0, otherwise
bound to a buffer with that base. -/
def ColorSlotBound (K : Env) (s : GLDriver) (i : Nat) : Prop :=
  if K.CB_COLORN_BASE_BASE_256B (getRegister s (K.CB_COLOR0_BASE + i * 4)) = 0 then
    s.mActiveColorBuffers i = none
  else
    ∃ p, s.mActiveColorBuffers i = some p
      ∧ K.CB_COLORN_BASE_BASE_256B (colorBufferAt s p).cb_color_base
          = K.CB_COLORN_BASE_BASE_256B (getRegister s (K.CB_COLOR0_BASE + i * 4))

/-- The depth slot agrees with the depth base register. -/
def DepthSlotBound (K : Env) (s : GLDriver) : Prop :=
  if K.DB_DEPTH_BASE_BASE_256B (getRegister s K.DB_DEPTH_BASE) = 0 then
    s.mActiveDepthBuffer = none
  else
    ∃ p, s.mActiveDepthBuffer = some p
      ∧ K.DB_DEPTH_BASE_BASE_256B (depthBufferAt s p).db_depth_base
          = K.DB_DEPTH_BASE_BASE_256B (getRegister s K.DB_DEPTH_BASE)

/-- Sequencing of runs: continue with `f` after a run that returned normally. -/
def thenRun (r : Run) (f : GLDriver → Run) : Run :=
  match r with
  | some (.ok s) => f s
  | r => r

/-- The words are a sequence of whole type-3 packets: each header is followed by exactly the
`size + 1` payload words it announces. -/
inductive WholePackets (K : Env) : List Nat → Prop where
  | nil : WholePackets K []
  | cons (header : Nat) (data rest : List Nat) :
      K.type header = .Type3 → data.length = K.size header + 1 → WholePackets K rest →
      WholePackets K (header :: data ++ rest)

/-- The walk of `runCommandBufferLoop` over the packets of a buffer, checking `good` on the
header and payload of every type-3 packet and `nested` on the buffer of every indirect
call. -/
def allPacketsLoop (K : Env) (good : Nat → List Nat → Bool)
    (nested : List Nat → (Nat → Nat) → Bool)
    (buffer : List Nat) (beyond : Nat → Nat) : Nat → Nat → Bool
  | 0, _ => true
  | steps + 1, pos =>
    if pos < buffer.length then
      let header := buffer.getD pos 0
      match K.type header with
      | .Type3 =>
        let size := K.size header + 1
        let data := payloadAt buffer beyond pos size
        good header data
          && (match K.opcode header with
              | .INDIRECT_BUFFER_PRIV =>
                nested
                  (K.words (K.readIndirectBufferCall data).addr
                    (K.readIndirectBufferCall data).size)
                  (K.beyond (K.readIndirectBufferCall data).addr
                    (K.readIndirectBufferCall data).size)
              | _ => true)
          && allPacketsLoop K good nested buffer beyond steps (pos + (size + 1))
      | _ => true
    else
      true

/-- Every type-3 packet that `runCommandBuffer` with nesting bound `depth` can reach from the
start of `buffer`, nested buffers included, satisfies `good`. -/
def allPackets (K : Env) (good : Nat → List Nat → Bool) :
    Nat → List Nat → (Nat → Nat) → Bool
  | 0, _, _ => true
  | depth + 1, buffer, beyond =>
    allPacketsLoop K good (allPackets K good depth) buffer beyond (buffer.length + 1) 0

/-- A `DECAF_CLEAR_COLOR` or `DECAF_COPY_COLOR_TO_SCAN` packet names a surface whose base
address is not 0; every other packet passes. -/
def nonZeroSurface (K : Env) (header : Nat) (data : List Nat) : Bool :=
  match K.opcode header with
  | .DECAF_CLEAR_COLOR =>
    decide (K.CB_COLORN_BASE_BASE_256B (K.readDecafClearColor data).bufferAddr ≠ 0)
  | .DECAF_COPY_COLOR_TO_SCAN =>
    decide (K.CB_COLORN_BASE_BASE_256B (K.readDecafCopyColorToScan data).bufferAddr ≠ 0)
  | _ => true

/-- Neither surface cache has an entry keyed by base address 0. -/
def NoZeroKey (s : GLDriver) : Prop :=
  s.mColorBuffers 0 = none ∧ s.mDepthBuffers 0 = none

/-- The surface caches and the binding slots of `s'` are those of `s`. -/
def SameSurfaces (s s' : GLDriver) : Prop :=
  s'.mColorBuffers = s.mColorBuffers ∧ s'.mDepthBuffers = s.mDepthBuffers
    ∧ s'.mActiveColorBuffers = s.mActiveColorBuffers
    ∧ s'.mActiveDepthBuffer = s.mActiveDepthBuffer

/-! ## Predicates and examples of the decode, register and shader theorems -/

/-- The cursor of `runCommandBuffer` reaches `header`: it is a word of the buffer with only
whole type-3 packets before it. -/
def reachedHeader (K : Env) (buffer : List Nat) (header : Nat) : Prop :=
  ∃ front rest, buffer = front ++ header :: rest ∧ WholePackets K front

/-- No packet the cursor reaches in `buffer` is an indirect buffer call. -/
def NoIndirectCall (K : Env) (buffer : List Nat) : Prop :=
  ∀ header, reachedHeader K buffer header → K.type header = .Type3 →
    K.opcode header ≠ .INDIRECT_BUFFER_PRIV

/-- A `NUM_INSTANCES` packet, a word whose packet type is 0, and one more packet. -/
def brokenBuffer : List Nat :=
  [refHeader 0x2F 0, 7, 5, refHeader 0x2F 0, 9]

/-- The driver after start-up with `SQ_CONFIG.DX9_CONSTS` set. -/
def legacyDriver : GLDriver :=
  setRegister refEnv refEnv.SQ_CONFIG 4 freshDriver

/-- The driver after start-up and one shader check, with `mActiveShader` pointing to the
pipeline that check bound. -/
def activeDriver : GLDriver :=
  { (checkActiveShader refEnv freshDriver).2 with
    mActiveShader := some { fetch := 0, vertex := 0, pixel := 0 } }

/-! ## Vocabulary of the sizing, register-frame and shader-stage theorems -/

/-- The pitch of a surface whose size descriptor has `PITCH_TILE_MAX = p`. -/
def surfacePitch (K : Env) (p : Nat) : Nat :=
  (p + 1) * K.tile_width

/-- The height of a surface whose size descriptor has `PITCH_TILE_MAX = p` and
`SLICE_TILE_MAX = sl`: the number of texels of the slice divided by the pitch. -/
def surfaceHeight (K : Env) (p sl : Nat) : Nat :=
  ((sl + 1) * K.tile_width * K.tile_height) / surfacePitch K p

/-- The opcodes of the seven `SET_*` packets. -/
def isSetOpcode (op : Opcode3) : Bool :=
  op = .SET_ALU_CONST || op = .SET_CONFIG_REG || op = .SET_CONTEXT_REG || op = .SET_CTL_CONST
    || op = .SET_LOOP_CONST || op = .SET_SAMPLER || op = .SET_RESOURCE

/-- The words of a sequence of packets, each given as its header and its payload. -/
def packetWords : List (Nat × List Nat) → List Nat
  | [] => []
  | p :: ps => p.1 :: p.2 ++ packetWords ps

/-- Dispatching the packets of a sequence to `handlePacketType3` one after the other, in
order, stopping at the first that does not return normally. -/
def dispatchAll (K : Env) (run : List Nat → (Nat → Nat) → GLDriver → Run) :
    List (Nat × List Nat) → GLDriver → Run
  | [], s => some (.ok s)
  | p :: ps, s => thenRun (handlePacketType3 K run p.1 p.2 s) (dispatchAll K run ps)

/-- The state the handler of a packet that is not an indirect call leaves. -/
def handleDirect (K : Env) (header : Nat) (data : List Nat) (s : GLDriver) : GLDriver :=
  match handlePacketType3 K (fun _ _ s' => some (.ok s')) header data s with
  | some o => o.state
  | none => s

/-- Three `NUM_INSTANCES` packets with payloads 7, 8 and 9. -/
def threePackets : List (Nat × List Nat) :=
  [(refHeader 0x2F 0, [7]), (refHeader 0x2F 0, [8]), (refHeader 0x2F 0, [9])]

/-- A buffer of one word, the header of a `NUM_INSTANCES` packet, whose payload word lies
past the end of the buffer. -/
def cutBuffer : List Nat :=
  [refHeader 0x2F 0]

/-- A memory that holds the word 7 after a buffer. -/
def sevens : Nat → Nat := fun _ => 7

/-- The three stage caches of the driver. -/
def stageCaches (s : GLDriver) :
    (Nat → Option FetchShader) × (Nat → Option VertexShader) × (Nat → Option PixelShader) :=
  (s.mFetchShaders, s.mVertexShaders, s.mPixelShaders)

/-- Every stage that is built in `s` (a parsed fetch shader, a vertex or pixel shader with a
host program) has the same cache entry in `s'`. -/
def StagesKept (s s' : GLDriver) : Prop :=
  (∀ A, (fetchShaderAt s A).parsed = true → fetchShaderAt s' A = fetchShaderAt s A)
  ∧ (∀ A, (vertexShaderAt s A).object ≠ 0 → vertexShaderAt s' A = vertexShaderAt s A)
  ∧ (∀ A, (pixelShaderAt s A).object ≠ 0 → pixelShaderAt s' A = pixelShaderAt s A)

/-- The number of host programs of the given type the trace has created. -/
def createdPrograms (type : GLenum) (h : Host) : Nat :=
  (h.calls.filter fun c =>
    match c with
    | .glCreateShaderProgramv t _ _ => decide (t = type)
    | _ => false).length

/-- The reference environment with a host that reports an info log for program 1. -/
def logEnv : Env :=
  { refEnv with
    getProgramLog := fun _ program => if program = 1 then "0(1) : error C0000" else "" }

/-- The reference environment with a translator that fails on every vertex shader. -/
def translateFailEnv : Env :=
  { refEnv with compileVertexShader := fun v _ _ _ => (false, v) }

/-- The driver after start-up and one shader check, with the pixel program at address 7
selected for the next draw. -/
def nextPixelDriver : GLDriver :=
  setRegister refEnv refEnv.SQ_PGM_START_PS 7 (checkActiveShader refEnv freshDriver).2

/-! ## The host's framebuffers -/

/-- The framebuffer state of the host: the framebuffer bound to `GL_FRAMEBUFFER` (0 is the
default framebuffer) and, for each framebuffer, the texture attached to each colour
attachment (0 when the attachment is empty). -/
structure FramebufferState where
  bound : Nat
  color : Nat → Nat → Nat

/-- The effect of one host call on the framebuffer state, as OpenGL defines it:
`glBindFramebuffer` binds, `glFramebufferTexture` on `GL_COLOR_ATTACHMENT0 + i` attaches the
texture to attachment `i` of the bound framebuffer (texture 0 detaches), and no other call
the driver makes touches colour attachments. -/
def hostStep (st : FramebufferState) (c : GLCall) : FramebufferState :=
  match c with
  | .glBindFramebuffer _ framebuffer => { st with bound := framebuffer }
  | .glFramebufferTexture _ (.GL_COLOR_ATTACHMENT0_plus i) texture _ =>
    { st with
      color := Function.update st.color st.bound (Function.update (st.color st.bound) i texture) }
  | _ => st

/-- The framebuffer state of a host that started with the default framebuffer bound and no
attachment, after the calls of its trace. -/
def framebufferState (h : Host) : FramebufferState :=
  h.calls.foldl hostStep { bound := 0, color := fun _ _ => 0 }

/-- The texture attached to colour attachment `i` of the driver's framebuffer. -/
def colorAttachment (s : GLDriver) (i : Nat) : Nat :=
  (framebufferState s.gl).color s.mFrameBuffer_object i

/-- The recorded colour bindings mirror the host: the driver's framebuffer is the bound one;
a slot that records a cache entry has that entry's image, which exists, attached; a slot that
records nothing has an empty attachment. -/
def Mirror (s : GLDriver) : Prop :=
  (framebufferState s.gl).bound = s.mFrameBuffer_object
  ∧ ∀ i, match s.mActiveColorBuffers i with
      | some p => (colorBufferAt s p).object ≠ 0
          ∧ colorAttachment s i = (colorBufferAt s p).object
      | none => colorAttachment s i = 0

/-- The states the driver reaches from `initGL` on a host that has seen no call, through
register writes, `checkActiveColorBuffer`, `decafClearColor` and `decafCopyColorToScan`. -/
inductive Reachable (K : Env) : GLDriver → Prop where
  | init (s0 : GLDriver) : s0.gl.calls = [] → Reachable K (initGL K s0)
  | setRegister (reg value : Nat) (s : GLDriver) :
      Reachable K s → Reachable K (setRegister K reg value s)
  | checkActiveColorBuffer (s : GLDriver) :
      Reachable K s → Reachable K (checkActiveColorBuffer K s).2
  | decafClearColor (data : pm4.DecafClearColor) (s : GLDriver) :
      Reachable K s → Reachable K (decafClearColor K data s)
  | decafCopyColorToScan (data : pm4.DecafCopyColorToScan) (s : GLDriver) :
      Reachable K s → Reachable K (decafCopyColorToScan K data s)

/-- The driver object before `initGL`: everything zero or empty, and a host that has seen no
call. -/
def newDriver : GLDriver :=
  { freshDriver with
    mFrameBuffer_object := 0, mScreenDraw_vertArray := 0, mScreenDraw_pipeline := 0 }

/-- A clear of the 1280 by 720 colour surface at `0x200` to opaque red. -/
def clearExample : pm4.DecafClearColor :=
  { red := 0x3F800000, green := 0, blue := 0, alpha := 0x3F800000, bufferAddr := 0x200,
    cb_color_size := 159 + 14399 * 2 ^ 10, cb_color_info := 0 }

end gpu.opengl

namespace glsl2

/-! ## Reference renderings used to state the export theorems -/

/-- Selections that are legal after condensation: a component or a constant. -/
def validCondensed (sel : SQ_SEL) : Bool :=
  sel = .SEL_X || sel = .SEL_Y || sel = .SEL_Z || sel = .SEL_W || sel = .SEL_0 || sel = .SEL_1

/-- Selections inside the enumeration: a component, a constant or the mask. -/
def validSelector (sel : SQ_SEL) : Bool :=
  validCondensed sel || sel = .SEL_MASK

/-- Selections that are a plain component reference. -/
def plainComponent (sel : SQ_SEL) : Bool :=
  sel = .SEL_X || sel = .SEL_Y || sel = .SEL_Z || sel = .SEL_W

/-- The selections that are not masked, in their original order. -/
def unmasked (sels : List SQ_SEL) : List SQ_SEL :=
  sels.filter (fun sel => sel ≠ .SEL_MASK)

/-- The destination letters of the positions (x, y, z, w in this order) whose selection is
not masked. -/
def unmaskedLetters (selX selY selZ selW : SQ_SEL) : String :=
  String.mk
    (([('x', selX), ('y', selY), ('z', selZ), ('w', selW)].filter
      (fun p => p.2 ≠ .SEL_MASK)).map (fun p => p.1))

/-- Scalar rendering of a selection, in the words of the specification: field access for a
component, the constant itself for `0` and `1`. -/
def scalarText (src : String) : SQ_SEL → String
  | .SEL_X => src ++ ".x"
  | .SEL_Y => src ++ ".y"
  | .SEL_Z => src ++ ".z"
  | .SEL_W => src ++ ".w"
  | .SEL_0 => "0"
  | .SEL_1 => "1"
  | _ => ""

/-- The swizzle letter of a component selection. -/
def swizzleLetter : SQ_SEL → String
  | .SEL_X => "x"
  | .SEL_Y => "y"
  | .SEL_Z => "z"
  | .SEL_W => "w"
  | _ => ""

/-- Rendering of a condensed selection list, in the words of the specification: one
selection is a scalar; two or more plain components are a swizzle; two or more with a
constant among them are a constructor. -/
def renderSelections (src : String) (sels : List SQ_SEL) : String :=
  if sels.length = 1 then
    scalarText src (sels.headD .SEL_MASK)
  else if sels.all plainComponent then
    src ++ "." ++ String.join (sels.map swizzleLetter)
  else
    "vec" ++ toString sels.length ++ "(" ++ ", ".intercalate (sels.map (scalarText src)) ++ ")"

/-- The name of the output an export of `type` writes at `outIndex`. -/
def exportTarget (type : SQ_EXPORT_TYPE) (outIndex : Nat) : String :=
  match type with
  | .POS => "exp_position_" ++ toString (sub60 outIndex)
  | .PARAM => "exp_param_" ++ toString outIndex
  | .PIXEL => "exp_pixel_" ++ toString outIndex
  | .other _ => ""

/-- The `i`-th assignment of an export: target at `ARRAY_BASE + i`, the unmasked destination
letters, and the unmasked selections read from register `RW_GPR + i`. -/
def exportAssignment (cf : ControlFlowInst) (i : Nat) : String :=
  exportTarget cf.exp.word0.TYPE (cf.exp.word0.ARRAY_BASE + i) ++ "."
    ++ unmaskedLetters cf.exp.swiz.SRC_SEL_X cf.exp.swiz.SRC_SEL_Y cf.exp.swiz.SRC_SEL_Z
        cf.exp.swiz.SRC_SEL_W
    ++ " = "
    ++ renderSelections (getExportRegister (cf.exp.word0.RW_GPR + i) cf.exp.word0.RW_REL)
        (unmasked [cf.exp.swiz.SRC_SEL_X, cf.exp.swiz.SRC_SEL_Y, cf.exp.swiz.SRC_SEL_Z,
          cf.exp.swiz.SRC_SEL_W])
    ++ ";"

/-- Emission of the `i`-th assignment of an export: its descriptor, then one line holding the
assignment. -/
def emitAssignment (T : Translator) (cf : ControlFlowInst) (state : State) (i : Nat) : State :=
  T.insertLineEnd
    ((T.insertLineStart
        (registerExport state cf.exp.word0.TYPE (cf.exp.word0.ARRAY_BASE + i))).write
      (exportAssignment cf i))

/-- A reference translator: lines start with nothing and end with a newline. -/
def refTranslator : Translator where
  insertLineStart := fun state => state
  insertLineEnd := fun state => state.write "\n"
  SQ_CF_INST_MEM_STREAM0 := 32
  memExportType := fun type =>
    match type with
    | .PIXEL => .WRITE
    | .POS => .WRITE_IND
    | .PARAM => .other 2
    | .other value => .other value
  exportTypeValue := fun type =>
    match type with
    | .PIXEL => 0
    | .POS => 1
    | .PARAM => 2
    | .other value => value

/-- A translation state with no text yet and an owning shader with empty tables. -/
def emptyState : State :=
  { out := "", shader := some { exports := [], feedbacks := fun _ => [] } }

/-- An export of parameter 1 from register 5 with `BURST_COUNT = 2`, writing x only. -/
def burstExample : ControlFlowInst :=
  { exp :=
    { word0 := { TYPE := .PARAM, ARRAY_BASE := 1, RW_GPR := 5, RW_REL := 0 },
      swiz := { SRC_SEL_X := .SEL_X, SRC_SEL_Y := .SEL_MASK, SRC_SEL_Z := .SEL_MASK,
                SRC_SEL_W := .SEL_MASK },
      buf := { ARRAY_SIZE := 0, COMP_MASK := 0 },
      word1 := { BURST_COUNT := 2, CF_INST := 0 } } }

/-! ## Vocabulary of the export error and bookkeeping theorems -/

/-- The four source selectors of an export, in x, y, z, w order. -/
def sourceSelectors (cf : ControlFlowInst) : List SQ_SEL :=
  [cf.exp.swiz.SRC_SEL_X, cf.exp.swiz.SRC_SEL_Y, cf.exp.swiz.SRC_SEL_Z, cf.exp.swiz.SRC_SEL_W]

/-- All four source selectors of the export are `SEL_MASK`. -/
def fullyMasked (cf : ControlFlowInst) : Bool :=
  cf.exp.swiz.SRC_SEL_X = .SEL_MASK && cf.exp.swiz.SRC_SEL_Y = .SEL_MASK
    && cf.exp.swiz.SRC_SEL_Z = .SEL_MASK && cf.exp.swiz.SRC_SEL_W = .SEL_MASK

/-- The export types the switch of `EXP` has a case for. -/
def supportedType (type : SQ_EXPORT_TYPE) : Bool :=
  type = .POS || type = .PARAM || type = .PIXEL

/-- The message `insertSelectValue` throws for a selection that is no component and no
constant. -/
def selectError : SQ_SEL → String
  | .SEL_MASK => "Unexpected SQ_SEL::SEL_MASK"
  | .other value => "Unexpected SQ_SEL value " ++ toString value
  | _ => ""

/-- The letters of the components whose bit is set in a component mask, in x, y, z, w
order. -/
def maskLetters (mask : Nat) : String :=
  (if mask &&& (1 <<< 0) ≠ 0 then "x" else "") ++ (if mask &&& (1 <<< 1) ≠ 0 then "y" else "")
    ++ (if mask &&& (1 <<< 2) ≠ 0 then "z" else "") ++ (if mask &&& (1 <<< 3) ≠ 0 then "w" else "")

/-- The output index of burst element `i` after renumbering: positions are counted from
60, parameters and pixels from 0. -/
def outputIndex (cf : ControlFlowInst) (i : Nat) : Nat :=
  if cf.exp.word0.TYPE = .POS then cf.exp.word0.ARRAY_BASE + i - 60
  else cf.exp.word0.ARRAY_BASE + i

/-- The name of the output class of an export type. -/
def outputClass : SQ_EXPORT_TYPE → String
  | .POS => "exp_position_"
  | .PARAM => "exp_param_"
  | .PIXEL => "exp_pixel_"
  | .other _ => ""

/-- The descriptor `registerExport` builds for burst element `i` of an export. -/
def exportDescriptor (cf : ControlFlowInst) (i : Nat) : Export :=
  { type := cf.exp.word0.TYPE,
    id := if cf.exp.word0.TYPE = .POS then sub60 (cf.exp.word0.ARRAY_BASE + i)
          else cf.exp.word0.ARRAY_BASE + i }

/-- The descriptors of the `n` first burst elements of an export, in emission order. -/
def exportDescriptors (cf : ControlFlowInst) (n : Nat) : List Export :=
  (List.range n).map (exportDescriptor cf)

/-- The descriptor of a stream write. -/
def feedbackDescriptor (T : Translator) (cf : ControlFlowInst) : Feedback :=
  { streamIndex := cf.exp.word1.CF_INST - T.SQ_CF_INST_MEM_STREAM0,
    offset := cf.exp.word0.ARRAY_BASE * 4,
    size := cf.exp.buf.ARRAY_SIZE + 1 }

/-- An export whose four selectors are masked, of an unsupported type. -/
def maskedExample : ControlFlowInst :=
  { exp :=
    { word0 := { TYPE := .other 7, ARRAY_BASE := 3, RW_GPR := 5, RW_REL := 0 },
      swiz := { SRC_SEL_X := .SEL_MASK, SRC_SEL_Y := .SEL_MASK, SRC_SEL_Z := .SEL_MASK,
                SRC_SEL_W := .SEL_MASK },
      buf := { ARRAY_SIZE := 0, COMP_MASK := 0 },
      word1 := { BURST_COUNT := 2, CF_INST := 0 } } }

/-- A position export of base 61 from register 2 with `BURST_COUNT = 1`, writing x and y. -/
def positionExample : ControlFlowInst :=
  { exp :=
    { word0 := { TYPE := .POS, ARRAY_BASE := 61, RW_GPR := 2, RW_REL := 0 },
      swiz := { SRC_SEL_X := .SEL_X, SRC_SEL_Y := .SEL_Y, SRC_SEL_Z := .SEL_MASK,
                SRC_SEL_W := .SEL_MASK },
      buf := { ARRAY_SIZE := 0, COMP_MASK := 0 },
      word1 := { BURST_COUNT := 1, CF_INST := 0 } } }

/-- A stream write of three components of register 4 to offset 8 of stream 1. -/
def streamExample : ControlFlowInst :=
  { exp :=
    { word0 := { TYPE := .PIXEL, ARRAY_BASE := 2, RW_GPR := 4, RW_REL := 0 },
      swiz := { SRC_SEL_X := .SEL_X, SRC_SEL_Y := .SEL_Y, SRC_SEL_Z := .SEL_Z,
                SRC_SEL_W := .SEL_W },
      buf := { ARRAY_SIZE := 2, COMP_MASK := 7 },
      word1 := { BURST_COUNT := 0, CF_INST := 33 } } }

/-- A stream write of five components (`ARRAY_SIZE = 4`). -/
def wideStreamExample : ControlFlowInst :=
  { exp :=
    { word0 := { TYPE := .PIXEL, ARRAY_BASE := 2, RW_GPR := 4, RW_REL := 0 },
      swiz := { SRC_SEL_X := .SEL_X, SRC_SEL_Y := .SEL_Y, SRC_SEL_Z := .SEL_Z,
                SRC_SEL_W := .SEL_W },
      buf := { ARRAY_SIZE := 4, COMP_MASK := 15 },
      word1 := { BURST_COUNT := 0, CF_INST := 33 } } }

/-- An export of parameter 0 whose second selector is the value 9, outside the
enumeration. -/
def badSelectorExample : ControlFlowInst :=
  { exp :=
    { word0 := { TYPE := .PARAM, ARRAY_BASE := 0, RW_GPR := 1, RW_REL := 0 },
      swiz := { SRC_SEL_X := .SEL_X, SRC_SEL_Y := .other 9, SRC_SEL_Z := .SEL_MASK,
                SRC_SEL_W := .SEL_MASK },
      buf := { ARRAY_SIZE := 0, COMP_MASK := 0 },
      word1 := { BURST_COUNT := 0, CF_INST := 0 } } }

/-! ## Vocabulary of the stream statement theorem -/

/-- The letters among x, y, z, w whose bit (0, 1, 2, 3) is set in `m`, in this order. -/
def setBitLetters (m : Nat) : String :=
  String.mk
    (([(0, 'x'), (1, 'y'), (2, 'z'), (3, 'w')].filter (fun p => m.testBit p.1)).map
      (fun p => p.2))

/-- The source register of an export as text: `R[G]`, or `R[G + AL]` when the addressing is
relative. -/
def symbolicRegister (gpr rel : Nat) : String :=
  if rel = 0 then "R[" ++ toString gpr ++ "]" else "R[" ++ toString gpr ++ " + AL]"

/-- The statement of a stream write, in the words of the specification. -/
def streamStatement (T : Translator) (cf : ControlFlowInst) : String :=
  "feedback_" ++ toString (cf.exp.word1.CF_INST - T.SQ_CF_INST_MEM_STREAM0) ++ "_"
    ++ toString (cf.exp.word0.ARRAY_BASE * 4) ++ " = "
    ++ symbolicRegister cf.exp.word0.RW_GPR cf.exp.word0.RW_REL ++ "."
    ++ setBitLetters cf.exp.buf.COMP_MASK ++ ";"

/-- A stream write of components x and z of register 4, relatively addressed, to offset 8 of
stream 1. -/
def relativeStreamExample : ControlFlowInst :=
  { exp :=
    { word0 := { TYPE := .PIXEL, ARRAY_BASE := 2, RW_GPR := 4, RW_REL := 1 },
      swiz := { SRC_SEL_X := .SEL_X, SRC_SEL_Y := .SEL_Y, SRC_SEL_Z := .SEL_Z,
                SRC_SEL_W := .SEL_W },
      buf := { ARRAY_SIZE := 1, COMP_MASK := 5 },
      word1 := { BURST_COUNT := 0, CF_INST := 33 } } }

/-- An export of parameter 2 from register 1 that writes y, z, w from the selections
(MASK, 0, Y, W). -/
def constructorExample : ControlFlowInst :=
  { exp :=
    { word0 := { TYPE := .PARAM, ARRAY_BASE := 2, RW_GPR := 1, RW_REL := 0 },
      swiz := { SRC_SEL_X := .SEL_MASK, SRC_SEL_Y := .SEL_0, SRC_SEL_Z := .SEL_Y,
                SRC_SEL_W := .SEL_W },
      buf := { ARRAY_SIZE := 0, COMP_MASK := 0 },
      word1 := { BURST_COUNT := 0, CF_INST := 0 } } }

end glsl2

namespace gpu.opengl

/-! ## Register writes: theorems -/

theorem foldl_update_apply (f : Nat → Nat) (c : Nat) (l : List Nat) (regs : Registers) (w : Nat) :
    (l.foldl (fun r i => Function.update r (f i) c) regs) w
      = if ∃ i, i ∈ l ∧ w = f i then c else regs w := by
  induction l generalizing regs with
  | nil => simp
  | cons a l ih =>
    rw [List.foldl_cons, ih]
    by_cases h1 : ∃ i, i ∈ l ∧ w = f i
    · have : ∃ i, i ∈ a :: l ∧ w = f i := by
        obtain ⟨i, hi, e⟩ := h1
        exact ⟨i, List.mem_cons_of_mem _ hi, e⟩
      rw [if_pos h1, if_pos this]
    · rw [if_neg h1]
      by_cases h2 : w = f a
      · have : ∃ i, i ∈ a :: l ∧ w = f i := ⟨a, List.mem_cons_self _ _, h2⟩
        rw [if_pos this, h2, Function.update_same]
      · have : ¬ ∃ i, i ∈ a :: l ∧ w = f i := by
          rintro ⟨i, hi, e⟩
          rcases List.mem_cons.1 hi with rfl | hi
          · exact h2 e
          · exact h1 ⟨i, hi, e⟩
        rw [if_neg this, Function.update_noteq h2]

theorem setRegisterRegs_apply (K : Env) (reg value : Nat) (regs : Registers) (w : Nat) :
    setRegisterRegs K reg value regs w
      = if reg = K.SQ_VTX_SEMANTIC_CLEAR ∧ semanticWord K w then 0xffffffff
        else if w = reg / 4 then value else regs w := by
  unfold setRegisterRegs
  by_cases hc : reg = K.SQ_VTX_SEMANTIC_CLEAR
  · simp only [hc, if_true, true_and]
    rw [foldl_update_apply]
    have : (∃ i, i ∈ List.range 32 ∧ w = (K.SQ_VTX_SEMANTIC_0 + i * 4) / 4) ↔ semanticWord K w := by
      simp [semanticWord, List.mem_range]
    by_cases hs : semanticWord K w
    · rw [if_pos (this.2 hs), if_pos hs]
    · rw [if_neg (fun h => hs (this.1 h)), if_neg hs, Function.update_apply]
  · simp only [hc, if_false, false_and, ite_self, Function.update_apply]

theorem setRegisterFuel_foldlM (K : Env) (n : Nat) (l : List Nat) (hl : ∀ i ∈ l, i < 32)
    (regs : Registers) :
    l.foldlM (fun r i => setRegisterFuel K (n + 1) (K.SQ_VTX_SEMANTIC_0 + i * 4) 0xffffffff r) regs
      = some (l.foldl
          (fun r i => Function.update r ((K.SQ_VTX_SEMANTIC_0 + i * 4) / 4) 0xffffffff) regs) := by
  induction l generalizing regs with
  | nil => rfl
  | cons a l ih =>
    have ha : K.SQ_VTX_SEMANTIC_0 + a * 4 ≠ K.SQ_VTX_SEMANTIC_CLEAR :=
      K.semantic_ne_clear a (hl a (List.mem_cons_self _ _))
    rw [List.foldlM_cons, List.foldl_cons]
    have : setRegisterFuel K (n + 1) (K.SQ_VTX_SEMANTIC_0 + a * 4) 0xffffffff regs
        = some (Function.update regs ((K.SQ_VTX_SEMANTIC_0 + a * 4) / 4) 0xffffffff) := by
      simp [setRegisterFuel, ha]
    rw [this]
    exact ih (fun i hi => hl i (List.mem_cons_of_mem _ hi)) _

/-- With call depth two or more the literal recursion of `setRegister` returns, and returns
what `setRegisterRegs` computes. -/
theorem setRegisterFuel_eq_setRegister (K : Env) (n reg value : Nat) (regs : Registers) :
    setRegisterFuel K (n + 2) reg value regs = some (setRegisterRegs K reg value regs) := by
  unfold setRegisterRegs
  rw [setRegisterFuel]
  by_cases hc : reg = K.SQ_VTX_SEMANTIC_CLEAR
  · simp only [hc, if_true]
    exact setRegisterFuel_foldlM K n (List.range 32) (fun i hi => List.mem_range.1 hi) _
  · simp only [hc, if_false, ite_self]

theorem setRegister_regs_apply (K : Env) (reg value : Nat) (s : GLDriver) (w : Nat) :
    (setRegister K reg value s).mRegisters w
      = if reg = K.SQ_VTX_SEMANTIC_CLEAR ∧ semanticWord K w then 0xffffffff
        else if w = reg / 4 then value else s.mRegisters w :=
  setRegisterRegs_apply K reg value s.mRegisters w

/-- A word that the `SET_*` loop does not store to directly keeps its value when the loop
does not reset it. -/
theorem setRegsLoop_keep (K : Env) (id : Nat) (w : Nat) :
    ∀ (vs : List Nat) (i0 : Nat) (s : GLDriver),
      (∀ j, i0 ≤ j → j < i0 + vs.length → w ≠ (id + j * 4) / 4) →
      ¬ ((∃ j, i0 ≤ j ∧ j < i0 + vs.length ∧ id + j * 4 = K.SQ_VTX_SEMANTIC_CLEAR)
          ∧ semanticWord K w) →
      (setRegsLoop K id i0 vs s).mRegisters w = s.mRegisters w := by
  intro vs
  induction vs with
  | nil => intro i0 s _ _; rfl
  | cons v vs ih =>
    intro i0 s hw hn
    simp only [List.length_cons] at hw hn
    rw [setRegsLoop, ih (i0 + 1)]
    · rw [setRegister_regs_apply]
      have h1 : ¬ (id + i0 * 4 = K.SQ_VTX_SEMANTIC_CLEAR ∧ semanticWord K w) :=
        fun h => hn ⟨⟨i0, le_refl _, by omega, h.1⟩, h.2⟩
      rw [if_neg h1, if_neg (hw i0 (le_refl _) (by omega))]
    · intro j h1 h2
      exact hw j (by omega) (by omega)
    · rintro ⟨⟨j, h1, h2, h3⟩, h4⟩
      exact hn ⟨⟨j, by omega, by omega, h3⟩, h4⟩

/-- A semantic word that the `SET_*` loop does not store to directly holds the sentinel when
the loop writes `SQ_VTX_SEMANTIC_CLEAR`. -/
theorem setRegsLoop_clear (K : Env) (id : Nat) (w : Nat) (hsem : semanticWord K w) :
    ∀ (vs : List Nat) (i0 : Nat) (s : GLDriver),
      (∀ j, i0 ≤ j → j < i0 + vs.length → w ≠ (id + j * 4) / 4) →
      (∃ j, i0 ≤ j ∧ j < i0 + vs.length ∧ id + j * 4 = K.SQ_VTX_SEMANTIC_CLEAR) →
      (setRegsLoop K id i0 vs s).mRegisters w = 0xffffffff := by
  intro vs
  induction vs with
  | nil =>
    intro i0 s _ h
    obtain ⟨j, h1, h2, _⟩ := h
    simp only [List.length_nil] at h2
    omega
  | cons v vs ih =>
    intro i0 s hw hex
    simp only [List.length_cons] at hw hex
    have hw2 : ∀ j, i0 + 1 ≤ j → j < i0 + 1 + vs.length → w ≠ (id + j * 4) / 4 :=
      fun j h1 h2 => hw j (by omega) (by omega)
    rw [setRegsLoop]
    by_cases hrest : ∃ j, i0 + 1 ≤ j ∧ j < i0 + 1 + vs.length
        ∧ id + j * 4 = K.SQ_VTX_SEMANTIC_CLEAR
    · exact ih (i0 + 1) _ hw2 hrest
    · rw [setRegsLoop_keep K id w vs (i0 + 1) _ hw2 (fun h => hrest h.1)]
      obtain ⟨j, h1, h2, h3⟩ := hex
      have hj : j = i0 := by
        by_contra hne
        exact hrest ⟨j, by omega, by omega, h3⟩
      subst hj
      rw [setRegister_regs_apply, if_pos ⟨h3, hsem⟩]

/-- The word of the `i`-th register a `SET_*` loop writes, after the loop. -/
theorem setRegsLoop_written (K : Env) (id : Nat) :
    ∀ (vs : List Nat) (i0 : Nat) (s : GLDriver) (i : Nat), i0 ≤ i → i < i0 + vs.length →
      ((∃ j, i ≤ j ∧ j < i0 + vs.length ∧ id + j * 4 = K.SQ_VTX_SEMANTIC_CLEAR)
          → semanticWord K ((id + i * 4) / 4)
          → (setRegsLoop K id i0 vs s).mRegisters ((id + i * 4) / 4) = 0xffffffff)
      ∧ (¬ ((∃ j, i ≤ j ∧ j < i0 + vs.length ∧ id + j * 4 = K.SQ_VTX_SEMANTIC_CLEAR)
            ∧ semanticWord K ((id + i * 4) / 4))
          → (setRegsLoop K id i0 vs s).mRegisters ((id + i * 4) / 4) = vs.getD (i - i0) 0) := by
  intro vs
  induction vs with
  | nil =>
    intro i0 s i h1 h2
    simp only [List.length_nil] at h2
    omega
  | cons v vs ih =>
    intro i0 s i h1 h2
    simp only [List.length_cons] at h2 ⊢
    by_cases hi : i = i0
    · subst hi
      have hw : ∀ j, i + 1 ≤ j → j < i + 1 + vs.length
          → (id + i * 4) / 4 ≠ (id + j * 4) / 4 := by
        intro j h3 _
        omega
      rw [setRegsLoop]
      constructor
      · rintro ⟨j, h3, h4, h5⟩ hsem
        by_cases hrest : ∃ j, i + 1 ≤ j ∧ j < i + 1 + vs.length
            ∧ id + j * 4 = K.SQ_VTX_SEMANTIC_CLEAR
        · exact setRegsLoop_clear K id _ hsem vs (i + 1) _ hw hrest
        · rw [setRegsLoop_keep K id _ vs (i + 1) _ hw (fun h => hrest h.1)]
          have hj : j = i := by
            by_contra hne
            exact hrest ⟨j, by omega, by omega, h5⟩
          subst hj
          rw [setRegister_regs_apply, if_pos ⟨h5, hsem⟩]
      · intro hn
        rw [setRegsLoop_keep K id _ vs (i + 1) _ hw
          (fun h => hn ⟨by
            obtain ⟨j, h3, h4, h5⟩ := h.1
            exact ⟨j, by omega, by omega, h5⟩, h.2⟩)]
        have h0 : ¬ (id + i * 4 = K.SQ_VTX_SEMANTIC_CLEAR
            ∧ semanticWord K ((id + i * 4) / 4)) :=
          fun h => hn ⟨⟨i, le_refl _, by omega, h.1⟩, h.2⟩
        rw [setRegister_regs_apply, if_neg h0, if_pos rfl]
        simp
    · rw [setRegsLoop]
      have key := ih (i0 + 1) (setRegister K (id + i0 * 4) v s) i (by omega) (by omega)
      have e1 : i0 + 1 + vs.length = i0 + (vs.length + 1) := by omega
      have e2 : (v :: vs).getD (i - i0) 0 = vs.getD (i - (i0 + 1)) 0 := by
        have : i - i0 = (i - (i0 + 1)) + 1 := by omega
        rw [this, List.getD_cons_succ]
      rw [e1] at key
      rw [e2]
      exact key

/-- C1 (as amended): after `setContextRegs` or `setConfigRegs` has applied a packet with
first register `id` and values `v0 .. vn-1`, the register at offset `id + 4 i` holds `vi`,
unless that register is one of the 32 semantic registers and the packet writes
`SQ_VTX_SEMANTIC_CLEAR` at position `i` or later, in which case it holds `0xffffffff`. -/
theorem setContextRegs_setConfigRegs_written (K : Env) (data : pm4.SetRegs) (s : GLDriver)
    (i : Nat) (hi : i < data.values.length) :
    (((∃ j, i ≤ j ∧ j < data.values.length ∧ data.id + j * 4 = K.SQ_VTX_SEMANTIC_CLEAR)
          ∧ semanticWord K ((data.id + i * 4) / 4))
        → (setContextRegs K data s).mRegisters ((data.id + i * 4) / 4) = 0xffffffff
          ∧ (setConfigRegs K data s).mRegisters ((data.id + i * 4) / 4) = 0xffffffff)
    ∧ (¬ ((∃ j, i ≤ j ∧ j < data.values.length ∧ data.id + j * 4 = K.SQ_VTX_SEMANTIC_CLEAR)
          ∧ semanticWord K ((data.id + i * 4) / 4))
        → (setContextRegs K data s).mRegisters ((data.id + i * 4) / 4) = data.values[i]
          ∧ (setConfigRegs K data s).mRegisters ((data.id + i * 4) / 4) = data.values[i]) := by
  have key := setRegsLoop_written K data.id data.values 0 s i (Nat.zero_le _) (by omega)
  simp only [Nat.zero_add, Nat.sub_zero] at key
  have hget : data.values.getD i 0 = data.values[i] := by
    simp [List.getD_eq_getElem?_getD, List.getElem?_eq_getElem hi]
  rw [hget] at key
  exact ⟨fun h => ⟨key.1 h.1 h.2, key.1 h.1 h.2⟩, fun h => ⟨key.2 h, key.2 h⟩⟩

/-- C1 (witness): a `SET_CONTEXT_REG` of the single value `0x100` to `CB_COLOR0_BASE` leaves
that register holding `0x100`. -/
theorem setContextRegs_setConfigRegs_written_witness :
    (setContextRegs refEnv { id := 0x28040, values := [0x100] } freshDriver).mRegisters
        ((0x28040 + 0 * 4) / 4) = 0x100 :=
  ((setContextRegs_setConfigRegs_written refEnv { id := 0x28040, values := [0x100] }
    freshDriver 0 (by decide)).2
    (by
      rintro ⟨⟨j, _, h2, h3⟩, _⟩
      simp only [List.length_singleton] at h2
      have : j = 0 := by omega
      subst this
      exact absurd h3 (by decide))).1

/-- C1 (counterexample): a `SET_CONTEXT_REG` packet of 345 zero values starting at
`SQ_VTX_SEMANTIC_0` (offset `0x28380`) also writes `SQ_VTX_SEMANTIC_CLEAR` (offset `0x288E0`,
position 344); afterwards the register at the first offset holds `0xffffffff`, not `v0 = 0`. -/
theorem setContextRegs_written_counterexample :
    (setContextRegs refEnv { id := 0x28380, values := List.replicate 345 0 }
        freshDriver).mRegisters ((0x28380 + 4 * 0) / 4) = 0xffffffff
      ∧ (List.replicate 345 0)[0]? = some 0
      ∧ 0x28380 + 4 * 344 = refEnv.SQ_VTX_SEMANTIC_CLEAR := by
  set_option maxRecDepth 100000 in decide

/-! ## Surface caches: theorems -/

theorem getColorBuffer_fst (K : Env) (b sz info : Nat) (s : GLDriver) :
    (getColorBuffer K b sz info s).1 = K.CB_COLORN_BASE_BASE_256B b := by
  unfold getColorBuffer
  simp only
  split <;> rfl

theorem getDepthBuffer_fst (K : Env) (b sz info : Nat) (s : GLDriver) :
    (getDepthBuffer K b sz info s).1 = K.DB_DEPTH_BASE_BASE_256B b := by
  unfold getDepthBuffer
  simp only
  split <;> rfl

/-- After `getColorBuffer` the entry for the base exists, records the base, and has a host
image. -/
theorem getColorBuffer_entry (K : Env) (b sz info : Nat) (s : GLDriver) :
    ∃ e, (getColorBuffer K b sz info s).2.mColorBuffers (K.CB_COLORN_BASE_BASE_256B b) = some e
      ∧ e.cb_color_base = b ∧ e.object ≠ 0 := by
  unfold getColorBuffer
  simp only
  split
  · exact ⟨{ object := s.gl.textures + 1, cb_color_base := b },
      by simp [Host.glGenTextures], rfl, Nat.succ_ne_zero _⟩
  · rename_i h
    exact ⟨{ object := (colorBufferAt s (K.CB_COLORN_BASE_BASE_256B b)).object,
             cb_color_base := b }, by simp, rfl, h⟩

theorem getDepthBuffer_entry (K : Env) (b sz info : Nat) (s : GLDriver) :
    ∃ e, (getDepthBuffer K b sz info s).2.mDepthBuffers (K.DB_DEPTH_BASE_BASE_256B b) = some e
      ∧ e.db_depth_base = b ∧ e.object ≠ 0 := by
  unfold getDepthBuffer
  simp only
  split
  · exact ⟨{ object := s.gl.textures + 1, db_depth_base := b },
      by simp [Host.glGenTextures], rfl, Nat.succ_ne_zero _⟩
  · rename_i h
    exact ⟨{ object := (depthBufferAt s (K.DB_DEPTH_BASE_BASE_256B b)).object,
             db_depth_base := b }, by simp, rfl, h⟩

/-- On a hit, that is when the entry for the base has a host image, `getColorBuffer` only
records the base: no host call, same image. -/
theorem getColorBuffer_hit (K : Env) (b sz info : Nat) (s : GLDriver) (e : ColorBuffer)
    (he : s.mColorBuffers (K.CB_COLORN_BASE_BASE_256B b) = some e) (ho : e.object ≠ 0) :
    getColorBuffer K b sz info s
      = (K.CB_COLORN_BASE_BASE_256B b,
          { s with
            mColorBuffers := Function.update s.mColorBuffers
              (K.CB_COLORN_BASE_BASE_256B b) (some { e with cb_color_base := b }) }) := by
  unfold getColorBuffer
  simp [colorBufferAt, he, ho]

theorem getDepthBuffer_hit (K : Env) (b sz info : Nat) (s : GLDriver) (e : DepthBuffer)
    (he : s.mDepthBuffers (K.DB_DEPTH_BASE_BASE_256B b) = some e) (ho : e.object ≠ 0) :
    getDepthBuffer K b sz info s
      = (K.DB_DEPTH_BASE_BASE_256B b,
          { s with
            mDepthBuffers := Function.update s.mDepthBuffers
              (K.DB_DEPTH_BASE_BASE_256B b) (some { e with db_depth_base := b }) }) := by
  unfold getDepthBuffer
  simp [depthBufferAt, he, ho]

/-- C5: two calls of `getColorBuffer` (of `getDepthBuffer`) for the same base address return
the same cache entry, with the same host image, and the second call makes no host call
whatever size and format descriptors it is given; calls for base addresses that differ
return entries that differ. -/
theorem surface_cache_identity (K : Env) (s : GLDriver)
    (b1 sz1 info1 b2 sz2 info2 : Nat) :
    (K.CB_COLORN_BASE_BASE_256B b1 = K.CB_COLORN_BASE_BASE_256B b2 →
      (getColorBuffer K b2 sz2 info2 (getColorBuffer K b1 sz1 info1 s).2).1
          = (getColorBuffer K b1 sz1 info1 s).1
        ∧ (getColorBuffer K b2 sz2 info2 (getColorBuffer K b1 sz1 info1 s).2).2.gl
          = (getColorBuffer K b1 sz1 info1 s).2.gl
        ∧ (colorBufferAt (getColorBuffer K b2 sz2 info2 (getColorBuffer K b1 sz1 info1 s).2).2
            (K.CB_COLORN_BASE_BASE_256B b2)).object
          = (colorBufferAt (getColorBuffer K b1 sz1 info1 s).2
              (K.CB_COLORN_BASE_BASE_256B b1)).object)
    ∧ (K.CB_COLORN_BASE_BASE_256B b1 ≠ K.CB_COLORN_BASE_BASE_256B b2 →
      (getColorBuffer K b2 sz2 info2 (getColorBuffer K b1 sz1 info1 s).2).1
        ≠ (getColorBuffer K b1 sz1 info1 s).1)
    ∧ (K.DB_DEPTH_BASE_BASE_256B b1 = K.DB_DEPTH_BASE_BASE_256B b2 →
      (getDepthBuffer K b2 sz2 info2 (getDepthBuffer K b1 sz1 info1 s).2).1
          = (getDepthBuffer K b1 sz1 info1 s).1
        ∧ (getDepthBuffer K b2 sz2 info2 (getDepthBuffer K b1 sz1 info1 s).2).2.gl
          = (getDepthBuffer K b1 sz1 info1 s).2.gl
        ∧ (depthBufferAt (getDepthBuffer K b2 sz2 info2 (getDepthBuffer K b1 sz1 info1 s).2).2
            (K.DB_DEPTH_BASE_BASE_256B b2)).object
          = (depthBufferAt (getDepthBuffer K b1 sz1 info1 s).2
              (K.DB_DEPTH_BASE_BASE_256B b1)).object)
    ∧ (K.DB_DEPTH_BASE_BASE_256B b1 ≠ K.DB_DEPTH_BASE_BASE_256B b2 →
      (getDepthBuffer K b2 sz2 info2 (getDepthBuffer K b1 sz1 info1 s).2).1
        ≠ (getDepthBuffer K b1 sz1 info1 s).1) := by
  refine ⟨?_, ?_, ?_, ?_⟩
  · intro h
    obtain ⟨e, he, _, ho⟩ := getColorBuffer_entry K b1 sz1 info1 s
    rw [h] at he
    rw [getColorBuffer_hit K b2 sz2 info2 _ e he ho, getColorBuffer_fst, h]
    refine ⟨rfl, rfl, ?_⟩
    simp [colorBufferAt, he]
  · intro h
    rw [getColorBuffer_fst, getColorBuffer_fst]
    exact fun e => h e.symm
  · intro h
    obtain ⟨e, he, _, ho⟩ := getDepthBuffer_entry K b1 sz1 info1 s
    rw [h] at he
    rw [getDepthBuffer_hit K b2 sz2 info2 _ e he ho, getDepthBuffer_fst, h]
    refine ⟨rfl, rfl, ?_⟩
    simp [depthBufferAt, he]
  · intro h
    rw [getDepthBuffer_fst, getDepthBuffer_fst]
    exact fun e => h e.symm

/-! ## Binding checks: theorems -/

/-- The state `getColorBuffer` returns differs from the one it was given in the entry for
the base, which records the base, and in the host. -/
theorem getColorBuffer_state (K : Env) (b sz info : Nat) (s : GLDriver) :
    ∃ e gl, e.cb_color_base = b
      ∧ (getColorBuffer K b sz info s).2
        = { s with
            mColorBuffers :=
              Function.update s.mColorBuffers (K.CB_COLORN_BASE_BASE_256B b) (some e),
            gl := gl } := by
  unfold getColorBuffer
  simp only
  split
  · exact ⟨_, _, rfl, rfl⟩
  · exact ⟨{ object := (colorBufferAt s (K.CB_COLORN_BASE_BASE_256B b)).object,
             cb_color_base := b }, s.gl, rfl, rfl⟩

theorem getDepthBuffer_state (K : Env) (b sz info : Nat) (s : GLDriver) :
    ∃ e gl, e.db_depth_base = b
      ∧ (getDepthBuffer K b sz info s).2
        = { s with
            mDepthBuffers :=
              Function.update s.mDepthBuffers (K.DB_DEPTH_BASE_BASE_256B b) (some e),
            gl := gl } := by
  unfold getDepthBuffer
  simp only
  split
  · exact ⟨_, _, rfl, rfl⟩
  · exact ⟨{ object := (depthBufferAt s (K.DB_DEPTH_BASE_BASE_256B b)).object,
             db_depth_base := b }, s.gl, rfl, rfl⟩

theorem getColorBuffer_wellFormed (K : Env) (b sz info : Nat) (s : GLDriver)
    (h : WellFormed K s) : WellFormed K (getColorBuffer K b sz info s).2 := by
  obtain ⟨e, gl, he, hs⟩ := getColorBuffer_state K b sz info s
  rw [hs]
  refine ⟨?_, h.depthKey, ?_, h.depthActive⟩
  · intro k e' hk
    simp only [Function.update_apply] at hk
    split at hk
    · rename_i hkey
      cases hk
      rw [he, hkey]
    · exact h.colorKey k e' hk
  · intro i p hp
    simp only [Function.update_apply]
    split
    · rfl
    · exact h.colorActive i p hp

theorem getDepthBuffer_wellFormed (K : Env) (b sz info : Nat) (s : GLDriver)
    (h : WellFormed K s) : WellFormed K (getDepthBuffer K b sz info s).2 := by
  obtain ⟨e, gl, he, hs⟩ := getDepthBuffer_state K b sz info s
  rw [hs]
  refine ⟨h.colorKey, ?_, h.colorActive, ?_⟩
  · intro k e' hk
    simp only [Function.update_apply] at hk
    split at hk
    · rename_i hkey
      cases hk
      rw [he, hkey]
    · exact h.depthKey k e' hk
  · intro p hp
    simp only [Function.update_apply]
    split
    · rfl
    · exact h.depthActive p hp

/-- A colour slot that agrees with its base register is left alone by the check. -/
theorem checkActiveColorBufferSlot_bound (K : Env) (i : Nat) (s : GLDriver)
    (h : ColorSlotBound K s i) : checkActiveColorBufferSlot K i s = s := by
  unfold ColorSlotBound at h
  unfold checkActiveColorBufferSlot
  simp only
  split at h
  · rename_i h0
    simp [h0, h]
  · rename_i h0
    obtain ⟨p, hp, hb⟩ := h
    simp [h0, hp, hb]

/-- One iteration of the colour check keeps the representation invariant and the registers,
makes its slot agree with its base register, and keeps the other slots that agreed. -/
theorem checkActiveColorBufferSlot_spec (K : Env) (i : Nat) (s : GLDriver)
    (h : WellFormed K s) :
    WellFormed K (checkActiveColorBufferSlot K i s)
      ∧ (checkActiveColorBufferSlot K i s).mRegisters = s.mRegisters
      ∧ ColorSlotBound K (checkActiveColorBufferSlot K i s) i
      ∧ ∀ j, j ≠ i → ColorSlotBound K s j
          → ColorSlotBound K (checkActiveColorBufferSlot K i s) j := by
  unfold checkActiveColorBufferSlot
  simp only
  by_cases h0 : K.CB_COLORN_BASE_BASE_256B (getRegister s (K.CB_COLOR0_BASE + i * 4)) = 0
  · rw [if_pos h0]
    by_cases ha : (s.mActiveColorBuffers i).isSome = true
    · rw [if_pos ha]
      refine ⟨⟨h.colorKey, h.depthKey, ?_, h.depthActive⟩, rfl, ?_, ?_⟩
      · intro j p hp
        simp only [Function.update_apply] at hp
        split at hp
        · cases hp
        · exact h.colorActive j p hp
      · have h0r := h0
        simp only [getRegister] at h0r
        simp [ColorSlotBound, getRegister, h0r]
      · intro j hj hb
        simpa [ColorSlotBound, getRegister, colorBufferAt, Function.update_apply, hj] using hb
    · rw [if_neg ha]
      refine ⟨h, rfl, ?_, fun j _ hb => hb⟩
      simp only [ColorSlotBound, if_pos h0]
      simpa using ha
  · rw [if_neg h0]
    split
    · rename_i hany
      refine ⟨h, rfl, ?_, fun j _ hb => hb⟩
      simp only [ColorSlotBound, if_neg h0]
      cases hp : s.mActiveColorBuffers i with
      | none => simp [hp] at hany
      | some p =>
        refine ⟨p, rfl, ?_⟩
        simpa [hp] using hany
    · obtain ⟨e, gl, he, hs⟩ := getColorBuffer_state K
        (getRegister s (K.CB_COLOR0_BASE + i * 4)) (getRegister s (K.CB_COLOR0_SIZE + i * 4))
        (getRegister s (K.CB_COLOR0_INFO + i * 4)) s
      have hwf := getColorBuffer_wellFormed K
        (getRegister s (K.CB_COLOR0_BASE + i * 4)) (getRegister s (K.CB_COLOR0_SIZE + i * 4))
        (getRegister s (K.CB_COLOR0_INFO + i * 4)) s h
      rw [getColorBuffer_fst]
      rw [hs] at hwf ⊢
      refine ⟨⟨hwf.colorKey, hwf.depthKey, ?_, hwf.depthActive⟩, rfl, ?_, ?_⟩
      · intro j p hp
        simp only [Function.update_apply] at hp
        split at hp
        · cases hp
          simp
        · exact hwf.colorActive j p hp
      · simp [ColorSlotBound, getRegister, colorBufferAt, h0, he]
        simpa [getRegister] using h0
      · intro j hj hb
        unfold ColorSlotBound at hb ⊢
        simp only [getRegister] at hb ⊢
        split at hb
        · rename_i hz
          rw [if_pos hz]
          simpa [Function.update_apply, hj] using hb
        · rename_i hz
          rw [if_neg hz]
          obtain ⟨p, hp, hpb⟩ := hb
          refine ⟨p, by simpa [Function.update_apply, hj] using hp, ?_⟩
          obtain ⟨e0, he0⟩ := Option.isSome_iff_exists.1 (h.colorActive j p hp)
          have hk := h.colorKey p e0 he0
          simp only [colorBufferAt, he0, Option.getD_some] at hpb
          by_cases hpk : p = K.CB_COLORN_BASE_BASE_256B (s.mRegisters ((K.CB_COLOR0_BASE + i * 4) / 4))
          · simp only [colorBufferAt, Function.update_apply, getRegister, ← hpk, if_true,
              Option.getD_some, he]
            rw [← hpb, hk]
          · simp only [colorBufferAt, Function.update_apply, getRegister, hpk, if_false, he0,
              Option.getD_some]
            exact hpb

theorem foldl_checkActiveColorBufferSlot_spec (K : Env) :
    ∀ (l : List Nat) (s : GLDriver), WellFormed K s →
      WellFormed K (l.foldl (fun s i => checkActiveColorBufferSlot K i s) s)
        ∧ (l.foldl (fun s i => checkActiveColorBufferSlot K i s) s).mRegisters = s.mRegisters
        ∧ ∀ j, (j ∈ l ∨ ColorSlotBound K s j)
            → ColorSlotBound K (l.foldl (fun s i => checkActiveColorBufferSlot K i s) s) j := by
  intro l
  induction l with
  | nil =>
    intro s h
    refine ⟨h, rfl, ?_⟩
    intro j hj
    rcases hj with hj | hj
    · cases hj
    · exact hj
  | cons a l ih =>
    intro s h
    obtain ⟨h1, h2, h3, h4⟩ := checkActiveColorBufferSlot_spec K a s h
    obtain ⟨g1, g2, g3⟩ := ih (checkActiveColorBufferSlot K a s) h1
    rw [List.foldl_cons]
    refine ⟨g1, g2.trans h2, ?_⟩
    intro j hj
    by_cases hja : j = a
    · subst hja
      exact g3 j (Or.inr h3)
    · rcases hj with hj | hj
      · rcases List.mem_cons.1 hj with e | hj
        · exact absurd e hja
        · exact g3 j (Or.inl hj)
      · exact g3 j (Or.inr (h4 j hja hj))

theorem foldl_checkActiveColorBufferSlot_bound (K : Env) :
    ∀ (l : List Nat) (s : GLDriver), (∀ i ∈ l, ColorSlotBound K s i) →
      l.foldl (fun s i => checkActiveColorBufferSlot K i s) s = s := by
  intro l
  induction l with
  | nil => intro s _; rfl
  | cons a l ih =>
    intro s h
    rw [List.foldl_cons, checkActiveColorBufferSlot_bound K a s (h a (List.mem_cons_self _ _))]
    exact ih s (fun i hi => h i (List.mem_cons_of_mem _ hi))

theorem checkActiveDepthBuffer_bound (K : Env) (s : GLDriver) (h : DepthSlotBound K s) :
    checkActiveDepthBuffer K s = (true, s) := by
  unfold DepthSlotBound at h
  unfold checkActiveDepthBuffer
  simp only
  split at h
  · rename_i h0
    simp [h0, h]
  · rename_i h0
    obtain ⟨p, hp, hb⟩ := h
    simp [h0, hp, hb]

theorem checkActiveDepthBuffer_spec (K : Env) (s : GLDriver) (h : WellFormed K s) :
    WellFormed K (checkActiveDepthBuffer K s).2
      ∧ (checkActiveDepthBuffer K s).2.mRegisters = s.mRegisters
      ∧ DepthSlotBound K (checkActiveDepthBuffer K s).2 := by
  unfold checkActiveDepthBuffer
  simp only
  by_cases h0 : K.DB_DEPTH_BASE_BASE_256B (getRegister s K.DB_DEPTH_BASE) = 0
  · rw [if_pos h0]
    by_cases ha : s.mActiveDepthBuffer.isSome = true
    · rw [if_pos ha]
      refine ⟨⟨h.colorKey, h.depthKey, h.colorActive, ?_⟩, rfl, ?_⟩
      · intro p hp
        cases hp
      · have h0r := h0
        simp only [getRegister] at h0r
        simp [DepthSlotBound, getRegister, h0r]
    · rw [if_neg ha]
      refine ⟨h, rfl, ?_⟩
      simp only [DepthSlotBound, if_pos h0]
      simpa using ha
  · rw [if_neg h0]
    split
    · rename_i hany
      refine ⟨h, rfl, ?_⟩
      simp only [DepthSlotBound, if_neg h0]
      cases hp : s.mActiveDepthBuffer with
      | none => simp [hp] at hany
      | some p =>
        refine ⟨p, rfl, ?_⟩
        simpa [hp] using hany
    · obtain ⟨e, gl, he, hs⟩ := getDepthBuffer_state K
        (getRegister s K.DB_DEPTH_BASE) (getRegister s K.DB_DEPTH_SIZE)
        (getRegister s K.DB_DEPTH_INFO) s
      have hwf := getDepthBuffer_wellFormed K
        (getRegister s K.DB_DEPTH_BASE) (getRegister s K.DB_DEPTH_SIZE)
        (getRegister s K.DB_DEPTH_INFO) s h
      rw [getDepthBuffer_fst]
      rw [hs] at hwf ⊢
      refine ⟨⟨hwf.colorKey, hwf.depthKey, hwf.colorActive, ?_⟩, rfl, ?_⟩
      · intro p hp
        cases hp
        simp
      · simp [DepthSlotBound, getRegister, depthBufferAt, h0, he]
        simpa [getRegister] using h0

/-- C7: on a well-formed driver state, running `checkActiveColorBuffer` (likewise
`checkActiveDepthBuffer`) a second time right after the first changes nothing: the whole
state, with its binding slots, caches and host trace, is returned as it was, so the second
run makes no host call. -/
theorem binding_check_idempotent (K : Env) (s : GLDriver) (h : WellFormed K s) :
    checkActiveColorBuffer K (checkActiveColorBuffer K s).2
        = (true, (checkActiveColorBuffer K s).2)
      ∧ checkActiveDepthBuffer K (checkActiveDepthBuffer K s).2
        = (true, (checkActiveDepthBuffer K s).2) := by
  constructor
  · obtain ⟨_, _, h3⟩ := foldl_checkActiveColorBufferSlot_spec K (List.range 8) s h
    unfold checkActiveColorBuffer
    simp only
    rw [foldl_checkActiveColorBufferSlot_bound K (List.range 8) _ (fun i hi => h3 i (Or.inl hi))]
  · exact checkActiveDepthBuffer_bound K _ (checkActiveDepthBuffer_spec K s h).2.2

/-! ## The command stream interpreter: theorems -/

theorem thenRun_assoc (r : Run) (f g : GLDriver → Run) :
    thenRun (thenRun r f) g = thenRun r (fun s => thenRun (f s) g) := by
  unfold thenRun
  rcases r with _ | ⟨s⟩ | ⟨msg, s⟩ <;> rfl

theorem payloadAt_length (buffer : List Nat) (beyond : Nat → Nat) (pos size : Nat) :
    (payloadAt buffer beyond pos size).length = size := by
  simp [payloadAt]

theorem payloadAt_getD (buffer : List Nat) (beyond : Nat → Nat) (pos size j : Nat)
    (h : j < size) :
    (payloadAt buffer beyond pos size).getD j 0 = wordAt buffer beyond (pos + 1 + j) := by
  simp [payloadAt, List.getD_eq_getElem?_getD, List.getElem?_map, List.getElem?_range h]

theorem wordAt_inside (buffer : List Nat) (beyond : Nat → Nat) (i : Nat)
    (h : i < buffer.length) : wordAt buffer beyond i = buffer.getD i 0 := by
  simp [wordAt, h]

theorem wordAt_beyond (buffer : List Nat) (beyond : Nat → Nat) (i : Nat) :
    wordAt buffer beyond (buffer.length + i) = beyond i := by
  simp [wordAt]

theorem wordAt_append_front (front buffer : List Nat) (beyond : Nat → Nat) (i : Nat) :
    wordAt (front ++ buffer) beyond (front.length + i) = wordAt buffer beyond i := by
  unfold wordAt
  have hget : (front ++ buffer).getD (front.length + i) 0 = buffer.getD i 0 := by
    rw [List.getD_eq_getElem?_getD, List.getD_eq_getElem?_getD,
      List.getElem?_append_right (Nat.le_add_right _ _)]
    simp
  have hsub : front.length + i - (front ++ buffer).length = i - buffer.length := by
    rw [List.length_append]; omega
  have hlen : (front.length + i < (front ++ buffer).length) ↔ (i < buffer.length) := by
    rw [List.length_append]; omega
  simp only [hget, hsub, hlen]

/-- The payload does not depend on the words before the cursor. -/
theorem payloadAt_append_front (front buffer : List Nat) (beyond : Nat → Nat)
    (pos size : Nat) :
    payloadAt (front ++ buffer) beyond (front.length + pos) size
      = payloadAt buffer beyond pos size := by
  unfold payloadAt
  apply List.map_congr_left
  intro i _
  have e : front.length + pos + 1 + i = front.length + (pos + 1 + i) := by omega
  rw [e, wordAt_append_front]

/-- The payload of a whole packet at the start of the buffer is the words that follow its
header. -/
theorem payloadAt_cons (header : Nat) (data rest : List Nat) (beyond : Nat → Nat) :
    payloadAt (header :: (data ++ rest)) beyond 0 data.length = data := by
  apply List.ext_getElem
  · rw [payloadAt_length]
  · intro j h1 h2
    have hw := payloadAt_getD (header :: (data ++ rest)) beyond 0 data.length j h2
    rw [List.getD_eq_getElem?_getD, List.getElem?_eq_getElem h1] at hw
    simp only [Option.getD_some] at hw
    rw [hw, wordAt_inside _ _ _ (by simp; omega)]
    have e : 0 + 1 + j = j + 1 := by omega
    rw [e, List.getD_eq_getElem?_getD, List.getElem?_cons_succ,
      List.getElem?_append_left h2, List.getElem?_eq_getElem h2]
    rfl

/-- The payload of a packet that lies within the buffer is a segment of the buffer. -/
theorem payloadAt_within (buffer : List Nat) (beyond : Nat → Nat) (pos size : Nat)
    (h : pos + 1 + size ≤ buffer.length) :
    payloadAt buffer beyond pos size = (buffer.drop (pos + 1)).take size := by
  apply List.ext_getElem
  · rw [payloadAt_length, List.length_take, List.length_drop]
    omega
  · intro j h1 h2
    rw [payloadAt_length] at h1
    have hw := payloadAt_getD buffer beyond pos size j h1
    rw [List.getD_eq_getElem?_getD, List.getElem?_eq_getElem (by rw [payloadAt_length]; exact h1)]
      at hw
    simp only [Option.getD_some] at hw
    rw [hw, wordAt_inside _ _ _ (by omega), List.getD_eq_getElem?_getD,
      List.getElem?_eq_getElem (by omega)]
    simp [List.getElem_take, List.getElem_drop]

theorem runCommandBufferLoop_succ (K : Env) (handle : Nat → List Nat → GLDriver → Run)
    (buffer : List Nat) (beyond : Nat → Nat) (steps pos : Nat) (s : GLDriver) :
    runCommandBufferLoop K handle buffer beyond (steps + 1) pos s
      = if pos < buffer.length then
          match K.type (buffer.getD pos 0) with
          | .Type3 =>
            thenRun
              (handle (buffer.getD pos 0)
                (payloadAt buffer beyond pos (K.size (buffer.getD pos 0) + 1)) s)
              (runCommandBufferLoop K handle buffer beyond steps
                (pos + (K.size (buffer.getD pos 0) + 1 + 1)))
          | _ => some (.thrown "What the fuck son" s)
        else some (.ok s) := by
  rw [runCommandBufferLoop]
  by_cases hp : pos < buffer.length
  · simp only [hp, if_true]
    cases K.type (buffer.getD pos 0) <;> rfl
  · simp only [hp, if_false]

/-- The loop does not look at the words before the cursor. -/
theorem runCommandBufferLoop_append (K : Env) (handle : Nat → List Nat → GLDriver → Run)
    (front buffer : List Nat) (beyond : Nat → Nat) :
    ∀ (steps pos : Nat) (s : GLDriver),
      runCommandBufferLoop K handle (front ++ buffer) beyond steps (front.length + pos) s
        = runCommandBufferLoop K handle buffer beyond steps pos s := by
  intro steps
  induction steps with
  | zero => intro pos s; rfl
  | succ n ih =>
    intro pos s
    rw [runCommandBufferLoop_succ, runCommandBufferLoop_succ]
    have hlen : (front.length + pos < (front ++ buffer).length) ↔ (pos < buffer.length) := by
      rw [List.length_append]; omega
    have hget : (front ++ buffer).getD (front.length + pos) 0 = buffer.getD pos 0 := by
      rw [List.getD_eq_getElem?_getD, List.getD_eq_getElem?_getD,
        List.getElem?_append_right (Nat.le_add_right _ _)]
      simp
    have hih : ∀ k, runCommandBufferLoop K handle (front ++ buffer) beyond n
        (front.length + pos + k) = runCommandBufferLoop K handle buffer beyond n (pos + k) := by
      intro k
      funext s'
      rw [Nat.add_assoc]
      exact ih (pos + k) s'
    simp only [hget, payloadAt_append_front, hlen, hih]

/-- With one iteration per remaining word the loop has all the iterations it needs: more
make no difference. -/
theorem runCommandBufferLoop_steps_succ (K : Env) (handle : Nat → List Nat → GLDriver → Run)
    (buffer : List Nat) (beyond : Nat → Nat) :
    ∀ (n pos : Nat) (s : GLDriver), buffer.length ≤ n + pos →
      runCommandBufferLoop K handle buffer beyond (n + 1) pos s
        = runCommandBufferLoop K handle buffer beyond (n + 1 + 1) pos s := by
  intro n
  induction n with
  | zero =>
    intro pos s h
    rw [runCommandBufferLoop_succ, runCommandBufferLoop_succ]
    have : ¬ pos < buffer.length := by omega
    simp [this]
  | succ n ih =>
    intro pos s h
    rw [runCommandBufferLoop_succ, runCommandBufferLoop_succ K handle buffer beyond (n + 1 + 1)]
    by_cases hp : pos < buffer.length
    · simp only [hp, if_true]
      have e : runCommandBufferLoop K handle buffer beyond (n + 1)
            (pos + (K.size (buffer.getD pos 0) + 1 + 1))
          = runCommandBufferLoop K handle buffer beyond (n + 1 + 1)
            (pos + (K.size (buffer.getD pos 0) + 1 + 1)) := by
        funext s'
        exact ih _ s' (by omega)
      rw [e]
    · simp [hp]

theorem runCommandBufferLoop_steps (K : Env) (handle : Nat → List Nat → GLDriver → Run)
    (buffer : List Nat) (beyond : Nat → Nat) (n pos : Nat) (s : GLDriver)
    (h : buffer.length ≤ n + pos) :
    ∀ k, runCommandBufferLoop K handle buffer beyond (n + 1) pos s
      = runCommandBufferLoop K handle buffer beyond (n + 1 + k) pos s := by
  intro k
  induction k with
  | zero => rfl
  | succ k ih =>
    rw [ih]
    have e1 : n + 1 + k = n + k + 1 := by omega
    have e2 : n + 1 + (k + 1) = n + k + 1 + 1 := by omega
    rw [e1, e2]
    exact runCommandBufferLoop_steps_succ K handle buffer beyond (n + k) pos s (by omega)

/-- Running a buffer that starts with a whole type-3 packet: handle the packet, then run the
rest. -/
theorem runCommandBuffer_cons (K : Env) (depth : Nat) (header : Nat) (data rest : List Nat)
    (beyond : Nat → Nat) (s : GLDriver)
    (ht : K.type header = .Type3) (hl : data.length = K.size header + 1) :
    runCommandBuffer K (depth + 1) (header :: data ++ rest) beyond s
      = thenRun (handlePacketType3 K (runCommandBuffer K depth) header data s)
          (runCommandBuffer K (depth + 1) rest beyond) := by
  rw [runCommandBuffer, runCommandBufferLoop_succ]
  have hpos : 0 < (header :: data ++ rest).length := by simp
  have hdata : payloadAt (header :: (data ++ rest)) beyond 0 (K.size header + 1) = data := by
    rw [← hl]
    exact payloadAt_cons header data rest beyond
  simp only [List.cons_append] at hpos
  simp only [List.cons_append, List.getD_cons_zero, ht, if_pos hpos]
  rw [hdata]
  congr 1
  funext s'
  have e : 0 + (K.size header + 1 + 1) = (header :: data).length + 0 := by
    simp [hl]
  rw [e]
  have := runCommandBufferLoop_append K (handlePacketType3 K (runCommandBuffer K depth))
    (header :: data) rest beyond (header :: (data ++ rest)).length 0 s'
  simp only [List.cons_append] at this
  rw [this, runCommandBuffer]
  have hk := runCommandBufferLoop_steps K (handlePacketType3 K (runCommandBuffer K depth))
    rest beyond rest.length 0 s' (by omega) data.length
  rw [hk]
  have e3 : (header :: (data ++ rest)).length = rest.length + 1 + data.length := by
    simp only [List.length_cons, List.length_append]
    omega
  rw [e3]

theorem runCommandBuffer_nil (K : Env) (depth : Nat) (beyond : Nat → Nat) (s : GLDriver) :
    runCommandBuffer K (depth + 1) [] beyond s = some (.ok s) := rfl

/-- Running whole packets followed by more words: run the packets, then the rest.  The run
of the whole packets reads nothing past their end, so the words there are arbitrary. -/
theorem runCommandBuffer_append (K : Env) (depth : Nat) (front : List Nat)
    (hf : WholePackets K front) (rest : List Nat) (beyond other : Nat → Nat) (s : GLDriver) :
    runCommandBuffer K (depth + 1) (front ++ rest) beyond s
      = thenRun (runCommandBuffer K (depth + 1) front other s)
          (runCommandBuffer K (depth + 1) rest beyond) := by
  induction hf generalizing s with
  | nil => rfl
  | cons header data tail ht hl _ ih =>
    have e : header :: data ++ tail ++ rest = header :: data ++ (tail ++ rest) := by simp
    rw [e, runCommandBuffer_cons K depth header data (tail ++ rest) beyond s ht hl,
      runCommandBuffer_cons K depth header data tail other s ht hl, thenRun_assoc]
    congr 1
    funext s'
    exact ih s'

/-- The run of whole packets does not depend on the words after the buffer. -/
theorem runCommandBuffer_whole_beyond (K : Env) (depth : Nat) (buffer : List Nat)
    (hf : WholePackets K buffer) (beyond other : Nat → Nat) (s : GLDriver) :
    runCommandBuffer K (depth + 1) buffer beyond s
      = runCommandBuffer K (depth + 1) buffer other s := by
  induction hf generalizing s with
  | nil => rfl
  | cons header data tail ht hl _ ih =>
    rw [runCommandBuffer_cons K depth header data tail beyond s ht hl,
      runCommandBuffer_cons K depth header data tail other s ht hl]
    congr 1
    funext s'
    exact ih s'

/-! ## What the handlers leave alone -/

theorem SameSurfaces.refl (s : GLDriver) : SameSurfaces s s := ⟨rfl, rfl, rfl, rfl⟩

theorem SameSurfaces.trans {s1 s2 s3 : GLDriver} (h1 : SameSurfaces s1 s2)
    (h2 : SameSurfaces s2 s3) : SameSurfaces s1 s3 :=
  ⟨h2.1.trans h1.1, h2.2.1.trans h1.2.1, h2.2.2.1.trans h1.2.2.1, h2.2.2.2.trans h1.2.2.2⟩

theorem SameSurfaces.wellFormed {K : Env} {s s' : GLDriver} (h : SameSurfaces s s')
    (hw : WellFormed K s) : WellFormed K s' := by
  obtain ⟨h1, h2, h3, h4⟩ := h
  exact ⟨by rw [h1]; exact hw.colorKey, by rw [h2]; exact hw.depthKey,
    by rw [h1, h3]; exact hw.colorActive, by rw [h2, h4]; exact hw.depthActive⟩

theorem SameSurfaces.noZeroKey {s s' : GLDriver} (h : SameSurfaces s s')
    (hz : NoZeroKey s) : NoZeroKey s' := by
  obtain ⟨h1, h2, _, _⟩ := h
  exact ⟨by rw [h1]; exact hz.1, by rw [h2]; exact hz.2⟩

theorem setRegsLoop_sameSurfaces (K : Env) (id : Nat) :
    ∀ (vs : List Nat) (i : Nat) (s : GLDriver), SameSurfaces s (setRegsLoop K id i vs s) := by
  intro vs
  induction vs with
  | nil => intro i s; exact SameSurfaces.refl s
  | cons v vs ih =>
    intro i s
    rw [setRegsLoop]
    exact SameSurfaces.trans ⟨rfl, rfl, rfl, rfl⟩ (ih (i + 1) _)

theorem checkFetchShader_sameSurfaces (K : Env) (fs a b : Nat) (s : GLDriver) :
    SameSurfaces s (checkFetchShader K fs a b s).2 := by
  unfold checkFetchShader
  simp only
  split <;> exact ⟨rfl, rfl, rfl, rfl⟩

theorem checkVertexShader_sameSurfaces (K : Env) (fs vs a b : Nat) (s : GLDriver) :
    SameSurfaces s (checkVertexShader K fs vs a b s).2 := by
  unfold checkVertexShader
  simp only
  split_ifs <;> exact ⟨rfl, rfl, rfl, rfl⟩

theorem checkPixelShader_sameSurfaces (K : Env) (ps a b : Nat) (s : GLDriver) :
    SameSurfaces s (checkPixelShader K ps a b s).2 := by
  unfold checkPixelShader
  simp only
  split_ifs <;> exact ⟨rfl, rfl, rfl, rfl⟩

theorem linkShader_sameSurfaces (fs vs ps : Nat) (key : ShaderKey) (s : GLDriver) :
    SameSurfaces s (linkShader fs vs ps key s) := by
  unfold linkShader
  simp only
  split_ifs <;> exact ⟨rfl, rfl, rfl, rfl⟩

theorem andCheck_sameSurfaces (s : GLDriver) (r : Bool × GLDriver)
    (next : GLDriver → Bool × GLDriver) (h1 : SameSurfaces s r.2)
    (h2 : ∀ s', SameSurfaces s' (next s').2) : SameSurfaces s (andCheck r next).2 := by
  unfold andCheck
  split
  · exact SameSurfaces.trans h1 (h2 _)
  · exact h1

theorem bindShader_sameSurfaces (key : ShaderKey) (s : GLDriver) :
    SameSurfaces s (bindShader key s).2 := ⟨rfl, rfl, rfl, rfl⟩

theorem buildShader_sameSurfaces (K : Env) (fs vs ps : Nat) (key : ShaderKey)
    (a1 a2 a3 a4 a5 a6 : Nat) (s0 : GLDriver) :
    SameSurfaces s0
      (andCheck (checkFetchShader K fs a1 a2 s0) fun s =>
        andCheck (checkVertexShader K fs vs a3 a4 s) fun s =>
        andCheck (checkPixelShader K ps a5 a6 s) fun s =>
        bindShader key (linkShader fs vs ps key s)).2 := by
  refine andCheck_sameSurfaces _ _ _ (checkFetchShader_sameSurfaces K _ _ _ _) ?_
  intro s1
  refine andCheck_sameSurfaces _ _ _ (checkVertexShader_sameSurfaces K _ _ _ _ _) ?_
  intro s2
  refine andCheck_sameSurfaces _ _ _ (checkPixelShader_sameSurfaces K _ _ _ _) ?_
  intro s3
  exact SameSurfaces.trans (linkShader_sameSurfaces _ _ _ _ _) ⟨rfl, rfl, rfl, rfl⟩

theorem checkActiveShader_sameSurfaces (K : Env) (s : GLDriver) :
    SameSurfaces s (checkActiveShader K s).2 := by
  unfold checkActiveShader
  simp only
  split
  · exact SameSurfaces.refl s
  · have h0 : ∀ fs vs ps key, SameSurfaces s (lookupShaders fs vs ps key s) :=
      fun _ _ _ _ => ⟨rfl, rfl, rfl, rfl⟩
    split
    · exact SameSurfaces.trans (h0 _ _ _ _) (buildShader_sameSurfaces K _ _ _ _ _ _ _ _ _ _ _)
    · exact SameSurfaces.trans (h0 _ _ _ _) (bindShader_sameSurfaces _ _)

theorem checkActiveUniforms_sameSurfaces (K : Env) (s : GLDriver) :
    SameSurfaces s (checkActiveUniforms K s).2 := by
  unfold checkActiveUniforms
  simp only
  split
  · exact SameSurfaces.refl s
  · split_ifs
    · refine ⟨?_, ?_, ?_, ?_⟩ <;> (repeat' split) <;> rfl
    · exact SameSurfaces.refl s

/-! ## Invariants of the handlers -/

theorem getColorBuffer_noZeroKey (K : Env) (b sz info : Nat) (s : GLDriver)
    (hb : K.CB_COLORN_BASE_BASE_256B b ≠ 0) (hz : NoZeroKey s) :
    NoZeroKey (getColorBuffer K b sz info s).2 := by
  obtain ⟨e, gl, _, hs⟩ := getColorBuffer_state K b sz info s
  rw [hs]
  exact ⟨by simpa [Function.update_apply, Ne.symm hb] using hz.1, hz.2⟩

theorem getDepthBuffer_noZeroKey (K : Env) (b sz info : Nat) (s : GLDriver)
    (hb : K.DB_DEPTH_BASE_BASE_256B b ≠ 0) (hz : NoZeroKey s) :
    NoZeroKey (getDepthBuffer K b sz info s).2 := by
  obtain ⟨e, gl, _, hs⟩ := getDepthBuffer_state K b sz info s
  rw [hs]
  exact ⟨hz.1, by simpa [Function.update_apply, Ne.symm hb] using hz.2⟩

theorem checkActiveColorBufferSlot_noZeroKey (K : Env) (i : Nat) (s : GLDriver)
    (hz : NoZeroKey s) : NoZeroKey (checkActiveColorBufferSlot K i s) := by
  unfold checkActiveColorBufferSlot
  simp only
  split_ifs with h0 h1 h2
  · exact hz
  · exact hz
  · exact hz
  · exact getColorBuffer_noZeroKey K _ _ _ s h0 hz

theorem checkActiveColorBuffer_noZeroKey (K : Env) (s : GLDriver) (hz : NoZeroKey s) :
    NoZeroKey (checkActiveColorBuffer K s).2 := by
  unfold checkActiveColorBuffer
  simp only
  generalize List.range 8 = l
  induction l generalizing s with
  | nil => exact hz
  | cons a l ih => exact ih _ (checkActiveColorBufferSlot_noZeroKey K a s hz)

theorem checkActiveDepthBuffer_noZeroKey (K : Env) (s : GLDriver) (hz : NoZeroKey s) :
    NoZeroKey (checkActiveDepthBuffer K s).2 := by
  unfold checkActiveDepthBuffer
  simp only
  split_ifs with h0 h1 h2
  · exact hz
  · exact hz
  · exact hz
  · exact getDepthBuffer_noZeroKey K _ _ _ s h0 hz

theorem andCheck_invariant (P : GLDriver → Prop) (r : Bool × GLDriver)
    (next : GLDriver → Bool × GLDriver) (h1 : P r.2) (h2 : ∀ s', P s' → P (next s').2) :
    P (andCheck r next).2 := by
  unfold andCheck
  split
  · exact h2 _ h1
  · exact h1

/-- The readiness check keeps every property of the state that the two surface checks keep
and that depends on the surface caches and binding slots only. -/
theorem checkReadyDraw_invariant (K : Env) (P : GLDriver → Prop)
    (hs : ∀ s s', SameSurfaces s s' → P s → P s')
    (hc : ∀ s, P s → P (checkActiveColorBuffer K s).2)
    (hd : ∀ s, P s → P (checkActiveDepthBuffer K s).2)
    (s : GLDriver) (h : P s) : P (checkReadyDraw K s).2 := by
  unfold checkReadyDraw
  refine andCheck_invariant P _ _ (hs _ _ (checkActiveShader_sameSurfaces K s) h) ?_
  intro s1 h1
  refine andCheck_invariant P _ _ (hs _ _ (checkActiveUniforms_sameSurfaces K s1) h1) ?_
  intro s2 h2
  refine andCheck_invariant P _ _ (hc s2 h2) ?_
  intro s3 h3
  refine andCheck_invariant P _ _ (hd s3 h3) ?_
  intro s4 h4
  exact h4

theorem checkActiveColorBuffer_wellFormed (K : Env) (s : GLDriver) (h : WellFormed K s) :
    WellFormed K (checkActiveColorBuffer K s).2 :=
  (foldl_checkActiveColorBufferSlot_spec K (List.range 8) s h).1

theorem decafCopyColorToScan_wellFormed (K : Env) (data : pm4.DecafCopyColorToScan)
    (s : GLDriver) (h : WellFormed K s) : WellFormed K (decafCopyColorToScan K data s) := by
  have hw := getColorBuffer_wellFormed K data.bufferAddr data.cb_color_size data.cb_color_info s h
  exact SameSurfaces.wellFormed
    (show SameSurfaces (getColorBuffer K data.bufferAddr data.cb_color_size
      data.cb_color_info s).2 (decafCopyColorToScan K data s) from ⟨rfl, rfl, rfl, rfl⟩) hw

theorem decafCopyColorToScan_noZeroKey (K : Env) (data : pm4.DecafCopyColorToScan)
    (s : GLDriver) (hb : K.CB_COLORN_BASE_BASE_256B data.bufferAddr ≠ 0) (h : NoZeroKey s) :
    NoZeroKey (decafCopyColorToScan K data s) :=
  getColorBuffer_noZeroKey K data.bufferAddr data.cb_color_size data.cb_color_info s hb h

theorem decafClearColor_wellFormed (K : Env) (data : pm4.DecafClearColor)
    (s : GLDriver) (h : WellFormed K s) : WellFormed K (decafClearColor K data s) := by
  unfold decafClearColor
  simp only
  split
  · exact SameSurfaces.wellFormed (show SameSurfaces s _ from ⟨rfl, rfl, rfl, rfl⟩) h
  · have hw := getColorBuffer_wellFormed K data.bufferAddr data.cb_color_size
      data.cb_color_info s h
    refine ⟨hw.colorKey, hw.depthKey, ?_, hw.depthActive⟩
    intro i p hp
    simp only [Function.update_apply] at hp
    split at hp
    · cases hp
    · exact hw.colorActive i p hp

theorem decafClearColor_noZeroKey (K : Env) (data : pm4.DecafClearColor)
    (s : GLDriver) (hb : K.CB_COLORN_BASE_BASE_256B data.bufferAddr ≠ 0) (h : NoZeroKey s) :
    NoZeroKey (decafClearColor K data s) := by
  unfold decafClearColor
  simp only
  split
  · exact h
  · exact getColorBuffer_noZeroKey K data.bufferAddr data.cb_color_size data.cb_color_info s
      hb h

/-- Handling a packet that is not an indirect call returns normally, with the state the
handler of its opcode leaves. -/
theorem handlePacketType3_direct (K : Env) (run : List Nat → (Nat → Nat) → GLDriver → Run)
    (header : Nat) (data : List Nat) (s : GLDriver)
    (ho : K.opcode header ≠ .INDIRECT_BUFFER_PRIV) :
    ∃ s', handlePacketType3 K run header data s = some (.ok s')
      ∧ (SameSurfaces s s'
        ∨ s' = drawIndexAuto K s
        ∨ (K.opcode header = .DECAF_CLEAR_COLOR
            ∧ s' = decafClearColor K (K.readDecafClearColor data) s)
        ∨ (K.opcode header = .DECAF_COPY_COLOR_TO_SCAN
            ∧ s' = decafCopyColorToScan K (K.readDecafCopyColorToScan data) s)) := by
  unfold handlePacketType3
  cases hop : K.opcode header
  case INDIRECT_BUFFER_PRIV => exact absurd hop ho
  case DECAF_COPY_COLOR_TO_SCAN => exact ⟨_, rfl, Or.inr (Or.inr (Or.inr ⟨rfl, rfl⟩))⟩
  case DECAF_CLEAR_COLOR => exact ⟨_, rfl, Or.inr (Or.inr (Or.inl ⟨rfl, rfl⟩))⟩
  case DRAW_INDEX_AUTO => exact ⟨_, rfl, Or.inr (Or.inl rfl)⟩
  case DRAW_INDEX_2 => exact ⟨_, rfl, Or.inr (Or.inl rfl)⟩
  case DECAF_SWAP_BUFFERS => exact ⟨_, rfl, Or.inl ⟨rfl, rfl, rfl, rfl⟩⟩
  case DECAF_CLEAR_DEPTH_STENCIL => exact ⟨_, rfl, Or.inl ⟨rfl, rfl, rfl, rfl⟩⟩
  case INDEX_TYPE => exact ⟨_, rfl, Or.inl ⟨rfl, rfl, rfl, rfl⟩⟩
  case NUM_INSTANCES => exact ⟨_, rfl, Or.inl ⟨rfl, rfl, rfl, rfl⟩⟩
  case other => exact ⟨_, rfl, Or.inl ⟨rfl, rfl, rfl, rfl⟩⟩
  all_goals exact ⟨_, rfl, Or.inl (setRegsLoop_sameSurfaces K _ _ _ _)⟩

theorem handlePacketType3_wellFormed (K : Env) (run : List Nat → (Nat → Nat) → GLDriver → Run)
    (header : Nat) (data : List Nat) (s : GLDriver) (r : Outcome GLDriver)
    (ho : K.opcode header ≠ .INDIRECT_BUFFER_PRIV) (h : WellFormed K s)
    (hr : handlePacketType3 K run header data s = some r) : WellFormed K r.state := by
  obtain ⟨s', hs', hcases⟩ := handlePacketType3_direct K run header data s ho
  rw [hs'] at hr
  cases hr
  rcases hcases with hc | hc | ⟨_, hc⟩ | ⟨_, hc⟩
  · exact hc.wellFormed h
  · rw [hc]
    exact checkReadyDraw_invariant K (WellFormed K) (fun _ _ hs hp => hs.wellFormed hp)
      (checkActiveColorBuffer_wellFormed K) (fun s hs => (checkActiveDepthBuffer_spec K s hs).1)
      s h
  · rw [hc]; exact decafClearColor_wellFormed K _ s h
  · rw [hc]; exact decafCopyColorToScan_wellFormed K _ s h

theorem handlePacketType3_noZeroKey (K : Env) (run : List Nat → (Nat → Nat) → GLDriver → Run)
    (header : Nat) (data : List Nat) (s : GLDriver) (r : Outcome GLDriver)
    (hg : nonZeroSurface K header data = true)
    (ho : K.opcode header ≠ .INDIRECT_BUFFER_PRIV) (h : NoZeroKey s)
    (hr : handlePacketType3 K run header data s = some r) : NoZeroKey r.state := by
  obtain ⟨s', hs', hcases⟩ := handlePacketType3_direct K run header data s ho
  rw [hs'] at hr
  cases hr
  rcases hcases with hc | hc | ⟨hop, hc⟩ | ⟨hop, hc⟩
  · exact hc.noZeroKey h
  · rw [hc]
    exact checkReadyDraw_invariant K NoZeroKey (fun _ _ hs hp => hs.noZeroKey hp)
      (checkActiveColorBuffer_noZeroKey K) (checkActiveDepthBuffer_noZeroKey K) s h
  · rw [hc]
    refine decafClearColor_noZeroKey K _ s ?_ h
    simpa [nonZeroSurface, hop] using hg
  · rw [hc]
    refine decafCopyColorToScan_noZeroKey K _ s ?_ h
    simpa [nonZeroSurface, hop] using hg

theorem allPacketsLoop_succ (K : Env) (good : Nat → List Nat → Bool)
    (nested : List Nat → (Nat → Nat) → Bool) (buffer : List Nat) (beyond : Nat → Nat)
    (steps pos : Nat) :
    allPacketsLoop K good nested buffer beyond (steps + 1) pos
      = if pos < buffer.length then
          match K.type (buffer.getD pos 0) with
          | .Type3 =>
            good (buffer.getD pos 0)
                (payloadAt buffer beyond pos (K.size (buffer.getD pos 0) + 1))
              && (match K.opcode (buffer.getD pos 0) with
                  | .INDIRECT_BUFFER_PRIV =>
                    nested
                      (K.words
                        (K.readIndirectBufferCall
                          (payloadAt buffer beyond pos (K.size (buffer.getD pos 0) + 1))).addr
                        (K.readIndirectBufferCall
                          (payloadAt buffer beyond pos (K.size (buffer.getD pos 0) + 1))).size)
                      (K.beyond
                        (K.readIndirectBufferCall
                          (payloadAt buffer beyond pos (K.size (buffer.getD pos 0) + 1))).addr
                        (K.readIndirectBufferCall
                          (payloadAt buffer beyond pos (K.size (buffer.getD pos 0) + 1))).size)
                  | _ => true)
              && allPacketsLoop K good nested buffer beyond steps
                  (pos + (K.size (buffer.getD pos 0) + 1 + 1))
          | _ => true
        else true := by
  rw [allPacketsLoop]

/-- A property of the state that every directly handled packet satisfying `good` keeps is
kept by running a buffer all of whose packets, nested buffers included, satisfy `good`;
it holds of the state of every outcome, thrown ones included. -/
theorem runCommandBuffer_invariant (K : Env) (good : Nat → List Nat → Bool)
    (P : GLDriver → Prop)
    (hstep : ∀ (run : List Nat → (Nat → Nat) → GLDriver → Run) header data s r, good header data = true →
      K.opcode header ≠ .INDIRECT_BUFFER_PRIV → P s →
      handlePacketType3 K run header data s = some r → P r.state) :
    ∀ (depth : Nat) (buffer : List Nat) (beyond : Nat → Nat) (s : GLDriver)
      (r : Outcome GLDriver),
      allPackets K good depth buffer beyond = true → P s →
      runCommandBuffer K depth buffer beyond s = some r → P r.state := by
  intro depth
  induction depth with
  | zero =>
    intro buffer beyond s r _ _ hr
    simp [runCommandBuffer] at hr
  | succ depth ih =>
    intro buffer beyond s r hall hs hr
    rw [runCommandBuffer] at hr
    rw [allPackets] at hall
    generalize buffer.length + 1 = steps at hr hall
    generalize 0 = pos at hr hall
    induction steps generalizing pos s with
    | zero => simp [runCommandBufferLoop] at hr
    | succ n ihn =>
      rw [runCommandBufferLoop_succ] at hr
      rw [allPacketsLoop_succ] at hall
      by_cases hp : pos < buffer.length
      · simp only [hp, if_true] at hr hall
        cases ht : K.type (buffer.getD pos 0) with
        | Type3 =>
          simp only [ht, Bool.and_eq_true] at hr hall
          obtain ⟨⟨hgood, hnest⟩, hrest⟩ := hall
          have hP : ∀ r', handlePacketType3 K (runCommandBuffer K depth) (buffer.getD pos 0)
              (payloadAt buffer beyond pos (K.size (buffer.getD pos 0) + 1)) s = some r' →
              P r'.state := by
            intro r' hr'
            by_cases ho : K.opcode (buffer.getD pos 0) = .INDIRECT_BUFFER_PRIV
            · simp only [ho] at hnest
              simp only [handlePacketType3, ho, indirectBufferCall] at hr'
              exact ih _ _ s r' hnest hs hr'
            · exact hstep _ _ _ s r' hgood ho hs hr'
          cases hh : handlePacketType3 K (runCommandBuffer K depth) (buffer.getD pos 0)
              (payloadAt buffer beyond pos (K.size (buffer.getD pos 0) + 1)) s with
          | none =>
            rw [hh] at hr
            simp only [thenRun] at hr
            cases hr
          | some o =>
            cases o with
            | ok s' =>
              rw [hh] at hr
              simp only [thenRun] at hr
              exact ihn s' (hP _ hh) _ hr hrest
            | thrown msg s' =>
              rw [hh] at hr
              simp only [thenRun] at hr
              cases hr
              exact hP _ hh
        | _ =>
          simp only [ht] at hr
          cases hr
          exact hs
      · simp only [hp, if_false] at hr
        cases hr
        exact hs

/-- Every state a command buffer can lead to from a well-formed state is well-formed. -/
theorem runCommandBuffer_wellFormed (K : Env) (depth : Nat) (buffer : List Nat)
    (beyond : Nat → Nat) (s : GLDriver) (r : Outcome GLDriver) (h : WellFormed K s)
    (hr : runCommandBuffer K depth buffer beyond s = some r) : WellFormed K r.state := by
  have hall : ∀ d b y, allPackets K (fun _ _ => true) d b y = true := by
    intro d
    induction d with
    | zero => intro b y; rfl
    | succ d ihd =>
      intro b y
      rw [allPackets]
      generalize b.length + 1 = steps
      generalize 0 = pos
      induction steps generalizing pos with
      | zero => rfl
      | succ n ihn =>
        rw [allPacketsLoop_succ]
        split
        · split
          · simp only [Bool.true_and, Bool.and_eq_true]
            refine ⟨?_, ihn _⟩
            split
            · exact ihd _ _
            · rfl
          all_goals rfl
        · rfl
  exact runCommandBuffer_invariant K (fun _ _ => true) (WellFormed K)
    (fun run header data s r _ ho hs hr => handlePacketType3_wellFormed K run header data s r
      ho hs hr) depth buffer beyond s r (hall depth buffer beyond) h hr

/-! ## Claims about the surface caches, the binding checks and the interpreter -/

/-- C5 (witness): on the fresh driver, a second `getColorBuffer` for base `0x100` with another
size descriptor returns the entry of the first call and leaves the host trace as it was. -/
theorem surface_cache_identity_witness :
    (getColorBuffer refEnv 0x100 7 0 (getColorBuffer refEnv 0x100 163999 0 freshDriver).2).1
        = (getColorBuffer refEnv 0x100 163999 0 freshDriver).1
      ∧ (getColorBuffer refEnv 0x100 7 0 (getColorBuffer refEnv 0x100 163999 0 freshDriver).2).2.gl
        = (getColorBuffer refEnv 0x100 163999 0 freshDriver).2.gl
      ∧ (colorBufferAt
          (getColorBuffer refEnv 0x100 7 0 (getColorBuffer refEnv 0x100 163999 0 freshDriver).2).2
          (refEnv.CB_COLORN_BASE_BASE_256B 0x100)).object
        = (colorBufferAt (getColorBuffer refEnv 0x100 163999 0 freshDriver).2
            (refEnv.CB_COLORN_BASE_BASE_256B 0x100)).object :=
  (surface_cache_identity refEnv freshDriver 0x100 163999 0 0x100 7 0).1 rfl

/-- The fresh driver is well-formed, and stays so when registers are written. -/
theorem freshDriver_wellFormed (K : Env) (reg value : Nat) :
    WellFormed K (setRegister K reg value freshDriver) := by
  constructor <;> intros <;> simp_all [setRegister, freshDriver]

/-- C7 (witness): on the fresh driver with `CB_COLOR0_BASE = 0x100`, the second run of each
binding check returns the state the first run left. -/
theorem binding_check_idempotent_witness :
    checkActiveColorBuffer refEnv
        (checkActiveColorBuffer refEnv (setRegister refEnv 0x28040 0x100 freshDriver)).2
        = (true, (checkActiveColorBuffer refEnv (setRegister refEnv 0x28040 0x100 freshDriver)).2)
      ∧ checkActiveDepthBuffer refEnv
        (checkActiveDepthBuffer refEnv (setRegister refEnv 0x28040 0x100 freshDriver)).2
        = (true, (checkActiveDepthBuffer refEnv (setRegister refEnv 0x28040 0x100 freshDriver)).2) :=
  binding_check_idempotent refEnv (setRegister refEnv 0x28040 0x100 freshDriver)
    (freshDriver_wellFormed refEnv 0x28040 0x100)

/-- C6 (as amended): running a command buffer in which every `DECAF_CLEAR_COLOR` and
`DECAF_COPY_COLOR_TO_SCAN` packet, nested buffers included, names a non-zero base address,
from a state whose surface caches have no entry keyed 0, ends (normally or by a throw) in a
state whose surface caches have no entry keyed 0. -/
theorem runCommandBuffer_noZeroKey (K : Env) (depth : Nat) (buffer : List Nat)
    (beyond : Nat → Nat) (s : GLDriver)
    (r : Outcome GLDriver) (hz : NoZeroKey s)
    (hall : allPackets K (nonZeroSurface K) depth buffer beyond = true)
    (hr : runCommandBuffer K depth buffer beyond s = some r) : NoZeroKey r.state :=
  runCommandBuffer_invariant K (nonZeroSurface K) NoZeroKey
    (fun run header data s r hg ho hs hr =>
      handlePacketType3_noZeroKey K run header data s r hg ho hs hr)
    depth buffer beyond s r hall hz hr

/-- C6 (witness): the stream that sets `CB_COLOR0_BASE = 0x100`, clears the colour buffer at
`0x100` and draws leaves no cache entry keyed 0. -/
theorem runCommandBuffer_noZeroKey_witness :
    ∃ r, runCommandBuffer refEnv 1
          [refHeader 0x69 1, 0x10, 0x100,
            refHeader 0xD2 6, 0x100, 163999, 0, 0x3F800000, 0, 0, 0x3F800000,
            refHeader 0x2D 1, 3, 0] zeros freshDriver = some r
      ∧ NoZeroKey r.state :=
  ⟨_, rfl, runCommandBuffer_noZeroKey refEnv 1
    [refHeader 0x69 1, 0x10, 0x100,
      refHeader 0xD2 6, 0x100, 163999, 0, 0x3F800000, 0, 0, 0x3F800000,
      refHeader 0x2D 1, 3, 0] zeros freshDriver _ ⟨rfl, rfl⟩ (by decide) rfl⟩

/-- C6 (counterexample): from the fresh driver, whose caches are empty, the one-packet stream
`DECAF_CLEAR_COLOR` with buffer address 0 leaves a colour-buffer cache entry keyed 0. -/
theorem clearColor_zero_counterexample :
    (freshDriver.mColorBuffers 0).isSome = false
      ∧ (runCommandBuffer refEnv 1
          [refHeader 0xD2 6, 0, 163999, 0, 0x3F800000, 0, 0, 0x3F800000] zeros freshDriver).map
          (fun r => (r.state.mColorBuffers 0).isSome) = some true := by
  decide

/-- C8: a buffer made of whole type-3 packets `front`, then an `INDIRECT_BUFFER_PRIV` packet,
then `rest`, is run as: `front`, then the buffer the packet names (one nesting level down),
then `rest`; each part starts in the state, host trace included, that the part before it
ended in, and a throw or an exhausted nesting bound in one part ends the run there.  The
nested buffer is the `size` words guest memory holds at the address the packet names,
followed by what that memory holds after them; `rest` is followed by the words `beyond`
that follow the whole buffer, and the run of `front` is the same whatever follows it. -/
theorem indirectBufferCall_semantics (K : Env) (depth : Nat) (front : List Nat)
    (header : Nat) (data rest : List Nat) (beyond other : Nat → Nat) (s : GLDriver)
    (hf : WholePackets K front) (ht : K.type header = .Type3)
    (hl : data.length = K.size header + 1) (ho : K.opcode header = .INDIRECT_BUFFER_PRIV) :
    runCommandBuffer K (depth + 1) (front ++ (header :: data ++ rest)) beyond s
      = thenRun (runCommandBuffer K (depth + 1) front other s) (fun s1 =>
          thenRun
            (runCommandBuffer K depth
              (K.words (K.readIndirectBufferCall data).addr (K.readIndirectBufferCall data).size)
              (K.beyond (K.readIndirectBufferCall data).addr (K.readIndirectBufferCall data).size)
              s1)
            (runCommandBuffer K (depth + 1) rest beyond)) := by
  rw [runCommandBuffer_append K depth front hf _ beyond other]
  congr 1
  funext s1
  rw [runCommandBuffer_cons K depth header data rest beyond s1 ht hl]
  simp only [handlePacketType3, ho, indirectBufferCall]

/-- C8 (witness): the buffer `SET_CONTEXT_REG`, `INDIRECT_BUFFER_PRIV` (two words at guest
address `0x1000`), `DRAW_INDEX_AUTO` runs the register write, then the nested buffer, then
the draw. -/
theorem indirectBufferCall_semantics_witness :
    runCommandBuffer refEnv 2
        ([refHeader 0x69 1, 0x10, 0x100]
          ++ (refHeader 0x32 1 :: [0x1000, 2] ++ [refHeader 0x2D 1, 3, 0])) zeros freshDriver
      = thenRun (runCommandBuffer refEnv 2 [refHeader 0x69 1, 0x10, 0x100] zeros freshDriver)
          (fun s1 =>
            thenRun
              (runCommandBuffer refEnv 1
                (refEnv.words (refEnv.readIndirectBufferCall [0x1000, 2]).addr
                  (refEnv.readIndirectBufferCall [0x1000, 2]).size)
                (refEnv.beyond (refEnv.readIndirectBufferCall [0x1000, 2]).addr
                  (refEnv.readIndirectBufferCall [0x1000, 2]).size) s1)
              (runCommandBuffer refEnv 2 [refHeader 0x2D 1, 3, 0] zeros)) :=
  indirectBufferCall_semantics refEnv 1 [refHeader 0x69 1, 0x10, 0x100] (refHeader 0x32 1)
    [0x1000, 2] [refHeader 0x2D 1, 3, 0] zeros zeros freshDriver
    (WholePackets.cons (refHeader 0x69 1) [0x10, 0x100] [] (by decide) (by decide)
      WholePackets.nil)
    (by decide) (by decide) (by decide)

/-- C10: a type-3 packet whose opcode is none of the sixteen handled ones is skipped:
handling it returns normally with the state unchanged (registers, caches, binding slots and
host trace), and a buffer that starts with such a packet, whole, is run as the words after
the packet. -/
theorem unknown_opcode_skipped (K : Env) (depth : Nat)
    (run : List Nat → (Nat → Nat) → GLDriver → Run)
    (header : Nat) (data rest : List Nat) (beyond : Nat → Nat) (s : GLDriver) (value : Nat)
    (ho : K.opcode header = .other value) (ht : K.type header = .Type3)
    (hl : data.length = K.size header + 1) :
    handlePacketType3 K run header data s = some (.ok s)
      ∧ runCommandBuffer K (depth + 1) (header :: data ++ rest) beyond s
        = runCommandBuffer K (depth + 1) rest beyond s := by
  have h : ∀ run', handlePacketType3 K run' header data s = some (.ok s) := by
    intro run'
    simp only [handlePacketType3, ho]
  refine ⟨h run, ?_⟩
  rw [runCommandBuffer_cons K depth header data rest beyond s ht hl, h]
  rfl

/-- C10 (witness): a packet with the unhandled opcode `0x10` in front of a `NUM_INSTANCES`
packet is skipped. -/
theorem unknown_opcode_skipped_witness :
    handlePacketType3 refEnv (runCommandBuffer refEnv 0) (refHeader 0x10 0) [5] freshDriver
        = some (.ok freshDriver)
      ∧ runCommandBuffer refEnv 1 (refHeader 0x10 0 :: [5] ++ [refHeader 0x2F 0, 7]) zeros
          freshDriver
        = runCommandBuffer refEnv 1 [refHeader 0x2F 0, 7] zeros freshDriver :=
  unknown_opcode_skipped refEnv 0 (runCommandBuffer refEnv 0) (refHeader 0x10 0) [5]
    [refHeader 0x2F 0, 7] zeros freshDriver 0x10 (by decide) (by decide) (by decide)

/-! ## End-to-end clear -/

theorem setRegsLoop_gl (K : Env) (id : Nat) :
    ∀ (vs : List Nat) (i : Nat) (s : GLDriver), (setRegsLoop K id i vs s).gl = s.gl := by
  intro vs
  induction vs with
  | nil => intro i s; rfl
  | cons v vs ih =>
    intro i s
    rw [setRegsLoop, ih]
    rfl

theorem findActiveColorBuffer_none (K : Env) (data : pm4.DecafClearColor) (s : GLDriver)
    (hact : ∀ i, s.mActiveColorBuffers i = none) :
    ∀ n, findActiveColorBuffer K data s n = none := by
  intro n
  induction n with
  | zero => rfl
  | succ n ih =>
    rw [findActiveColorBuffer]
    simp only [hact, ih]

/-- The host calls of a colour clear that misses the cache and the active slots: creation of
the image named `object`, sized from the size descriptor by the tile formula, then the
temporary attachment, the clear and the detachment. -/
theorem decafClearColor_miss (K : Env) (data : pm4.DecafClearColor) (s : GLDriver)
    (hact : ∀ i, s.mActiveColorBuffers i = none)
    (hmiss : s.mColorBuffers (K.CB_COLORN_BASE_BASE_256B data.bufferAddr) = none) :
    (decafClearColor K data s).gl.calls
        = s.gl.calls ++
          [ .glGenTextures 1 (s.gl.textures + 1),
            .glBindTexture .GL_TEXTURE_2D (s.gl.textures + 1),
            .glTexParameteri .GL_TEXTURE_2D .GL_TEXTURE_MAG_FILTER .GL_NEAREST,
            .glTexParameteri .GL_TEXTURE_2D .GL_TEXTURE_MIN_FILTER .GL_NEAREST,
            .glTexParameteri .GL_TEXTURE_2D .GL_TEXTURE_WRAP_S .GL_CLAMP_TO_EDGE,
            .glTexParameteri .GL_TEXTURE_2D .GL_TEXTURE_WRAP_T .GL_CLAMP_TO_EDGE,
            .glTexImage2D .GL_TEXTURE_2D 0 .GL_RGBA
              ((K.CB_COLORN_SIZE_PITCH_TILE_MAX data.cb_color_size + 1) * K.tile_width)
              (((K.CB_COLORN_SIZE_SLICE_TILE_MAX data.cb_color_size + 1)
                  * (K.tile_width * K.tile_height))
                / ((K.CB_COLORN_SIZE_PITCH_TILE_MAX data.cb_color_size + 1) * K.tile_width))
              0 .GL_RGBA .GL_UNSIGNED_BYTE,
            .glFramebufferTexture .GL_FRAMEBUFFER (.GL_COLOR_ATTACHMENT0_plus 0)
              (s.gl.textures + 1) 0,
            .glClearBufferfv .GL_COLOR 0 [data.red, data.green, data.blue, data.alpha],
            .glFramebufferTexture .GL_FRAMEBUFFER (.GL_COLOR_ATTACHMENT0_plus 0) 0 0 ]
      ∧ (decafClearColor K data s).mColorBuffers
        = Function.update s.mColorBuffers (K.CB_COLORN_BASE_BASE_256B data.bufferAddr)
            (some { object := s.gl.textures + 1, cb_color_base := data.bufferAddr }) := by
  unfold decafClearColor
  simp only [findActiveColorBuffer_none K data s hact]
  simp [getColorBuffer, colorBufferAt, hmiss, Host.glGenTextures, Host.call]

/-- C9: from a state with an empty colour-buffer cache and no active colour binding, the
stream `SET_CONTEXT_REG CB_COLOR0_BASE = A`, `SET_CONTEXT_REG CB_COLOR0_SIZE = sz`,
`DECAF_CLEAR_COLOR` of the buffer at `A` with colour `(red, green, blue, alpha)` runs to its
end, whatever size descriptor `psz` and info word the clear packet carries and whatever
words follow the buffer, and adds to the host trace exactly: the creation of one image whose
width and height follow the tile formula on the size descriptor of the clear packet (the
value written to `CB_COLOR0_SIZE` plays no part), its temporary attachment, one clear
carrying the colour, and the detachment; afterwards the colour-buffer cache has exactly one
entry, keyed `A`. -/
theorem clearColor_end_to_end (K : Env) (depth : Nat) (s : GLDriver)
    (h1 h2 h3 : Nat) (p1 p2 p3 : List Nat) (beyond : Nat → Nat)
    (A sz psz info red green blue alpha : Nat)
    (hempty : ∀ k, s.mColorBuffers k = none) (hact : ∀ i, s.mActiveColorBuffers i = none)
    (hA : K.CB_COLORN_BASE_BASE_256B A = A)
    (ht1 : K.type h1 = .Type3) (hl1 : p1.length = K.size h1 + 1)
    (ho1 : K.opcode h1 = .SET_CONTEXT_REG)
    (hr1 : K.readSetContextRegs p1 = { id := K.CB_COLOR0_BASE, values := [A] })
    (ht2 : K.type h2 = .Type3) (hl2 : p2.length = K.size h2 + 1)
    (ho2 : K.opcode h2 = .SET_CONTEXT_REG)
    (hr2 : K.readSetContextRegs p2 = { id := K.CB_COLOR0_SIZE, values := [sz] })
    (ht3 : K.type h3 = .Type3) (hl3 : p3.length = K.size h3 + 1)
    (ho3 : K.opcode h3 = .DECAF_CLEAR_COLOR)
    (hr3 : K.readDecafClearColor p3
      = { red := red, green := green, blue := blue, alpha := alpha, bufferAddr := A,
          cb_color_size := psz, cb_color_info := info }) :
    ∃ s', runCommandBuffer K (depth + 1) (h1 :: p1 ++ (h2 :: p2 ++ (h3 :: p3))) beyond s
          = some (.ok s')
      ∧ s'.gl.calls
        = s.gl.calls ++
          [ .glGenTextures 1 (s.gl.textures + 1),
            .glBindTexture .GL_TEXTURE_2D (s.gl.textures + 1),
            .glTexParameteri .GL_TEXTURE_2D .GL_TEXTURE_MAG_FILTER .GL_NEAREST,
            .glTexParameteri .GL_TEXTURE_2D .GL_TEXTURE_MIN_FILTER .GL_NEAREST,
            .glTexParameteri .GL_TEXTURE_2D .GL_TEXTURE_WRAP_S .GL_CLAMP_TO_EDGE,
            .glTexParameteri .GL_TEXTURE_2D .GL_TEXTURE_WRAP_T .GL_CLAMP_TO_EDGE,
            .glTexImage2D .GL_TEXTURE_2D 0 .GL_RGBA
              ((K.CB_COLORN_SIZE_PITCH_TILE_MAX psz + 1) * K.tile_width)
              (((K.CB_COLORN_SIZE_SLICE_TILE_MAX psz + 1) * (K.tile_width * K.tile_height))
                / ((K.CB_COLORN_SIZE_PITCH_TILE_MAX psz + 1) * K.tile_width))
              0 .GL_RGBA .GL_UNSIGNED_BYTE,
            .glFramebufferTexture .GL_FRAMEBUFFER (.GL_COLOR_ATTACHMENT0_plus 0)
              (s.gl.textures + 1) 0,
            .glClearBufferfv .GL_COLOR 0 [red, green, blue, alpha],
            .glFramebufferTexture .GL_FRAMEBUFFER (.GL_COLOR_ATTACHMENT0_plus 0) 0 0 ]
      ∧ ∀ k, (s'.mColorBuffers k).isSome = true ↔ k = A := by
  have e3 : h3 :: p3 = h3 :: p3 ++ [] := by simp
  have hs1 := setRegsLoop_sameSurfaces K K.CB_COLOR0_BASE [A] 0 s
  have hs2 := setRegsLoop_sameSurfaces K K.CB_COLOR0_SIZE [sz] 0
    (setRegsLoop K K.CB_COLOR0_BASE 0 [A] s)
  have hs := hs1.trans hs2
  have hgl : (setRegsLoop K K.CB_COLOR0_SIZE 0 [sz] (setRegsLoop K K.CB_COLOR0_BASE 0 [A] s)).gl
      = s.gl := by rw [setRegsLoop_gl, setRegsLoop_gl]
  obtain ⟨hc1, hc2⟩ := decafClearColor_miss K (K.readDecafClearColor p3)
    (setRegsLoop K K.CB_COLOR0_SIZE 0 [sz] (setRegsLoop K K.CB_COLOR0_BASE 0 [A] s))
    (fun i => by rw [hs.2.2.1]; exact hact i)
    (by rw [hs.1]; exact hempty _)
  rw [hgl] at hc1
  rw [hgl, hs.1] at hc2
  simp only [hr3, hA] at hc1 hc2
  refine ⟨_, ?_, hc1, ?_⟩
  · rw [e3, runCommandBuffer_cons K depth h1 p1 _ beyond s ht1 hl1,
      show handlePacketType3 K (runCommandBuffer K depth) h1 p1 s
        = some (.ok (setContextRegs K (K.readSetContextRegs p1) s)) by
          simp only [handlePacketType3, ho1]]
    simp only [thenRun]
    rw [runCommandBuffer_cons K depth h2 p2 _ beyond _ ht2 hl2,
      show ∀ s1, handlePacketType3 K (runCommandBuffer K depth) h2 p2 s1
        = some (.ok (setContextRegs K (K.readSetContextRegs p2) s1)) by
          intro s1; simp only [handlePacketType3, ho2]]
    simp only [thenRun]
    rw [runCommandBuffer_cons K depth h3 p3 [] beyond _ ht3 hl3,
      show ∀ s2, handlePacketType3 K (runCommandBuffer K depth) h3 p3 s2
        = some (.ok (decafClearColor K (K.readDecafClearColor p3) s2)) by
          intro s2; simp only [handlePacketType3, ho3]]
    simp only [thenRun, runCommandBuffer_nil, hr1, hr2, hr3, setContextRegs]
  · intro k
    rw [hc2]
    simp only [Function.update_apply]
    split
    · rename_i hk
      simp [hk]
    · rename_i hk
      simp [hk, hempty]

/-- C9 (witness): on the fresh driver, the stream for `A = 0x100` and colour `(1, 0, 0, 1)`
that writes the size descriptor of a 1280 by 720 surface (`PITCH_TILE_MAX = 159`,
`SLICE_TILE_MAX = 14399`) to `CB_COLOR0_SIZE` and carries the same descriptor in the clear
packet creates one 1280 by 720 image, clears it once with that colour, and leaves exactly the
entry keyed `0x100`. -/
theorem clearColor_end_to_end_witness :
    ∃ s', runCommandBuffer refEnv 1
          (refHeader 0x69 1 :: [0x10, 0x100]
            ++ (refHeader 0x69 1 :: [0x18, 14744735]
              ++ (refHeader 0xD2 6
                :: [0x100, 14744735, 0, 0x3F800000, 0, 0, 0x3F800000]))) zeros freshDriver
          = some (.ok s')
      ∧ s'.gl.calls
        = [ .glGenTextures 1 1,
            .glBindTexture .GL_TEXTURE_2D 1,
            .glTexParameteri .GL_TEXTURE_2D .GL_TEXTURE_MAG_FILTER .GL_NEAREST,
            .glTexParameteri .GL_TEXTURE_2D .GL_TEXTURE_MIN_FILTER .GL_NEAREST,
            .glTexParameteri .GL_TEXTURE_2D .GL_TEXTURE_WRAP_S .GL_CLAMP_TO_EDGE,
            .glTexParameteri .GL_TEXTURE_2D .GL_TEXTURE_WRAP_T .GL_CLAMP_TO_EDGE,
            .glTexImage2D .GL_TEXTURE_2D 0 .GL_RGBA 1280 720 0 .GL_RGBA .GL_UNSIGNED_BYTE,
            .glFramebufferTexture .GL_FRAMEBUFFER (.GL_COLOR_ATTACHMENT0_plus 0) 1 0,
            .glClearBufferfv .GL_COLOR 0 [0x3F800000, 0, 0, 0x3F800000],
            .glFramebufferTexture .GL_FRAMEBUFFER (.GL_COLOR_ATTACHMENT0_plus 0) 0 0 ]
      ∧ ∀ k, (s'.mColorBuffers k).isSome = true ↔ k = 0x100 :=
  clearColor_end_to_end refEnv 0 freshDriver (refHeader 0x69 1) (refHeader 0x69 1)
    (refHeader 0xD2 6) [0x10, 0x100] [0x18, 14744735]
    [0x100, 14744735, 0, 0x3F800000, 0, 0, 0x3F800000] zeros 0x100 14744735 14744735 0
    0x3F800000 0 0 0x3F800000
    (fun _ => rfl) (fun _ => rfl) rfl (by decide) (by decide) (by decide) (by decide)
    (by decide) (by decide) (by decide) (by decide) (by decide) (by decide) (by decide)
    (by decide)

/-! ## Decode errors of the command stream -/

theorem reachedHeader_mem (K : Env) (buffer : List Nat) (header : Nat)
    (h : reachedHeader K buffer header) : header ∈ buffer := by
  obtain ⟨front, rest, e, _⟩ := h
  rw [e]
  simp

theorem reachedHeader_head (K : Env) (header : Nat) (tail : List Nat) :
    reachedHeader K (header :: tail) header :=
  ⟨[], tail, rfl, WholePackets.nil⟩

theorem reachedHeader_cons (K : Env) (header : Nat) (data rest : List Nat) (h : Nat)
    (ht : K.type header = .Type3) (hl : data.length = K.size header + 1)
    (hr : reachedHeader K rest h) : reachedHeader K (header :: data ++ rest) h := by
  obtain ⟨front, tail, e, hw⟩ := hr
  refine ⟨header :: data ++ front, tail, ?_, WholePackets.cons header data front ht hl hw⟩
  rw [e]
  simp

theorem reachedHeader_append (K : Env) (front rest : List Nat) (h : Nat)
    (hr : reachedHeader K front h) : reachedHeader K (front ++ rest) h := by
  obtain ⟨f, tail, e, hw⟩ := hr
  refine ⟨f, tail ++ rest, ?_, hw⟩
  rw [e]
  simp

/-- A word that is not a type-3 header stops the run with the state it was reached in. -/
theorem runCommandBuffer_bad (K : Env) (depth : Nat) (header : Nat) (rest : List Nat)
    (beyond : Nat → Nat) (s : GLDriver) (ht : K.type header ≠ .Type3) :
    runCommandBuffer K (depth + 1) (header :: rest) beyond s
      = some (.thrown "What the fuck son" s) := by
  rw [runCommandBuffer, runCommandBufferLoop_succ]
  have hpos : 0 < (header :: rest).length := by simp
  simp only [if_pos hpos, List.getD_cons_zero]

/-- A last packet with fewer payload words in the buffer than it announces is handled with
the words it announces, those past the end of the buffer included, and ends the run. -/
theorem runCommandBuffer_short (K : Env) (depth : Nat) (header : Nat) (tail : List Nat)
    (beyond : Nat → Nat) (s : GLDriver)
    (ht : K.type header = .Type3) (hl : tail.length ≤ K.size header + 1) :
    runCommandBuffer K (depth + 1) (header :: tail) beyond s
      = thenRun
          (handlePacketType3 K (runCommandBuffer K depth) header
            (payloadAt (header :: tail) beyond 0 (K.size header + 1)) s)
          (fun s' => some (.ok s')) := by
  rw [runCommandBuffer, runCommandBufferLoop_succ]
  have hpos : 0 < (header :: tail).length := by simp
  simp only [if_pos hpos, List.getD_cons_zero, ht]
  congr 1
  funext s'
  have e : (header :: tail).length = tail.length + 1 := by simp
  rw [e, runCommandBufferLoop_succ]
  have hnot : ¬ (0 + (K.size header + 1 + 1) < (header :: tail).length) := by
    rw [e]
    omega
  rw [if_neg hnot]

/-- Whole packets none of which is an indirect call run to a normal end. -/
theorem runCommandBuffer_whole (K : Env) (depth : Nat) (front : List Nat)
    (hf : WholePackets K front) (beyond : Nat → Nat) (s : GLDriver)
    (hni : NoIndirectCall K front) :
    ∃ s1, runCommandBuffer K (depth + 1) front beyond s = some (.ok s1) := by
  induction hf generalizing s with
  | nil => exact ⟨s, rfl⟩
  | cons header data tail ht hl _ ih =>
    have hd : K.opcode header ≠ .INDIRECT_BUFFER_PRIV :=
      hni header (reachedHeader_head K header _) ht
    obtain ⟨s', hs', _⟩ := handlePacketType3_direct K (runCommandBuffer K depth) header data s hd
    rw [runCommandBuffer_cons K depth header data tail beyond s ht hl, hs']
    exact ih s' (fun h hr => hni h (reachedHeader_cons K header data tail h ht hl hr))

/-- A buffer in which every header the cursor reaches is a type-3 header of a packet that is
not an indirect call runs to a normal end. -/
theorem runCommandBuffer_allType3 (K : Env) (depth : Nat) :
    ∀ (n : Nat) (buffer : List Nat) (beyond : Nat → Nat) (s : GLDriver), buffer.length ≤ n →
      NoIndirectCall K buffer →
      (∀ header, reachedHeader K buffer header → K.type header = .Type3) →
      ∃ s', runCommandBuffer K (depth + 1) buffer beyond s = some (.ok s') := by
  intro n
  induction n with
  | zero =>
    intro buffer beyond s hn _ _
    have e : buffer = [] := List.length_eq_zero.1 (Nat.le_zero.1 hn)
    rw [e]
    exact ⟨s, rfl⟩
  | succ n ih =>
    intro buffer beyond s hn hni hall
    cases buffer with
    | nil => exact ⟨s, rfl⟩
    | cons header tail =>
      have ht : K.type header = .Type3 := hall header (reachedHeader_head K header tail)
      have hd : K.opcode header ≠ .INDIRECT_BUFFER_PRIV :=
        hni header (reachedHeader_head K header tail) ht
      by_cases hlen : K.size header + 1 ≤ tail.length
      · obtain ⟨s', hs', _⟩ := handlePacketType3_direct K (runCommandBuffer K depth) header
          (tail.take (K.size header + 1)) s hd
        have hl : (tail.take (K.size header + 1)).length = K.size header + 1 := by
          rw [List.length_take]
          omega
        have e : header :: tail
            = header :: tail.take (K.size header + 1) ++ tail.drop (K.size header + 1) := by
          simp
        rw [e, runCommandBuffer_cons K depth header _ _ beyond s ht hl, hs']
        simp only [thenRun]
        refine ih _ beyond s' ?_ ?_ ?_
        · simp only [List.length_cons] at hn
          rw [List.length_drop]
          omega
        · intro h hr hty
          refine hni h ?_ hty
          rw [e]
          exact reachedHeader_cons K header _ _ h ht hl hr
        · intro h hr
          refine hall h ?_
          rw [e]
          exact reachedHeader_cons K header _ _ h ht hl hr
      · have hshort : tail.length ≤ K.size header + 1 := by omega
        obtain ⟨s', hs', _⟩ := handlePacketType3_direct K (runCommandBuffer K depth) header
          (payloadAt (header :: tail) beyond 0 (K.size header + 1)) s hd
        rw [runCommandBuffer_short K depth header tail beyond s ht hshort, hs']
        exact ⟨s', rfl⟩

/-- C11: when the cursor of `runCommandBuffer` comes to a header that is not type 3, the run
throws with the state in which the packets before the header left the driver, whatever
follows the header and whatever words follow the buffer.  For a buffer in which the cursor
reaches no indirect call: the run throws if and only if the cursor reaches a header that is
not type 3; the packets before such a header run to a normal end and the run throws with
their state; and when there is no such header the run returns normally. -/
theorem fatal_decode_error (K : Env) (depth : Nat) (buffer : List Nat) (beyond : Nat → Nat)
    (s : GLDriver) :
    (∀ front header rest, buffer = front ++ header :: rest → WholePackets K front →
      K.type header ≠ .Type3 →
      runCommandBuffer K (depth + 1) buffer beyond s
        = thenRun (runCommandBuffer K (depth + 1) front beyond s)
            (fun s1 => some (.thrown "What the fuck son" s1)))
    ∧ (NoIndirectCall K buffer →
        ((∃ msg s', runCommandBuffer K (depth + 1) buffer beyond s = some (.thrown msg s'))
          ↔ ∃ header, reachedHeader K buffer header ∧ K.type header ≠ .Type3)
        ∧ (∀ front header rest, buffer = front ++ header :: rest → WholePackets K front →
            K.type header ≠ .Type3 →
            ∃ s1, runCommandBuffer K (depth + 1) front beyond s = some (.ok s1)
              ∧ runCommandBuffer K (depth + 1) buffer beyond s
                = some (.thrown "What the fuck son" s1))
        ∧ ((¬ ∃ header, reachedHeader K buffer header ∧ K.type header ≠ .Type3) →
            ∃ s', runCommandBuffer K (depth + 1) buffer beyond s = some (.ok s'))) := by
  have hany : ∀ front header rest, buffer = front ++ header :: rest → WholePackets K front →
      K.type header ≠ .Type3 →
      runCommandBuffer K (depth + 1) buffer beyond s
        = thenRun (runCommandBuffer K (depth + 1) front beyond s)
            (fun s1 => some (.thrown "What the fuck son" s1)) := by
    intro front header rest e hw ht
    rw [e, runCommandBuffer_append K depth front hw _ beyond beyond]
    congr 1
    funext s1
    exact runCommandBuffer_bad K depth header rest beyond s1 ht
  refine ⟨hany, ?_⟩
  intro hni
  have hstop : ∀ front header rest, buffer = front ++ header :: rest → WholePackets K front →
      K.type header ≠ .Type3 →
      ∃ s1, runCommandBuffer K (depth + 1) front beyond s = some (.ok s1)
        ∧ runCommandBuffer K (depth + 1) buffer beyond s = some (.thrown "What the fuck son" s1) := by
    intro front header rest e hw ht
    have hfront : NoIndirectCall K front := by
      intro h hr hty
      refine hni h ?_ hty
      rw [e]
      exact reachedHeader_append K front _ h hr
    obtain ⟨s1, h1⟩ := runCommandBuffer_whole K depth front hw beyond s hfront
    refine ⟨s1, h1, ?_⟩
    rw [hany front header rest e hw ht, h1]
    rfl
  have hgood : (¬ ∃ header, reachedHeader K buffer header ∧ K.type header ≠ .Type3) →
      ∃ s', runCommandBuffer K (depth + 1) buffer beyond s = some (.ok s') := by
    intro hno
    refine runCommandBuffer_allType3 K depth buffer.length buffer beyond s (le_refl _) hni ?_
    intro header hr
    by_contra hty
    exact hno ⟨header, hr, hty⟩
  refine ⟨⟨?_, ?_⟩, hstop, hgood⟩
  · rintro ⟨msg, s', hthrown⟩
    by_contra hno
    obtain ⟨s1, hok⟩ := hgood hno
    rw [hok] at hthrown
    cases hthrown
  · rintro ⟨header, ⟨front, rest, e, hw⟩, ht⟩
    obtain ⟨s1, _, hthrown⟩ := hstop front header rest e hw ht
    exact ⟨_, s1, hthrown⟩

/-- C11 (witness): in `brokenBuffer` the packet before the type-0 word sets the instance
count to 7; the run throws with exactly that state, and the packet after the word is not
handled. -/
theorem fatal_decode_error_witness :
    ∃ s1, runCommandBuffer refEnv 1 [refHeader 0x2F 0, 7] zeros freshDriver = some (.ok s1)
      ∧ runCommandBuffer refEnv 1 brokenBuffer zeros freshDriver
        = some (.thrown "What the fuck son" s1) :=
  ((fatal_decode_error refEnv 0 brokenBuffer zeros freshDriver).2
    (fun header hr _ => by
      have hm := reachedHeader_mem refEnv brokenBuffer header hr
      have hall : ∀ h ∈ brokenBuffer, refEnv.opcode h ≠ .INDIRECT_BUFFER_PRIV := by decide
      exact hall header hm)).2.1
    [refHeader 0x2F 0, 7] 5 [refHeader 0x2F 0, 9] rfl
    (WholePackets.cons (refHeader 0x2F 0) [7] [] (by decide) (by decide) WholePackets.nil)
    (by decide)

/-! ## The postcondition of a register write -/

/-- With aligned register offsets the word of the clear register is the word of none of the
32 semantic registers. -/
theorem clear_not_semanticWord (K : Env) (h0 : K.SQ_VTX_SEMANTIC_0 % 4 = 0)
    (hc : K.SQ_VTX_SEMANTIC_CLEAR % 4 = 0) : ¬ semanticWord K (K.SQ_VTX_SEMANTIC_CLEAR / 4) := by
  rintro ⟨k, hk, e⟩
  have hne := K.semantic_ne_clear k hk
  omega

/-- C12: with register offsets that are multiples of 4, `setRegister(id, v)` (whose recursion
ends, with the state `setRegister` computes) issues no host call and leaves register `id`
holding `v`; if `id` is `SQ_VTX_SEMANTIC_CLEAR` it leaves the 32 registers
`SQ_VTX_SEMANTIC_0 + 4i` holding `0xffffffff` and every other register as it was; for every
other `id` it leaves every other register as it was. -/
theorem setRegister_postcondition (K : Env) (id v : Nat) (s : GLDriver)
    (h0 : K.SQ_VTX_SEMANTIC_0 % 4 = 0) (hc : K.SQ_VTX_SEMANTIC_CLEAR % 4 = 0) :
    (∀ n, setRegisterFuel K (n + 2) id v s.mRegisters
        = some (setRegister K id v s).mRegisters)
    ∧ (setRegister K id v s).gl = s.gl
    ∧ getRegister (setRegister K id v s) id = v
    ∧ (id = K.SQ_VTX_SEMANTIC_CLEAR →
        (∀ i, i < 32 →
          getRegister (setRegister K id v s) (K.SQ_VTX_SEMANTIC_0 + i * 4) = 0xffffffff)
        ∧ ∀ w, w ≠ id / 4 → ¬ semanticWord K w →
            (setRegister K id v s).mRegisters w = s.mRegisters w)
    ∧ (id ≠ K.SQ_VTX_SEMANTIC_CLEAR →
        ∀ w, w ≠ id / 4 → (setRegister K id v s).mRegisters w = s.mRegisters w) := by
  refine ⟨fun n => setRegisterFuel_eq_setRegister K n id v s.mRegisters, rfl, ?_, ?_, ?_⟩
  · unfold getRegister
    rw [setRegister_regs_apply]
    by_cases hid : id = K.SQ_VTX_SEMANTIC_CLEAR
    · have hw : ¬ semanticWord K (id / 4) := by
        rw [hid]
        exact clear_not_semanticWord K h0 hc
      simp [hw]
    · simp [hid]
  · intro hid
    refine ⟨?_, ?_⟩
    · intro i hi
      unfold getRegister
      rw [setRegister_regs_apply]
      have hw : semanticWord K ((K.SQ_VTX_SEMANTIC_0 + i * 4) / 4) := ⟨i, hi, rfl⟩
      simp [hid, hw]
    · intro w hw hsem
      rw [setRegister_regs_apply]
      simp [hsem, hw]
  · intro hid w hw
    rw [setRegister_regs_apply]
    simp [hid, hw]

/-- C12 (witness): on the start-up state, writing 5 to `SQ_VTX_SEMANTIC_CLEAR` leaves 5 in
it, `0xffffffff` in semantic register 31 and no host call. -/
theorem setRegister_postcondition_witness :
    getRegister (setRegister refEnv refEnv.SQ_VTX_SEMANTIC_CLEAR 5 freshDriver)
        refEnv.SQ_VTX_SEMANTIC_CLEAR = 5
    ∧ getRegister (setRegister refEnv refEnv.SQ_VTX_SEMANTIC_CLEAR 5 freshDriver)
        (refEnv.SQ_VTX_SEMANTIC_0 + 31 * 4) = 0xffffffff
    ∧ (setRegister refEnv refEnv.SQ_VTX_SEMANTIC_CLEAR 5 freshDriver).gl = freshDriver.gl :=
  have h := setRegister_postcondition refEnv refEnv.SQ_VTX_SEMANTIC_CLEAR 5 freshDriver
    (by decide) (by decide)
  ⟨h.2.2.1, (h.2.2.2.1 rfl).1 31 (by decide), h.2.1⟩

/-! ## The active shader and the uniform upload -/

theorem checkFetchShader_active (K : Env) (fs a b : Nat) (s : GLDriver) :
    (checkFetchShader K fs a b s).2.mActiveShader = s.mActiveShader := by
  unfold checkFetchShader
  simp only
  split <;> rfl

theorem checkVertexShader_active (K : Env) (fs vs a b : Nat) (s : GLDriver) :
    (checkVertexShader K fs vs a b s).2.mActiveShader = s.mActiveShader := by
  unfold checkVertexShader
  simp only
  split_ifs <;> rfl

theorem checkPixelShader_active (K : Env) (ps a b : Nat) (s : GLDriver) :
    (checkPixelShader K ps a b s).2.mActiveShader = s.mActiveShader := by
  unfold checkPixelShader
  simp only
  split_ifs <;> rfl

theorem linkShader_active (fs vs ps : Nat) (key : ShaderKey) (s : GLDriver) :
    (linkShader fs vs ps key s).mActiveShader = s.mActiveShader := by
  unfold linkShader
  simp only
  split_ifs <;> rfl

theorem andCheck_active (s : GLDriver) (r : Bool × GLDriver)
    (next : GLDriver → Bool × GLDriver) (h1 : r.2.mActiveShader = s.mActiveShader)
    (h2 : ∀ s', (next s').2.mActiveShader = s'.mActiveShader) :
    (andCheck r next).2.mActiveShader = s.mActiveShader := by
  unfold andCheck
  split
  · exact (h2 _).trans h1
  · exact h1

theorem buildShader_active (K : Env) (fs vs ps : Nat) (key : ShaderKey)
    (a1 a2 a3 a4 a5 a6 : Nat) (s0 : GLDriver) :
    (andCheck (checkFetchShader K fs a1 a2 s0) fun s =>
      andCheck (checkVertexShader K fs vs a3 a4 s) fun s =>
      andCheck (checkPixelShader K ps a5 a6 s) fun s =>
      bindShader key (linkShader fs vs ps key s)).2.mActiveShader = s0.mActiveShader := by
  refine andCheck_active _ _ _ (checkFetchShader_active K _ _ _ _) ?_
  intro s1
  refine andCheck_active _ _ _ (checkVertexShader_active K _ _ _ _ _) ?_
  intro s2
  refine andCheck_active _ _ _ (checkPixelShader_active K _ _ _ _) ?_
  intro s3
  exact linkShader_active _ _ _ _ _

/-- The shader check never assigns `mActiveShader`. -/
theorem checkActiveShader_active (K : Env) (s : GLDriver) :
    (checkActiveShader K s).2.mActiveShader = s.mActiveShader := by
  unfold checkActiveShader
  simp only
  split
  · rfl
  · split
    · exact buildShader_active K _ _ _ _ _ _ _ _ _ _ _
    · rfl

/-- With no active shader the uniform check does nothing. -/
theorem checkActiveUniforms_inactive (K : Env) (s : GLDriver) (h : s.mActiveShader = none) :
    checkActiveUniforms K s = (true, s) := by
  unfold checkActiveUniforms
  simp only [h]

/-- The uniform check returns true in every state. -/
theorem checkActiveUniforms_fst (K : Env) (s : GLDriver) :
    (checkActiveUniforms K s).1 = true := by
  unfold checkActiveUniforms
  simp only
  split
  · rfl
  · split_ifs <;> rfl

/-- In uniform-block mode the uniform check does nothing. -/
theorem checkActiveUniforms_blocks (K : Env) (s : GLDriver)
    (h : K.SQ_CONFIG_DX9_CONSTS (getRegister s K.SQ_CONFIG) = false) :
    checkActiveUniforms K s = (true, s) := by
  unfold checkActiveUniforms
  simp only [h]
  split <;> simp

theorem checkActiveColorBuffer_fst (K : Env) (s : GLDriver) :
    (checkActiveColorBuffer K s).1 = true := by
  unfold checkActiveColorBuffer
  rfl

theorem checkActiveDepthBuffer_fst (K : Env) (s : GLDriver) :
    (checkActiveDepthBuffer K s).1 = true := by
  unfold checkActiveDepthBuffer
  simp only
  split_ifs <;> rfl

/-- A draw is ready exactly when the shader check succeeds: the other three checks return
true in every state. -/
theorem checkReadyDraw_fst (K : Env) (s : GLDriver) :
    (checkReadyDraw K s).1 = (checkActiveShader K s).1 := by
  unfold checkReadyDraw andCheck
  cases h : (checkActiveShader K s).1 with
  | false => simp [h]
  | true =>
    simp only [h, if_true, checkActiveUniforms_fst, checkActiveColorBuffer_fst,
      checkActiveDepthBuffer_fst]

/-- C18 (the code at the failing input): on the start-up state the first shader check
builds pipeline 1, binds it and leaves `mActiveShader` null; the second check, with no
register write in between, issues `glBindProgramPipeline(1)` again.  It does so too when
`mActiveShader` points to the bound pipeline, whose three start addresses equal the
registers: the test of the fast path asks for three inequalities. -/
theorem checkActiveShader_rebinds :
    (checkActiveShader refEnv freshDriver).1 = true
    ∧ (checkActiveShader refEnv freshDriver).2.mActiveShader = none
    ∧ (checkActiveShader refEnv (checkActiveShader refEnv freshDriver).2).1 = true
    ∧ (checkActiveShader refEnv (checkActiveShader refEnv freshDriver).2).2.gl.calls
        = (checkActiveShader refEnv freshDriver).2.gl.calls ++ [.glBindProgramPipeline 1]
    ∧ activeShaderMatches refEnv activeDriver 0 0 0 = false
    ∧ (checkActiveShader refEnv activeDriver).2.gl.calls
        = activeDriver.gl.calls ++ [.glBindProgramPipeline 1] := by
  set_option maxRecDepth 100000 in decide

/-- C19 (the code at the failing input): in legacy mode on the start-up state, the shader
check of a draw builds and binds pipeline 1 from programs 1 and 5, the uniform check that
follows issues no host call, and the whole draw check returns true having issued no
`glProgramUniform4fv`. -/
theorem legacy_draw_uploads_nothing :
    refEnv.SQ_CONFIG_DX9_CONSTS (getRegister legacyDriver refEnv.SQ_CONFIG) = true
    ∧ (checkActiveShader refEnv legacyDriver).1 = true
    ∧ (checkActiveUniforms refEnv (checkActiveShader refEnv legacyDriver).2).2.gl.calls
        = (checkActiveShader refEnv legacyDriver).2.gl.calls
    ∧ (checkReadyDraw refEnv legacyDriver).1 = true
    ∧ (checkReadyDraw refEnv legacyDriver).2.gl.calls
        = [.glCreateShaderProgramv .GL_VERTEX_SHADER "void main() \x7b \x7d" 1,
           .glGetProgramiv 1 .GL_INFO_LOG_LENGTH,
           .glGetProgramInfoLog 1,
           .glGetUniformLocation 1 "VC",
           .glCreateShaderProgramv .GL_FRAGMENT_SHADER "void main() \x7b \x7d" 5,
           .glGetProgramiv 5 .GL_INFO_LOG_LENGTH,
           .glGetProgramInfoLog 5,
           .glGetUniformLocation 5 "VC",
           .glGenProgramPipelines 1 1,
           .glUseProgramStages 1 .GL_VERTEX_SHADER_BIT 1,
           .glUseProgramStages 1 .GL_FRAGMENT_SHADER_BIT 5,
           .glBindProgramPipeline 1] := by
  set_option maxRecDepth 100000 in decide

/-- C20 (counterexample): with `DX9_CONSTS` clear and `mActiveShader` pointing to the bound
pipeline, the uniform check returns true, not false, and the draw check accepts the draw. -/
theorem uniform_blocks_counterexample :
    refEnv.SQ_CONFIG_DX9_CONSTS (getRegister activeDriver refEnv.SQ_CONFIG) = false
    ∧ activeDriver.mActiveShader ≠ none
    ∧ (checkActiveUniforms refEnv activeDriver).1 = true
    ∧ (checkReadyDraw refEnv activeDriver).1 = true := by
  set_option maxRecDepth 100000 in decide

/-- C20 (as amended): whenever `SQ_CONFIG.DX9_CONSTS` is clear, `checkActiveUniforms` issues
no host call, leaves the state as it was and returns true; so `checkReadyDraw` does not
reject the draw for its uniforms: it returns what `checkActiveShader` returned. -/
theorem uniform_blocks_noop (K : Env) (s : GLDriver)
    (h : K.SQ_CONFIG_DX9_CONSTS (getRegister s K.SQ_CONFIG) = false) :
    checkActiveUniforms K s = (true, s)
    ∧ (checkReadyDraw K s).1 = (checkActiveShader K s).1 :=
  ⟨checkActiveUniforms_blocks K s h, checkReadyDraw_fst K s⟩

/-- C20 (witness): the state `activeDriver`, in uniform-block mode with an active shader. -/
theorem uniform_blocks_noop_witness :
    checkActiveUniforms refEnv activeDriver = (true, activeDriver)
    ∧ (checkReadyDraw refEnv activeDriver).1 = (checkActiveShader refEnv activeDriver).1 :=
  uniform_blocks_noop refEnv activeDriver (by decide)

/-! ## Surface sizing -/

/-- The host calls of `getColorBuffer` when the entry for the base has no host image. -/
theorem getColorBuffer_miss_calls (K : Env) (base size info : Nat) (s : GLDriver)
    (hmiss : (colorBufferAt s (K.CB_COLORN_BASE_BASE_256B base)).object = 0) :
    (getColorBuffer K base size info s).2.gl.calls
      = s.gl.calls ++
        [ .glGenTextures 1 (s.gl.textures + 1),
          .glBindTexture .GL_TEXTURE_2D (s.gl.textures + 1),
          .glTexParameteri .GL_TEXTURE_2D .GL_TEXTURE_MAG_FILTER .GL_NEAREST,
          .glTexParameteri .GL_TEXTURE_2D .GL_TEXTURE_MIN_FILTER .GL_NEAREST,
          .glTexParameteri .GL_TEXTURE_2D .GL_TEXTURE_WRAP_S .GL_CLAMP_TO_EDGE,
          .glTexParameteri .GL_TEXTURE_2D .GL_TEXTURE_WRAP_T .GL_CLAMP_TO_EDGE,
          .glTexImage2D .GL_TEXTURE_2D 0 .GL_RGBA
            (surfacePitch K (K.CB_COLORN_SIZE_PITCH_TILE_MAX size))
            (surfaceHeight K (K.CB_COLORN_SIZE_PITCH_TILE_MAX size)
              (K.CB_COLORN_SIZE_SLICE_TILE_MAX size))
            0 .GL_RGBA .GL_UNSIGNED_BYTE ] := by
  unfold getColorBuffer
  simp only [hmiss, if_true, Host.glGenTextures, Host.call, surfacePitch, surfaceHeight,
    List.append_assoc, List.cons_append, List.nil_append, Nat.mul_assoc]

/-- The host calls of `getDepthBuffer` when the entry for the base has no host image. -/
theorem getDepthBuffer_miss_calls (K : Env) (base size info : Nat) (s : GLDriver)
    (hmiss : (depthBufferAt s (K.DB_DEPTH_BASE_BASE_256B base)).object = 0) :
    (getDepthBuffer K base size info s).2.gl.calls
      = s.gl.calls ++
        [ .glGenTextures 1 (s.gl.textures + 1),
          .glBindTexture .GL_TEXTURE_2D (s.gl.textures + 1),
          .glTexParameteri .GL_TEXTURE_2D .GL_TEXTURE_MAG_FILTER .GL_NEAREST,
          .glTexParameteri .GL_TEXTURE_2D .GL_TEXTURE_MIN_FILTER .GL_NEAREST,
          .glTexParameteri .GL_TEXTURE_2D .GL_TEXTURE_WRAP_S .GL_CLAMP_TO_EDGE,
          .glTexParameteri .GL_TEXTURE_2D .GL_TEXTURE_WRAP_T .GL_CLAMP_TO_EDGE,
          .glTexParameteri .GL_TEXTURE_2D .GL_TEXTURE_COMPARE_MODE .GL_NONE,
          .glTexImage2D .GL_TEXTURE_2D 0 .GL_DEPTH_COMPONENT32
            (surfacePitch K (K.DB_DEPTH_SIZE_PITCH_TILE_MAX size))
            (surfaceHeight K (K.DB_DEPTH_SIZE_PITCH_TILE_MAX size)
              (K.DB_DEPTH_SIZE_SLICE_TILE_MAX size))
            0 .GL_DEPTH_COMPONENT .GL_FLOAT ] := by
  unfold getDepthBuffer
  simp only [hmiss, if_true, Host.glGenTextures, Host.call, surfacePitch, surfaceHeight,
    List.append_assoc, List.cons_append, List.nil_append, Nat.mul_assoc]

/-- C21: with a positive tile width, the pitch `(p + 1) * tile_width` is positive for every
`PITCH_TILE_MAX = p`; on a cache miss `getColorBuffer` and `getDepthBuffer` create the host
image with that pitch as width and `((sl + 1) * tile_width * tile_height) / pitch` as height,
`sl` being `SLICE_TILE_MAX`; and for a 10-bit `p`, a 20-bit `sl` and tiles that keep
`tile_width * 2^10` below `2^31` and `tile_width * tile_height * 2^20` below `2^32`, the pitch
fits a signed and the slice size an unsigned 32-bit integer. -/
theorem surface_sizing (K : Env) (base size info : Nat) (s : GLDriver)
    (htw : 0 < K.tile_width) :
    (∀ p, 0 < surfacePitch K p)
    ∧ ((colorBufferAt s (K.CB_COLORN_BASE_BASE_256B base)).object = 0 →
        (getColorBuffer K base size info s).2.gl.calls
          = s.gl.calls ++
            [ .glGenTextures 1 (s.gl.textures + 1),
              .glBindTexture .GL_TEXTURE_2D (s.gl.textures + 1),
              .glTexParameteri .GL_TEXTURE_2D .GL_TEXTURE_MAG_FILTER .GL_NEAREST,
              .glTexParameteri .GL_TEXTURE_2D .GL_TEXTURE_MIN_FILTER .GL_NEAREST,
              .glTexParameteri .GL_TEXTURE_2D .GL_TEXTURE_WRAP_S .GL_CLAMP_TO_EDGE,
              .glTexParameteri .GL_TEXTURE_2D .GL_TEXTURE_WRAP_T .GL_CLAMP_TO_EDGE,
              .glTexImage2D .GL_TEXTURE_2D 0 .GL_RGBA
                (surfacePitch K (K.CB_COLORN_SIZE_PITCH_TILE_MAX size))
                (surfaceHeight K (K.CB_COLORN_SIZE_PITCH_TILE_MAX size)
                  (K.CB_COLORN_SIZE_SLICE_TILE_MAX size))
                0 .GL_RGBA .GL_UNSIGNED_BYTE ])
    ∧ ((depthBufferAt s (K.DB_DEPTH_BASE_BASE_256B base)).object = 0 →
        (getDepthBuffer K base size info s).2.gl.calls
          = s.gl.calls ++
            [ .glGenTextures 1 (s.gl.textures + 1),
              .glBindTexture .GL_TEXTURE_2D (s.gl.textures + 1),
              .glTexParameteri .GL_TEXTURE_2D .GL_TEXTURE_MAG_FILTER .GL_NEAREST,
              .glTexParameteri .GL_TEXTURE_2D .GL_TEXTURE_MIN_FILTER .GL_NEAREST,
              .glTexParameteri .GL_TEXTURE_2D .GL_TEXTURE_WRAP_S .GL_CLAMP_TO_EDGE,
              .glTexParameteri .GL_TEXTURE_2D .GL_TEXTURE_WRAP_T .GL_CLAMP_TO_EDGE,
              .glTexParameteri .GL_TEXTURE_2D .GL_TEXTURE_COMPARE_MODE .GL_NONE,
              .glTexImage2D .GL_TEXTURE_2D 0 .GL_DEPTH_COMPONENT32
                (surfacePitch K (K.DB_DEPTH_SIZE_PITCH_TILE_MAX size))
                (surfaceHeight K (K.DB_DEPTH_SIZE_PITCH_TILE_MAX size)
                  (K.DB_DEPTH_SIZE_SLICE_TILE_MAX size))
                0 .GL_DEPTH_COMPONENT .GL_FLOAT ])
    ∧ (∀ p sl, p < 2 ^ 10 → sl < 2 ^ 20 → K.tile_width * 2 ^ 10 < 2 ^ 31 →
        K.tile_width * K.tile_height * 2 ^ 20 < 2 ^ 32 →
        surfacePitch K p < 2 ^ 31 ∧ (sl + 1) * K.tile_width * K.tile_height < 2 ^ 32) := by
  refine ⟨?_, getColorBuffer_miss_calls K base size info s,
    getDepthBuffer_miss_calls K base size info s, ?_⟩
  · intro p
    exact Nat.mul_pos (Nat.succ_pos p) htw
  · intro p sl hp hsl h1 h2
    constructor
    · unfold surfacePitch
      calc (p + 1) * K.tile_width ≤ 2 ^ 10 * K.tile_width :=
            Nat.mul_le_mul_right _ (by omega)
        _ = K.tile_width * 2 ^ 10 := Nat.mul_comm _ _
        _ < 2 ^ 31 := h1
    · calc (sl + 1) * K.tile_width * K.tile_height
          = (sl + 1) * (K.tile_width * K.tile_height) := Nat.mul_assoc _ _ _
        _ ≤ 2 ^ 20 * (K.tile_width * K.tile_height) := Nat.mul_le_mul_right _ (by omega)
        _ = K.tile_width * K.tile_height * 2 ^ 20 := Nat.mul_comm _ _
        _ < 2 ^ 32 := h2

/-- C21 (witness): on the start-up state a 1280 by 720 colour surface (`PITCH_TILE_MAX = 159`,
`SLICE_TILE_MAX = 14399`, 8 by 8 tiles) is created with width 1280 and height 720. -/
theorem surface_sizing_witness :
    (getColorBuffer refEnv 0x100 (159 + 14399 * 2 ^ 10) 0 freshDriver).2.gl.calls
      = [ .glGenTextures 1 1,
          .glBindTexture .GL_TEXTURE_2D 1,
          .glTexParameteri .GL_TEXTURE_2D .GL_TEXTURE_MAG_FILTER .GL_NEAREST,
          .glTexParameteri .GL_TEXTURE_2D .GL_TEXTURE_MIN_FILTER .GL_NEAREST,
          .glTexParameteri .GL_TEXTURE_2D .GL_TEXTURE_WRAP_S .GL_CLAMP_TO_EDGE,
          .glTexParameteri .GL_TEXTURE_2D .GL_TEXTURE_WRAP_T .GL_CLAMP_TO_EDGE,
          .glTexImage2D .GL_TEXTURE_2D 0 .GL_RGBA 1280 720 0 .GL_RGBA .GL_UNSIGNED_BYTE ] :=
  ((surface_sizing refEnv 0x100 (159 + 14399 * 2 ^ 10) 0 freshDriver (by decide)).2.1
    (by decide)).trans (by decide)

/-! ## Who writes the register file -/

theorem getColorBuffer_regs (K : Env) (b sz info : Nat) (s : GLDriver) :
    (getColorBuffer K b sz info s).2.mRegisters = s.mRegisters := by
  unfold getColorBuffer
  simp only
  split <;> rfl

theorem getDepthBuffer_regs (K : Env) (b sz info : Nat) (s : GLDriver) :
    (getDepthBuffer K b sz info s).2.mRegisters = s.mRegisters := by
  unfold getDepthBuffer
  simp only
  split <;> rfl

theorem checkActiveColorBufferSlot_regs (K : Env) (i : Nat) (s : GLDriver) :
    (checkActiveColorBufferSlot K i s).mRegisters = s.mRegisters := by
  unfold checkActiveColorBufferSlot
  simp only
  split_ifs
  · rfl
  · rfl
  · rfl
  · exact getColorBuffer_regs K _ _ _ s

theorem checkActiveColorBuffer_regs (K : Env) (s : GLDriver) :
    (checkActiveColorBuffer K s).2.mRegisters = s.mRegisters := by
  unfold checkActiveColorBuffer
  simp only
  generalize List.range 8 = l
  induction l generalizing s with
  | nil => rfl
  | cons i l ih =>
    rw [List.foldl_cons, ih, checkActiveColorBufferSlot_regs]

theorem checkActiveDepthBuffer_regs (K : Env) (s : GLDriver) :
    (checkActiveDepthBuffer K s).2.mRegisters = s.mRegisters := by
  unfold checkActiveDepthBuffer
  simp only
  split_ifs
  · rfl
  · rfl
  · rfl
  · exact getDepthBuffer_regs K _ _ _ s

theorem checkFetchShader_regs (K : Env) (fs a b : Nat) (s : GLDriver) :
    (checkFetchShader K fs a b s).2.mRegisters = s.mRegisters := by
  unfold checkFetchShader
  simp only
  split <;> rfl

theorem checkVertexShader_regs (K : Env) (fs vs a b : Nat) (s : GLDriver) :
    (checkVertexShader K fs vs a b s).2.mRegisters = s.mRegisters := by
  unfold checkVertexShader
  simp only
  split_ifs <;> rfl

theorem checkPixelShader_regs (K : Env) (ps a b : Nat) (s : GLDriver) :
    (checkPixelShader K ps a b s).2.mRegisters = s.mRegisters := by
  unfold checkPixelShader
  simp only
  split_ifs <;> rfl

theorem linkShader_regs (fs vs ps : Nat) (key : ShaderKey) (s : GLDriver) :
    (linkShader fs vs ps key s).mRegisters = s.mRegisters := by
  unfold linkShader
  simp only
  split_ifs <;> rfl

theorem andCheck_regs (s : GLDriver) (r : Bool × GLDriver)
    (next : GLDriver → Bool × GLDriver) (h1 : r.2.mRegisters = s.mRegisters)
    (h2 : ∀ s', (next s').2.mRegisters = s'.mRegisters) :
    (andCheck r next).2.mRegisters = s.mRegisters := by
  unfold andCheck
  split
  · exact (h2 _).trans h1
  · exact h1

theorem checkActiveShader_regs (K : Env) (s : GLDriver) :
    (checkActiveShader K s).2.mRegisters = s.mRegisters := by
  unfold checkActiveShader
  simp only
  split
  · rfl
  · split
    · refine andCheck_regs (lookupShaders _ _ _ _ s) _ _ (checkFetchShader_regs K _ _ _ _) ?_
      intro s1
      refine andCheck_regs _ _ _ (checkVertexShader_regs K _ _ _ _ _) ?_
      intro s2
      refine andCheck_regs _ _ _ (checkPixelShader_regs K _ _ _ _) ?_
      intro s3
      exact linkShader_regs _ _ _ _ _
    · rfl

theorem checkActiveUniforms_regs (K : Env) (s : GLDriver) :
    (checkActiveUniforms K s).2.mRegisters = s.mRegisters := by
  unfold checkActiveUniforms
  simp only
  split
  · rfl
  · split_ifs
    · (repeat' split) <;> rfl
    · rfl

/-- The readiness check of a draw reads the registers and writes none. -/
theorem checkReadyDraw_regs (K : Env) (s : GLDriver) :
    (checkReadyDraw K s).2.mRegisters = s.mRegisters := by
  unfold checkReadyDraw
  refine andCheck_regs _ _ _ (checkActiveShader_regs K s) ?_
  intro s1
  refine andCheck_regs _ _ _ (checkActiveUniforms_regs K s1) ?_
  intro s2
  refine andCheck_regs _ _ _ (checkActiveColorBuffer_regs K s2) ?_
  intro s3
  refine andCheck_regs _ _ _ (checkActiveDepthBuffer_regs K s3) ?_
  intro s4
  rfl

theorem decafClearColor_regs (K : Env) (data : pm4.DecafClearColor) (s : GLDriver) :
    (decafClearColor K data s).mRegisters = s.mRegisters := by
  unfold decafClearColor
  simp only
  split
  · rfl
  · exact getColorBuffer_regs K _ _ _ s

theorem decafCopyColorToScan_regs (K : Env) (data : pm4.DecafCopyColorToScan) (s : GLDriver) :
    (decafCopyColorToScan K data s).mRegisters = s.mRegisters :=
  getColorBuffer_regs K _ _ _ s

/-- C22 (counterexample): a `NUM_INSTANCES` packet, which is no `SET_*` packet and no indirect
call, with payload 7 on the start-up state leaves 7 in register `VGT_DMA_NUM_INSTANCES`,
which held 0. -/
theorem register_frame_counterexample :
    refEnv.type (refHeader 0x2F 0) = .Type3
    ∧ isSetOpcode (refEnv.opcode (refHeader 0x2F 0)) = false
    ∧ refEnv.opcode (refHeader 0x2F 0) ≠ .INDIRECT_BUFFER_PRIV
    ∧ (handlePacketType3 refEnv (runCommandBuffer refEnv 0) (refHeader 0x2F 0) [7]
        freshDriver).map (fun o => getRegister o.state refEnv.VGT_DMA_NUM_INSTANCES) = some 7
    ∧ getRegister freshDriver refEnv.VGT_DMA_NUM_INSTANCES = 0 := by
  decide

/-- C22 (as amended): handling a type-3 packet that is no `SET_*` packet and no indirect call
returns normally; an `INDEX_TYPE` packet stores its payload word in `VGT_DMA_INDEX_TYPE` and a
`NUM_INSTANCES` packet in `VGT_DMA_NUM_INSTANCES`, both by a plain store, and every other such
packet leaves every register as it was. -/
theorem register_frame (K : Env) (run : List Nat → (Nat → Nat) → GLDriver → Run)
    (header : Nat) (data : List Nat) (s : GLDriver)
    (hset : isSetOpcode (K.opcode header) = false)
    (hind : K.opcode header ≠ .INDIRECT_BUFFER_PRIV) :
    ∃ s', handlePacketType3 K run header data s = some (.ok s')
      ∧ (K.opcode header = .INDEX_TYPE →
          s'.mRegisters
            = Function.update s.mRegisters (K.VGT_DMA_INDEX_TYPE / 4) (K.readIndexType data).type)
      ∧ (K.opcode header = .NUM_INSTANCES →
          s'.mRegisters
            = Function.update s.mRegisters (K.VGT_DMA_NUM_INSTANCES / 4)
                (K.readNumInstances data).count)
      ∧ (K.opcode header ≠ .INDEX_TYPE → K.opcode header ≠ .NUM_INSTANCES →
          s'.mRegisters = s.mRegisters) := by
  unfold handlePacketType3
  cases hop : K.opcode header
  case INDIRECT_BUFFER_PRIV => exact absurd hop hind
  case DECAF_COPY_COLOR_TO_SCAN =>
    exact ⟨_, rfl, nofun, nofun, fun _ _ => decafCopyColorToScan_regs K _ s⟩
  case DECAF_CLEAR_COLOR =>
    exact ⟨_, rfl, nofun, nofun, fun _ _ => decafClearColor_regs K _ s⟩
  case DRAW_INDEX_AUTO => exact ⟨_, rfl, nofun, nofun, fun _ _ => checkReadyDraw_regs K s⟩
  case DRAW_INDEX_2 => exact ⟨_, rfl, nofun, nofun, fun _ _ => checkReadyDraw_regs K s⟩
  case DECAF_SWAP_BUFFERS => exact ⟨_, rfl, nofun, nofun, fun _ _ => rfl⟩
  case DECAF_CLEAR_DEPTH_STENCIL => exact ⟨_, rfl, nofun, nofun, fun _ _ => rfl⟩
  case INDEX_TYPE => exact ⟨_, rfl, fun _ => rfl, nofun, fun h _ => absurd rfl h⟩
  case NUM_INSTANCES => exact ⟨_, rfl, nofun, fun _ => rfl, fun _ h => absurd rfl h⟩
  case other => exact ⟨_, rfl, nofun, nofun, fun _ _ => rfl⟩
  all_goals simp [isSetOpcode, hop] at hset

/-- C22 (witness): a `DRAW_INDEX_AUTO` packet on the start-up state leaves register
`VGT_DMA_NUM_INSTANCES` as it was. -/
theorem register_frame_witness :
    ∃ s', handlePacketType3 refEnv (runCommandBuffer refEnv 0) (refHeader 0x2D 0) [3]
        freshDriver = some (.ok s')
      ∧ s'.mRegisters = freshDriver.mRegisters :=
  have h := register_frame refEnv (runCommandBuffer refEnv 0) (refHeader 0x2D 0) [3]
    freshDriver (by decide) (by decide)
  h.elim fun s' hs => ⟨s', hs.1, hs.2.2.2 (by decide) (by decide)⟩

/-! ## Packet framing -/

theorem handlePacketType3_handleDirect (K : Env)
    (run : List Nat → (Nat → Nat) → GLDriver → Run)
    (header : Nat) (data : List Nat) (s : GLDriver)
    (ho : K.opcode header ≠ .INDIRECT_BUFFER_PRIV) :
    handlePacketType3 K run header data s = some (.ok (handleDirect K header data s)) := by
  unfold handleDirect handlePacketType3
  cases hop : K.opcode header
  case INDIRECT_BUFFER_PRIV => exact absurd hop ho
  all_goals rfl

/-- Running the words of whole type-3 packets dispatches the packets in order. -/
theorem runCommandBuffer_packetWords (K : Env) (depth : Nat) :
    ∀ (pkts : List (Nat × List Nat)) (beyond : Nat → Nat) (s : GLDriver),
      (∀ p ∈ pkts, K.type p.1 = .Type3 ∧ p.2.length = K.size p.1 + 1) →
      runCommandBuffer K (depth + 1) (packetWords pkts) beyond s
        = dispatchAll K (runCommandBuffer K depth) pkts s := by
  intro pkts beyond
  induction pkts with
  | nil => intro s _; rfl
  | cons p ps ih =>
    intro s h
    have hp := h p (List.mem_cons_self _ _)
    rw [packetWords, dispatchAll, runCommandBuffer_cons K depth p.1 p.2 _ beyond s hp.1 hp.2]
    congr 1
    funext s'
    exact ih s' (fun q hq => h q (List.mem_cons_of_mem _ hq))

theorem dispatchAll_direct (K : Env) (run : List Nat → (Nat → Nat) → GLDriver → Run) :
    ∀ (pkts : List (Nat × List Nat)) (s : GLDriver),
      (∀ p ∈ pkts, K.opcode p.1 ≠ .INDIRECT_BUFFER_PRIV) →
      dispatchAll K run pkts s
        = some (.ok (pkts.foldl (fun s' p => handleDirect K p.1 p.2 s') s)) := by
  intro pkts
  induction pkts with
  | nil => intro s _; rfl
  | cons p ps ih =>
    intro s h
    rw [dispatchAll, handlePacketType3_handleDirect K run p.1 p.2 s
      (h p (List.mem_cons_self _ _)), List.foldl_cons]
    exact ih _ (fun q hq => h q (List.mem_cons_of_mem _ hq))

/-- C25: at a type-3 header at cursor `pos` with size field `N`, one iteration of the loop of
`runCommandBuffer` hands the handler exactly `N + 1` words, the words `buffer[pos + 1]` to
`buffer[pos + N + 1]` of the memory the buffer pointer points into (past the end of the
buffer the words the memory holds there, which no comparison guards; a segment of the buffer
when the packet lies within it), and goes on at `pos + N + 2`.  Hence running the words of
whole type-3 packets, whatever follows them in memory, dispatches the packets in order, one
handler each, and when none is an indirect call the run returns the state the handlers leave
one after the other.  The loop has all the iterations it needs with one per word: more
change nothing. -/
theorem packet_framing (K : Env) (depth : Nat) (s : GLDriver) :
    (∀ (handle : Nat → List Nat → GLDriver → Run) (buffer : List Nat) (beyond : Nat → Nat)
        (steps pos : Nat),
      pos < buffer.length → K.type (buffer.getD pos 0) = .Type3 →
      runCommandBufferLoop K handle buffer beyond (steps + 1) pos s
          = thenRun
              (handle (buffer.getD pos 0)
                (payloadAt buffer beyond pos (K.size (buffer.getD pos 0) + 1)) s)
              (runCommandBufferLoop K handle buffer beyond steps
                (pos + (K.size (buffer.getD pos 0) + 2)))
        ∧ (payloadAt buffer beyond pos (K.size (buffer.getD pos 0) + 1)).length
            = K.size (buffer.getD pos 0) + 1
        ∧ (∀ j, j < K.size (buffer.getD pos 0) + 1 →
            (payloadAt buffer beyond pos (K.size (buffer.getD pos 0) + 1)).getD j 0
              = if pos + 1 + j < buffer.length then buffer.getD (pos + 1 + j) 0
                else beyond (pos + 1 + j - buffer.length))
        ∧ (pos + K.size (buffer.getD pos 0) + 2 ≤ buffer.length →
            payloadAt buffer beyond pos (K.size (buffer.getD pos 0) + 1)
              = (buffer.drop (pos + 1)).take (K.size (buffer.getD pos 0) + 1)))
    ∧ (∀ (pkts : List (Nat × List Nat)) (beyond : Nat → Nat),
        (∀ p ∈ pkts, K.type p.1 = .Type3 ∧ p.2.length = K.size p.1 + 1) →
        runCommandBuffer K (depth + 1) (packetWords pkts) beyond s
            = dispatchAll K (runCommandBuffer K depth) pkts s
          ∧ ((∀ p ∈ pkts, K.opcode p.1 ≠ .INDIRECT_BUFFER_PRIV) →
              runCommandBuffer K (depth + 1) (packetWords pkts) beyond s
                = some (.ok (pkts.foldl (fun s' p => handleDirect K p.1 p.2 s') s))))
    ∧ (∀ (handle : Nat → List Nat → GLDriver → Run) (buffer : List Nat) (beyond : Nat → Nat)
        (k : Nat),
        runCommandBufferLoop K handle buffer beyond (buffer.length + 1) 0 s
          = runCommandBufferLoop K handle buffer beyond (buffer.length + 1 + k) 0 s) := by
  refine ⟨?_, ?_, ?_⟩
  · intro handle buffer beyond steps pos hpos ht
    refine ⟨?_, payloadAt_length _ _ _ _, ?_, ?_⟩
    · rw [runCommandBufferLoop_succ, if_pos hpos]
      simp only [ht]
    · intro j hj
      rw [payloadAt_getD _ _ _ _ _ hj]
      rfl
    · intro hwhole
      exact payloadAt_within buffer beyond pos _ (by omega)
  · intro pkts beyond hw
    have e := runCommandBuffer_packetWords K depth pkts beyond s hw
    refine ⟨e, ?_⟩
    intro hd
    rw [e, dispatchAll_direct K _ pkts s hd]
  · intro handle buffer beyond k
    exact runCommandBufferLoop_steps K handle buffer beyond buffer.length 0 s (by omega) k

/-- C25 (witness): the words of `threePackets` run to the state in which the third handler
has stored 9 in `VGT_DMA_NUM_INSTANCES`; and the packet of `cutBuffer`, whose payload word
lies past the end of the buffer, is handed the word 7 that the memory holds there. -/
theorem packet_framing_witness :
    (runCommandBuffer refEnv 1 (packetWords threePackets) zeros freshDriver).map
        (fun o => getRegister o.state refEnv.VGT_DMA_NUM_INSTANCES) = some 9
    ∧ payloadAt cutBuffer sevens 0 (refEnv.size (cutBuffer.getD 0 0) + 1) = [7]
    ∧ (runCommandBuffer refEnv 1 cutBuffer sevens freshDriver).map
        (fun o => getRegister o.state refEnv.VGT_DMA_NUM_INSTANCES) = some 7 := by
  refine ⟨?_, by decide, ?_⟩
  · rw [((packet_framing refEnv 0 freshDriver).2.1 threePackets zeros (by decide)).2
      (by decide)]
    decide
  · show (runCommandBufferLoop refEnv (handlePacketType3 refEnv (runCommandBuffer refEnv 0))
        cutBuffer sevens (1 + 1) 0 freshDriver).map
      (fun o => getRegister o.state refEnv.VGT_DMA_NUM_INSTANCES) = some 7
    rw [((packet_framing refEnv 0 freshDriver).1
      (handlePacketType3 refEnv (runCommandBuffer refEnv 0)) cutBuffer sevens 1 0
      (by decide) (by decide)).1]
    decide

/-! ## Shader stages are built once -/

theorem stagesKept_refl (s : GLDriver) : StagesKept s s :=
  ⟨fun _ _ => rfl, fun _ _ => rfl, fun _ _ => rfl⟩

theorem stagesKept_trans {s1 s2 s3 : GLDriver} (h1 : StagesKept s1 s2)
    (h2 : StagesKept s2 s3) : StagesKept s1 s3 := by
  refine ⟨?_, ?_, ?_⟩
  · intro A hA
    have e := h1.1 A hA
    rw [← e]
    exact h2.1 A (by rw [e]; exact hA)
  · intro A hA
    have e := h1.2.1 A hA
    rw [← e]
    exact h2.2.1 A (by rw [e]; exact hA)
  · intro A hA
    have e := h1.2.2 A hA
    rw [← e]
    exact h2.2.2 A (by rw [e]; exact hA)

theorem stagesKept_of_stageCaches {s s' : GLDriver} (h : stageCaches s' = stageCaches s) :
    StagesKept s s' := by
  simp only [stageCaches, Prod.mk.injEq] at h
  obtain ⟨h1, h2, h3⟩ := h
  refine ⟨?_, ?_, ?_⟩ <;> intro A _
  · simp only [fetchShaderAt, h1]
  · simp only [vertexShaderAt, h2]
  · simp only [pixelShaderAt, h3]

theorem lookupShaders_fetch (fs vs ps : Nat) (key : ShaderKey) (s : GLDriver) (A : Nat) :
    fetchShaderAt (lookupShaders fs vs ps key s) A = fetchShaderAt s A := by
  simp only [fetchShaderAt, lookupShaders, Function.update_apply]
  split
  · next h => rw [h]; rfl
  · rfl

theorem lookupShaders_vertex (fs vs ps : Nat) (key : ShaderKey) (s : GLDriver) (A : Nat) :
    vertexShaderAt (lookupShaders fs vs ps key s) A = vertexShaderAt s A := by
  simp only [vertexShaderAt, lookupShaders, Function.update_apply]
  split
  · next h => rw [h]; rfl
  · rfl

theorem lookupShaders_pixel (fs vs ps : Nat) (key : ShaderKey) (s : GLDriver) (A : Nat) :
    pixelShaderAt (lookupShaders fs vs ps key s) A = pixelShaderAt s A := by
  simp only [pixelShaderAt, lookupShaders, Function.update_apply]
  split
  · next h => rw [h]; rfl
  · rfl

theorem lookupShaders_stagesKept (fs vs ps : Nat) (key : ShaderKey) (s : GLDriver) :
    StagesKept s (lookupShaders fs vs ps key s) :=
  ⟨fun A _ => lookupShaders_fetch fs vs ps key s A,
    fun A _ => lookupShaders_vertex fs vs ps key s A,
    fun A _ => lookupShaders_pixel fs vs ps key s A⟩

/-- A parsed fetch shader is not parsed again. -/
theorem checkFetchShader_built (K : Env) (fs a b : Nat) (s : GLDriver)
    (h : (fetchShaderAt s fs).parsed = true) : checkFetchShader K fs a b s = (true, s) := by
  unfold checkFetchShader
  simp [h]

/-- A vertex shader with a host program is not compiled again and gets no other program. -/
theorem checkVertexShader_built (K : Env) (fs vs a b : Nat) (s : GLDriver)
    (h : (vertexShaderAt s vs).object ≠ 0) : checkVertexShader K fs vs a b s = (true, s) := by
  unfold checkVertexShader
  simp [h]

/-- A pixel shader with a host program is not compiled again and gets no other program. -/
theorem checkPixelShader_built (K : Env) (ps a b : Nat) (s : GLDriver)
    (h : (pixelShaderAt s ps).object ≠ 0) : checkPixelShader K ps a b s = (true, s) := by
  unfold checkPixelShader
  simp [h]

theorem checkFetchShader_stagesKept (K : Env) (fs a b : Nat) (s : GLDriver) :
    StagesKept s (checkFetchShader K fs a b s).2 := by
  by_cases h : (fetchShaderAt s fs).parsed = true
  · rw [checkFetchShader_built K fs a b s h]
    exact stagesKept_refl s
  · refine ⟨?_, fun _ _ => ?_, fun _ _ => ?_⟩
    · intro A hA
      have hne : A ≠ fs := by
        intro e
        rw [e] at hA
        exact h hA
      unfold checkFetchShader
      simp only
      split_ifs
      simp [fetchShaderAt, Function.update_apply, hne]
    · unfold checkFetchShader
      simp only
      split <;> rfl
    · unfold checkFetchShader
      simp only
      split <;> rfl

theorem checkVertexShader_stagesKept (K : Env) (fs vs a b : Nat) (s : GLDriver) :
    StagesKept s (checkVertexShader K fs vs a b s).2 := by
  by_cases h : (vertexShaderAt s vs).object ≠ 0
  · rw [checkVertexShader_built K fs vs a b s h]
    exact stagesKept_refl s
  · refine ⟨fun _ _ => ?_, ?_, fun _ _ => ?_⟩
    · unfold checkVertexShader
      simp only
      split_ifs <;> rfl
    · intro A hA
      have hne : A ≠ vs := by
        intro e
        rw [e] at hA
        exact h hA
      unfold checkVertexShader
      simp only
      split_ifs <;> simp [vertexShaderAt, Function.update_apply, hne]
    · unfold checkVertexShader
      simp only
      split_ifs <;> rfl

theorem checkPixelShader_stagesKept (K : Env) (ps a b : Nat) (s : GLDriver) :
    StagesKept s (checkPixelShader K ps a b s).2 := by
  by_cases h : (pixelShaderAt s ps).object ≠ 0
  · rw [checkPixelShader_built K ps a b s h]
    exact stagesKept_refl s
  · refine ⟨fun _ _ => ?_, fun _ _ => ?_, ?_⟩
    · unfold checkPixelShader
      simp only
      split_ifs <;> rfl
    · unfold checkPixelShader
      simp only
      split_ifs <;> rfl
    · intro A hA
      have hne : A ≠ ps := by
        intro e
        rw [e] at hA
        exact h hA
      unfold checkPixelShader
      simp only
      split_ifs <;> simp [pixelShaderAt, Function.update_apply, hne]

theorem linkShader_stageCaches (fs vs ps : Nat) (key : ShaderKey) (s : GLDriver) :
    stageCaches (linkShader fs vs ps key s) = stageCaches s := by
  unfold linkShader
  simp only
  split_ifs <;> rfl

theorem andCheck_stagesKept (s : GLDriver) (r : Bool × GLDriver)
    (next : GLDriver → Bool × GLDriver) (h1 : StagesKept s r.2)
    (h2 : ∀ s', StagesKept s' (next s').2) : StagesKept s (andCheck r next).2 := by
  unfold andCheck
  split
  · exact stagesKept_trans h1 (h2 _)
  · exact h1

theorem buildShader_stagesKept (K : Env) (fs vs ps : Nat) (key : ShaderKey)
    (a1 a2 a3 a4 a5 a6 : Nat) (s0 : GLDriver) :
    StagesKept s0
      (andCheck (checkFetchShader K fs a1 a2 s0) fun s =>
        andCheck (checkVertexShader K fs vs a3 a4 s) fun s =>
        andCheck (checkPixelShader K ps a5 a6 s) fun s =>
        bindShader key (linkShader fs vs ps key s)).2 := by
  refine andCheck_stagesKept _ _ _ (checkFetchShader_stagesKept K _ _ _ _) ?_
  intro s1
  refine andCheck_stagesKept _ _ _ (checkVertexShader_stagesKept K _ _ _ _ _) ?_
  intro s2
  refine andCheck_stagesKept _ _ _ (checkPixelShader_stagesKept K _ _ _ _) ?_
  intro s3
  exact stagesKept_of_stageCaches
    (show stageCaches (bindShader key (linkShader fs vs ps key s3)).2 = stageCaches s3 from
      linkShader_stageCaches _ _ _ _ s3)

theorem bindLookup_stagesKept (fs vs ps : Nat) (key key' : ShaderKey) (s : GLDriver) :
    StagesKept s (bindShader key (lookupShaders fs vs ps key' s)).2 :=
  ⟨fun A _ => lookupShaders_fetch fs vs ps key' s A,
    fun A _ => lookupShaders_vertex fs vs ps key' s A,
    fun A _ => lookupShaders_pixel fs vs ps key' s A⟩

/-- The shader check leaves every built stage as it is. -/
theorem checkActiveShader_stagesKept (K : Env) (s : GLDriver) :
    StagesKept s (checkActiveShader K s).2 := by
  unfold checkActiveShader
  simp only
  split
  · exact stagesKept_refl s
  · have h0 : ∀ fs vs ps key, StagesKept s (lookupShaders fs vs ps key s) :=
      fun fs vs ps key => lookupShaders_stagesKept fs vs ps key s
    split
    · exact stagesKept_trans (h0 _ _ _ _) (buildShader_stagesKept K _ _ _ _ _ _ _ _ _ _ _)
    · exact bindLookup_stagesKept _ _ _ _ _ s

theorem getColorBuffer_stageCaches (K : Env) (b sz info : Nat) (s : GLDriver) :
    stageCaches (getColorBuffer K b sz info s).2 = stageCaches s := by
  unfold getColorBuffer
  simp only
  split <;> rfl

theorem getDepthBuffer_stageCaches (K : Env) (b sz info : Nat) (s : GLDriver) :
    stageCaches (getDepthBuffer K b sz info s).2 = stageCaches s := by
  unfold getDepthBuffer
  simp only
  split <;> rfl

theorem checkActiveColorBufferSlot_stageCaches (K : Env) (i : Nat) (s : GLDriver) :
    stageCaches (checkActiveColorBufferSlot K i s) = stageCaches s := by
  unfold checkActiveColorBufferSlot
  simp only
  split_ifs
  · rfl
  · rfl
  · rfl
  · exact getColorBuffer_stageCaches K _ _ _ s

theorem checkActiveColorBuffer_stageCaches (K : Env) (s : GLDriver) :
    stageCaches (checkActiveColorBuffer K s).2 = stageCaches s := by
  unfold checkActiveColorBuffer
  simp only
  generalize List.range 8 = l
  induction l generalizing s with
  | nil => rfl
  | cons i l ih =>
    rw [List.foldl_cons, ih, checkActiveColorBufferSlot_stageCaches]

theorem checkActiveDepthBuffer_stageCaches (K : Env) (s : GLDriver) :
    stageCaches (checkActiveDepthBuffer K s).2 = stageCaches s := by
  unfold checkActiveDepthBuffer
  simp only
  split_ifs
  · rfl
  · rfl
  · rfl
  · exact getDepthBuffer_stageCaches K _ _ _ s

theorem checkActiveUniforms_stageCaches (K : Env) (s : GLDriver) :
    stageCaches (checkActiveUniforms K s).2 = stageCaches s := by
  unfold checkActiveUniforms
  simp only
  split
  · rfl
  · split_ifs
    · (repeat' split) <;> rfl
    · rfl

theorem setRegsLoop_stageCaches (K : Env) (id : Nat) :
    ∀ (vs : List Nat) (i : Nat) (s : GLDriver),
      stageCaches (setRegsLoop K id i vs s) = stageCaches s := by
  intro vs
  induction vs with
  | nil => intro i s; rfl
  | cons v vs ih =>
    intro i s
    rw [setRegsLoop, ih]
    rfl

theorem decafClearColor_stageCaches (K : Env) (data : pm4.DecafClearColor) (s : GLDriver) :
    stageCaches (decafClearColor K data s) = stageCaches s := by
  unfold decafClearColor
  simp only
  split
  · rfl
  · exact getColorBuffer_stageCaches K _ _ _ s

theorem decafCopyColorToScan_stageCaches (K : Env) (data : pm4.DecafCopyColorToScan)
    (s : GLDriver) : stageCaches (decafCopyColorToScan K data s) = stageCaches s :=
  getColorBuffer_stageCaches K _ _ _ s

/-- The readiness check of a draw leaves every built stage as it is. -/
theorem checkReadyDraw_stagesKept (K : Env) (s : GLDriver) :
    StagesKept s (checkReadyDraw K s).2 := by
  unfold checkReadyDraw
  refine andCheck_stagesKept _ _ _ (checkActiveShader_stagesKept K s) ?_
  intro s1
  refine andCheck_stagesKept _ _ _
    (stagesKept_of_stageCaches (checkActiveUniforms_stageCaches K s1)) ?_
  intro s2
  refine andCheck_stagesKept _ _ _
    (stagesKept_of_stageCaches (checkActiveColorBuffer_stageCaches K s2)) ?_
  intro s3
  refine andCheck_stagesKept _ _ _
    (stagesKept_of_stageCaches (checkActiveDepthBuffer_stageCaches K s3)) ?_
  intro s4
  exact stagesKept_refl s4

/-- Every packet handler leaves every built stage as it is. -/
theorem handlePacketType3_stagesKept (K : Env)
    (run : List Nat → (Nat → Nat) → GLDriver → Run)
    (header : Nat) (data : List Nat) (s : GLDriver) (r : Outcome GLDriver)
    (ho : K.opcode header ≠ .INDIRECT_BUFFER_PRIV)
    (hr : handlePacketType3 K run header data s = some r) : StagesKept s r.state := by
  unfold handlePacketType3 at hr
  cases hop : K.opcode header
  case INDIRECT_BUFFER_PRIV => exact absurd hop ho
  case DECAF_COPY_COLOR_TO_SCAN =>
    simp only [hop] at hr
    cases hr
    exact stagesKept_of_stageCaches (decafCopyColorToScan_stageCaches K _ s)
  case DECAF_CLEAR_COLOR =>
    simp only [hop] at hr
    cases hr
    exact stagesKept_of_stageCaches (decafClearColor_stageCaches K _ s)
  case DRAW_INDEX_AUTO =>
    simp only [hop] at hr
    cases hr
    exact checkReadyDraw_stagesKept K s
  case DRAW_INDEX_2 =>
    simp only [hop] at hr
    cases hr
    exact checkReadyDraw_stagesKept K s
  case DECAF_SWAP_BUFFERS =>
    simp only [hop] at hr
    cases hr
    exact stagesKept_of_stageCaches rfl
  case DECAF_CLEAR_DEPTH_STENCIL =>
    simp only [hop] at hr
    cases hr
    exact stagesKept_refl s
  case INDEX_TYPE =>
    simp only [hop] at hr
    cases hr
    exact stagesKept_of_stageCaches rfl
  case NUM_INSTANCES =>
    simp only [hop] at hr
    cases hr
    exact stagesKept_of_stageCaches rfl
  case other =>
    simp only [hop] at hr
    cases hr
    exact stagesKept_refl s
  all_goals
    simp only [hop] at hr
    cases hr
    exact stagesKept_of_stageCaches (setRegsLoop_stageCaches K _ _ _ s)

theorem allPackets_true (K : Env) :
    ∀ (depth : Nat) (buffer : List Nat) (beyond : Nat → Nat),
      allPackets K (fun _ _ => true) depth buffer beyond = true := by
  intro d
  induction d with
  | zero => intro b y; rfl
  | succ d ihd =>
    intro b y
    rw [allPackets]
    generalize b.length + 1 = steps
    generalize 0 = pos
    induction steps generalizing pos with
    | zero => rfl
    | succ n ihn =>
      rw [allPacketsLoop_succ]
      split
      · split
        · simp only [Bool.true_and, Bool.and_eq_true]
          refine ⟨?_, ihn _⟩
          split
          · exact ihd _ _
          · rfl
        all_goals rfl
      · rfl

/-- Every run of a command buffer leaves every built stage as it is. -/
theorem runCommandBuffer_stagesKept (K : Env) (depth : Nat) (buffer : List Nat)
    (beyond : Nat → Nat) (s : GLDriver) (r : Outcome GLDriver)
    (hr : runCommandBuffer K depth buffer beyond s = some r) : StagesKept s r.state :=
  runCommandBuffer_invariant K (fun _ _ => true) (StagesKept s)
    (fun run header data s1 r1 _ ho hs hr1 =>
      stagesKept_trans hs (handlePacketType3_stagesKept K run header data s1 r1 ho hr1))
    depth buffer beyond s r (allPackets_true K depth buffer beyond) (stagesKept_refl s) hr

theorem andCheck_snd (r : Bool × GLDriver) (next : GLDriver → Bool × GLDriver) :
    (andCheck r next).2 = if r.1 then (next r.2).2 else r.2 := by
  unfold andCheck
  split <;> rfl

theorem checkFetchShader_gl (K : Env) (fs a b : Nat) (s : GLDriver) :
    (checkFetchShader K fs a b s).2.gl = s.gl := by
  unfold checkFetchShader
  simp only
  split <;> rfl

theorem checkFetchShader_vertex (K : Env) (fs a b : Nat) (s : GLDriver) :
    (checkFetchShader K fs a b s).2.mVertexShaders = s.mVertexShaders := by
  unfold checkFetchShader
  simp only
  split <;> rfl

theorem checkFetchShader_pixel (K : Env) (fs a b : Nat) (s : GLDriver) :
    (checkFetchShader K fs a b s).2.mPixelShaders = s.mPixelShaders := by
  unfold checkFetchShader
  simp only
  split <;> rfl

theorem checkVertexShader_pixel (K : Env) (fs vs a b : Nat) (s : GLDriver) :
    (checkVertexShader K fs vs a b s).2.mPixelShaders = s.mPixelShaders := by
  unfold checkVertexShader
  simp only
  split_ifs <;> rfl

/-- The vertex block creates no fragment program. -/
theorem checkVertexShader_created (K : Env) (fs vs a b : Nat) (s : GLDriver) :
    createdPrograms .GL_FRAGMENT_SHADER (checkVertexShader K fs vs a b s).2.gl
      = createdPrograms .GL_FRAGMENT_SHADER s.gl := by
  unfold checkVertexShader
  simp only
  split_ifs <;> simp [createdPrograms, getProgramLog, Host.call, List.filter_append]

/-- The pixel block creates no vertex program. -/
theorem checkPixelShader_created (K : Env) (ps a b : Nat) (s : GLDriver) :
    createdPrograms .GL_VERTEX_SHADER (checkPixelShader K ps a b s).2.gl
      = createdPrograms .GL_VERTEX_SHADER s.gl := by
  unfold checkPixelShader
  simp only
  split_ifs <;> simp [createdPrograms, getProgramLog, Host.call, List.filter_append]

theorem bindLink_created (type : GLenum) (fs vs ps : Nat) (key : ShaderKey) (s : GLDriver) :
    createdPrograms type (bindShader key (linkShader fs vs ps key s)).2.gl
      = createdPrograms type s.gl := by
  unfold bindShader linkShader
  simp only
  split_ifs <;>
    simp [createdPrograms, Host.glGenProgramPipelines, Host.call, List.filter_append]

/-- A check whose registers select a vertex stage that has a host program creates no vertex
program. -/
theorem checkActiveShader_vertex_created (K : Env) (s : GLDriver)
    (h : (vertexShaderAt s
      (K.SQ_PGM_START_VS_PGM_START (getRegister s K.SQ_PGM_START_VS))).object ≠ 0) :
    createdPrograms .GL_VERTEX_SHADER (checkActiveShader K s).2.gl
      = createdPrograms .GL_VERTEX_SHADER s.gl := by
  unfold checkActiveShader
  simp only
  split
  · rfl
  · split
    · rw [andCheck_snd]
      split
      · have hv : (vertexShaderAt (checkFetchShader K
            (K.SQ_PGM_START_FS_PGM_START (getRegister s K.SQ_PGM_START_FS))
            (getRegister s K.SQ_PGM_START_FS) (getRegister s K.SQ_PGM_SIZE_FS)
            (lookupShaders (K.SQ_PGM_START_FS_PGM_START (getRegister s K.SQ_PGM_START_FS))
              (K.SQ_PGM_START_VS_PGM_START (getRegister s K.SQ_PGM_START_VS))
              (K.SQ_PGM_START_PS_PGM_START (getRegister s K.SQ_PGM_START_PS))
              { fetch := K.SQ_PGM_START_FS_PGM_START (getRegister s K.SQ_PGM_START_FS),
                vertex := K.SQ_PGM_START_VS_PGM_START (getRegister s K.SQ_PGM_START_VS),
                pixel := K.SQ_PGM_START_PS_PGM_START (getRegister s K.SQ_PGM_START_PS) } s)).2
            (K.SQ_PGM_START_VS_PGM_START (getRegister s K.SQ_PGM_START_VS))).object ≠ 0 := by
          unfold vertexShaderAt
          rw [checkFetchShader_vertex]
          exact (congrArg VertexShader.object (lookupShaders_vertex _ _ _ _ s _)).trans_ne h
        rw [checkVertexShader_built K _ _ _ _ _ hv, andCheck_snd]
        simp only [if_true]
        rw [andCheck_snd]
        split
        · rw [bindLink_created, checkPixelShader_created, checkFetchShader_gl]
          rfl
        · rw [checkPixelShader_created, checkFetchShader_gl]
          rfl
      · rw [checkFetchShader_gl]
        rfl
    · simp [createdPrograms, bindShader, lookupShaders, Host.call, List.filter_append]

/-- A check whose registers select a pixel stage that has a host program creates no fragment
program. -/
theorem checkActiveShader_pixel_created (K : Env) (s : GLDriver)
    (h : (pixelShaderAt s
      (K.SQ_PGM_START_PS_PGM_START (getRegister s K.SQ_PGM_START_PS))).object ≠ 0) :
    createdPrograms .GL_FRAGMENT_SHADER (checkActiveShader K s).2.gl
      = createdPrograms .GL_FRAGMENT_SHADER s.gl := by
  unfold checkActiveShader
  simp only
  split
  · rfl
  · split
    · rw [andCheck_snd]
      split
      · rw [andCheck_snd]
        split
        · have hp : (pixelShaderAt (checkVertexShader K
              (K.SQ_PGM_START_FS_PGM_START (getRegister s K.SQ_PGM_START_FS))
              (K.SQ_PGM_START_VS_PGM_START (getRegister s K.SQ_PGM_START_VS))
              (getRegister s K.SQ_PGM_START_VS) (getRegister s K.SQ_PGM_SIZE_VS)
              (checkFetchShader K
                (K.SQ_PGM_START_FS_PGM_START (getRegister s K.SQ_PGM_START_FS))
                (getRegister s K.SQ_PGM_START_FS) (getRegister s K.SQ_PGM_SIZE_FS)
                (lookupShaders (K.SQ_PGM_START_FS_PGM_START (getRegister s K.SQ_PGM_START_FS))
                  (K.SQ_PGM_START_VS_PGM_START (getRegister s K.SQ_PGM_START_VS))
                  (K.SQ_PGM_START_PS_PGM_START (getRegister s K.SQ_PGM_START_PS))
                  { fetch := K.SQ_PGM_START_FS_PGM_START (getRegister s K.SQ_PGM_START_FS),
                    vertex := K.SQ_PGM_START_VS_PGM_START (getRegister s K.SQ_PGM_START_VS),
                    pixel := K.SQ_PGM_START_PS_PGM_START (getRegister s K.SQ_PGM_START_PS) }
                  s)).2).2
              (K.SQ_PGM_START_PS_PGM_START (getRegister s K.SQ_PGM_START_PS))).object ≠ 0 := by
            unfold pixelShaderAt
            rw [checkVertexShader_pixel, checkFetchShader_pixel]
            exact (congrArg PixelShader.object (lookupShaders_pixel _ _ _ _ s _)).trans_ne h
          rw [checkPixelShader_built K _ _ _ _ hp, andCheck_snd]
          simp only [if_true]
          rw [bindLink_created, checkVertexShader_created, checkFetchShader_gl]
          rfl
        · rw [checkVertexShader_created, checkFetchShader_gl]
          rfl
      · rw [checkFetchShader_gl]
        rfl
    · simp [createdPrograms, bindShader, lookupShaders, Host.call, List.filter_append]

/-! ## Claims about the shader stages -/

/-- C23: the building block of a stage that is built (a parsed fetch shader, a vertex or
pixel shader with a host program) returns at once, without parsing, compiling or host call;
`checkActiveShader`, whatever three addresses the registers select, leaves the cache entry of
every built stage as it is and, when the selected vertex (pixel) stage is built, creates no
vertex (fragment) program; and so does every run of a command buffer, whatever words follow
the buffer, leave built stages as they are, so that this holds for every later check too. -/
theorem stage_built_once (K : Env) (s : GLDriver) :
    (∀ fs a b, (fetchShaderAt s fs).parsed = true → checkFetchShader K fs a b s = (true, s))
    ∧ (∀ fs vs a b, (vertexShaderAt s vs).object ≠ 0 →
        checkVertexShader K fs vs a b s = (true, s))
    ∧ (∀ ps a b, (pixelShaderAt s ps).object ≠ 0 → checkPixelShader K ps a b s = (true, s))
    ∧ StagesKept s (checkActiveShader K s).2
    ∧ ((vertexShaderAt s
          (K.SQ_PGM_START_VS_PGM_START (getRegister s K.SQ_PGM_START_VS))).object ≠ 0 →
        createdPrograms .GL_VERTEX_SHADER (checkActiveShader K s).2.gl
          = createdPrograms .GL_VERTEX_SHADER s.gl)
    ∧ ((pixelShaderAt s
          (K.SQ_PGM_START_PS_PGM_START (getRegister s K.SQ_PGM_START_PS))).object ≠ 0 →
        createdPrograms .GL_FRAGMENT_SHADER (checkActiveShader K s).2.gl
          = createdPrograms .GL_FRAGMENT_SHADER s.gl)
    ∧ (∀ depth buffer beyond r, runCommandBuffer K depth buffer beyond s = some r →
        StagesKept s r.state) :=
  ⟨fun fs a b h => checkFetchShader_built K fs a b s h,
    fun fs vs a b h => checkVertexShader_built K fs vs a b s h,
    fun ps a b h => checkPixelShader_built K ps a b s h,
    checkActiveShader_stagesKept K s,
    checkActiveShader_vertex_created K s,
    checkActiveShader_pixel_created K s,
    fun depth buffer beyond r hr => runCommandBuffer_stagesKept K depth buffer beyond s r hr⟩

/-- C23 (witness): after one shader check on the start-up state the vertex stage at address
0 has host program 1; a later check with the pixel address changed to 7 keeps that entry and
creates no vertex program. -/
theorem stage_built_once_witness :
    vertexShaderAt (checkActiveShader refEnv nextPixelDriver).2 0
        = vertexShaderAt nextPixelDriver 0
    ∧ createdPrograms .GL_VERTEX_SHADER (checkActiveShader refEnv nextPixelDriver).2.gl
        = createdPrograms .GL_VERTEX_SHADER nextPixelDriver.gl :=
  have h := stage_built_once refEnv nextPixelDriver
  ⟨h.2.2.2.1.2.1 0 (by decide), h.2.2.2.2.1 (by decide)⟩

/-- C24 (the code at the failing input): with a host that reports an info log for the vertex
program (program 1), the first shader check on the start-up state returns false and leaves
handle 1 in the vertex stage at address 0; the second check, with the same registers, skips
the vertex block, links program 1 into pipeline 1, binds it and returns true, and the draw
check accepts the draw.  With a translator that fails instead, the second check returns false
as the first did. -/
theorem failed_stage_linked :
    (checkActiveShader logEnv freshDriver).1 = false
    ∧ (checkActiveShader logEnv freshDriver).2.gl.calls
        = [.glCreateShaderProgramv .GL_VERTEX_SHADER "void main() \x7b \x7d" 1,
           .glGetProgramiv 1 .GL_INFO_LOG_LENGTH,
           .glGetProgramInfoLog 1]
    ∧ (vertexShaderAt (checkActiveShader logEnv freshDriver).2 0).object = 1
    ∧ (checkActiveShader logEnv (checkActiveShader logEnv freshDriver).2).1 = true
    ∧ (checkActiveShader logEnv (checkActiveShader logEnv freshDriver).2).2.gl.calls
        = (checkActiveShader logEnv freshDriver).2.gl.calls ++
          [.glCreateShaderProgramv .GL_FRAGMENT_SHADER "void main() \x7b \x7d" 4,
           .glGetProgramiv 4 .GL_INFO_LOG_LENGTH,
           .glGetProgramInfoLog 4,
           .glGetUniformLocation 4 "VC",
           .glGenProgramPipelines 1 1,
           .glUseProgramStages 1 .GL_VERTEX_SHADER_BIT 1,
           .glUseProgramStages 1 .GL_FRAGMENT_SHADER_BIT 4,
           .glBindProgramPipeline 1]
    ∧ (checkReadyDraw logEnv (checkActiveShader logEnv freshDriver).2).1 = true
    ∧ (checkActiveShader translateFailEnv freshDriver).1 = false
    ∧ (checkActiveShader translateFailEnv
        (checkActiveShader translateFailEnv freshDriver).2).1 = false := by
  set_option maxRecDepth 100000 in decide

/-! ## Recorded bindings and the host framebuffer -/

theorem framebufferState_call (h : Host) (c : GLCall) :
    framebufferState (h.call c) = hostStep (framebufferState h) c := by
  simp [framebufferState, Host.call, List.foldl_append]

theorem framebufferState_glGenTextures (h : Host) :
    framebufferState h.glGenTextures.2 = framebufferState h := by
  simp [framebufferState, Host.glGenTextures, List.foldl_append, hostStep]

theorem Mirror_iff (s : GLDriver) :
    Mirror s ↔ ((framebufferState s.gl).bound = s.mFrameBuffer_object
      ∧ (∀ i p, s.mActiveColorBuffers i = some p →
          (colorBufferAt s p).object ≠ 0 ∧ colorAttachment s i = (colorBufferAt s p).object)
      ∧ (∀ i, s.mActiveColorBuffers i = none → colorAttachment s i = 0)) := by
  unfold Mirror
  constructor
  · rintro ⟨hb, h⟩
    refine ⟨hb, ?_, ?_⟩
    · intro i p hp
      have := h i
      rw [hp] at this
      exact this
    · intro i hn
      have := h i
      rw [hn] at this
      exact this
  · rintro ⟨hb, h1, h2⟩
    refine ⟨hb, ?_⟩
    intro i
    cases hp : s.mActiveColorBuffers i with
    | none => exact h2 i hp
    | some p => exact h1 i p hp

/-- A step that leaves the framebuffer state, the driver's framebuffer and the slots alone,
and keeps the image of every entry that has one, keeps the mirror. -/
theorem mirror_frame {s s' : GLDriver} (h : Mirror s)
    (hfs : framebufferState s'.gl = framebufferState s.gl)
    (hfb : s'.mFrameBuffer_object = s.mFrameBuffer_object)
    (hact : s'.mActiveColorBuffers = s.mActiveColorBuffers)
    (hobj : ∀ p, (colorBufferAt s p).object ≠ 0 →
      (colorBufferAt s' p).object = (colorBufferAt s p).object) : Mirror s' := by
  rw [Mirror_iff] at h ⊢
  obtain ⟨hb, h1, h2⟩ := h
  refine ⟨by rw [hfs, hfb]; exact hb, ?_, ?_⟩
  · intro i p hp
    rw [hact] at hp
    obtain ⟨hne, hatt⟩ := h1 i p hp
    rw [hobj p hne]
    refine ⟨hne, ?_⟩
    unfold colorAttachment at hatt ⊢
    rw [hfs, hfb]
    exact hatt
  · intro i hn
    rw [hact] at hn
    have := h2 i hn
    unfold colorAttachment at this ⊢
    rw [hfs, hfb]
    exact this

theorem getColorBuffer_framebufferState (K : Env) (b sz info : Nat) (s : GLDriver) :
    framebufferState (getColorBuffer K b sz info s).2.gl = framebufferState s.gl := by
  unfold getColorBuffer
  simp only
  split
  · simp [framebufferState_call, framebufferState_glGenTextures, hostStep]
  · rfl

theorem getColorBuffer_frameBuffer (K : Env) (b sz info : Nat) (s : GLDriver) :
    (getColorBuffer K b sz info s).2.mFrameBuffer_object = s.mFrameBuffer_object := by
  unfold getColorBuffer
  simp only
  split <;> rfl

theorem getColorBuffer_slots (K : Env) (b sz info : Nat) (s : GLDriver) :
    (getColorBuffer K b sz info s).2.mActiveColorBuffers = s.mActiveColorBuffers := by
  unfold getColorBuffer
  simp only
  split <;> rfl

theorem getColorBuffer_object (K : Env) (b sz info : Nat) (s : GLDriver) (p : Nat)
    (hp : (colorBufferAt s p).object ≠ 0) :
    (colorBufferAt (getColorBuffer K b sz info s).2 p).object = (colorBufferAt s p).object := by
  unfold getColorBuffer
  simp only
  split
  · next h0 =>
    have hne : p ≠ K.CB_COLORN_BASE_BASE_256B b := by
      intro e
      rw [e] at hp
      exact hp h0
    simp [colorBufferAt, Function.update_apply, hne]
  · by_cases e : p = K.CB_COLORN_BASE_BASE_256B b
    · simp [colorBufferAt, Function.update_apply, e]
    · simp [colorBufferAt, Function.update_apply, e]

theorem getColorBuffer_object_ne (K : Env) (b sz info : Nat) (s : GLDriver) :
    (colorBufferAt (getColorBuffer K b sz info s).2 (getColorBuffer K b sz info s).1).object
      ≠ 0 := by
  obtain ⟨e, he, _, hne⟩ := getColorBuffer_entry K b sz info s
  rw [getColorBuffer_fst]
  simp [colorBufferAt, he, hne]

theorem getColorBuffer_mirror (K : Env) (b sz info : Nat) (s : GLDriver) (h : Mirror s) :
    Mirror (getColorBuffer K b sz info s).2 :=
  mirror_frame h (getColorBuffer_framebufferState K b sz info s)
    (getColorBuffer_frameBuffer K b sz info s) (getColorBuffer_slots K b sz info s)
    (fun p hp => getColorBuffer_object K b sz info s p hp)

/-- Attaching the image of an entry to attachment `i` and recording the entry in slot `i`
keeps the mirror. -/
theorem mirror_attach {s : GLDriver} (h : Mirror s) (i p : Nat)
    (hp : (colorBufferAt s p).object ≠ 0) :
    Mirror { s with
      mActiveColorBuffers := Function.update s.mActiveColorBuffers i (some p),
      gl := s.gl.call
        (.glFramebufferTexture .GL_FRAMEBUFFER (.GL_COLOR_ATTACHMENT0_plus i)
          (colorBufferAt s p).object 0) } := by
  rw [Mirror_iff] at h ⊢
  obtain ⟨hb, h1, h2⟩ := h
  refine ⟨?_, ?_, ?_⟩
  · simp only [framebufferState_call, hostStep]
    exact hb
  · intro j q hq
    simp only [Function.update_apply] at hq
    simp only [colorAttachment, framebufferState_call, hostStep, hb, Function.update_same,
      Function.update_apply, colorBufferAt] at h1 ⊢
    split at hq
    · next e =>
      cases hq
      simp only [e, if_true]
      exact ⟨hp, trivial⟩
    · next e =>
      simp only [e, if_false]
      exact h1 j q hq
  · intro j hn
    simp only [Function.update_apply] at hn
    simp only [colorAttachment, framebufferState_call, hostStep, hb, Function.update_same,
      Function.update_apply] at h2 ⊢
    split at hn
    · cases hn
    · next e =>
      simp only [e, if_false]
      exact h2 j hn

/-- Detaching attachment `i` and clearing slot `i` keeps the mirror. -/
theorem mirror_detach {s : GLDriver} (h : Mirror s) (i : Nat) :
    Mirror { s with
      gl := s.gl.call
        (.glFramebufferTexture .GL_FRAMEBUFFER (.GL_COLOR_ATTACHMENT0_plus i) 0 0),
      mActiveColorBuffers := Function.update s.mActiveColorBuffers i none } := by
  rw [Mirror_iff] at h ⊢
  obtain ⟨hb, h1, h2⟩ := h
  refine ⟨?_, ?_, ?_⟩
  · simp only [framebufferState_call, hostStep]
    exact hb
  · intro j q hq
    simp only [Function.update_apply] at hq
    simp only [colorAttachment, framebufferState_call, hostStep, hb, Function.update_same,
      Function.update_apply, colorBufferAt] at h1 ⊢
    split at hq
    · cases hq
    · next e =>
      simp only [e, if_false]
      exact h1 j q hq
  · intro j hn
    simp only [Function.update_apply] at hn
    simp only [colorAttachment, framebufferState_call, hostStep, hb, Function.update_same,
      Function.update_apply] at h2 ⊢
    split at hn
    · next e => simp only [e, if_true]
    · next e =>
      simp only [e, if_false]
      exact h2 j hn

theorem checkActiveColorBufferSlot_mirror (K : Env) (i : Nat) (s : GLDriver) (h : Mirror s) :
    Mirror (checkActiveColorBufferSlot K i s) := by
  unfold checkActiveColorBufferSlot
  simp only
  split_ifs
  · exact mirror_detach h i
  · exact h
  · exact h
  · have h1 := getColorBuffer_mirror K (getRegister s (K.CB_COLOR0_BASE + i * 4))
      (getRegister s (K.CB_COLOR0_SIZE + i * 4)) (getRegister s (K.CB_COLOR0_INFO + i * 4)) s h
    exact mirror_attach h1 i _ (getColorBuffer_object_ne K _ _ _ s)

/-- The colour binding check keeps the mirror. -/
theorem checkActiveColorBuffer_mirror (K : Env) (s : GLDriver) (h : Mirror s) :
    Mirror (checkActiveColorBuffer K s).2 := by
  unfold checkActiveColorBuffer
  simp only
  generalize List.range 8 = l
  induction l generalizing s with
  | nil => exact h
  | cons i l ih =>
    rw [List.foldl_cons]
    exact ih _ (checkActiveColorBufferSlot_mirror K i s h)

theorem decafClearColor_mirror (K : Env) (data : pm4.DecafClearColor) (s : GLDriver)
    (h : Mirror s) : Mirror (decafClearColor K data s) := by
  unfold decafClearColor
  simp only
  split
  · exact mirror_frame h (by simp [framebufferState_call, hostStep]) rfl rfl (fun _ _ => rfl)
  · have h1 := getColorBuffer_mirror K data.bufferAddr data.cb_color_size data.cb_color_info s h
    generalize (getColorBuffer K data.bufferAddr data.cb_color_size data.cb_color_info s).2 = s1
      at h1
    generalize (getColorBuffer K data.bufferAddr data.cb_color_size data.cb_color_info s).1 = p
    rw [Mirror_iff] at h1 ⊢
    obtain ⟨hb, g1, g2⟩ := h1
    refine ⟨?_, ?_, ?_⟩
    · simp only [framebufferState_call, hostStep]
      exact hb
    · intro j q hq
      simp only [Function.update_apply] at hq
      simp only [colorAttachment, framebufferState_call, hostStep, hb, Function.update_same,
        Function.update_apply, colorBufferAt] at g1 ⊢
      split at hq
      · cases hq
      · next e =>
        simp only [e, if_false]
        exact g1 j q hq
    · intro j hn
      simp only [Function.update_apply] at hn
      simp only [colorAttachment, framebufferState_call, hostStep, hb, Function.update_same,
        Function.update_apply] at g2 ⊢
      split at hn
      · next e => simp only [e, if_true]
      · next e =>
        simp only [e, if_false]
        exact g2 j hn

theorem decafCopyColorToScan_mirror (K : Env) (data : pm4.DecafCopyColorToScan) (s : GLDriver)
    (h : Mirror s) : Mirror (decafCopyColorToScan K data s) := by
  have h1 := getColorBuffer_mirror K data.bufferAddr data.cb_color_size data.cb_color_info s h
  unfold decafCopyColorToScan
  simp only
  generalize (getColorBuffer K data.bufferAddr data.cb_color_size data.cb_color_info s).2 = s1
    at h1
  rw [Mirror_iff] at h1 ⊢
  obtain ⟨hb, g1, g2⟩ := h1
  refine ⟨?_, ?_, ?_⟩
  · simp only [framebufferState_call, hostStep]
  · intro j q hq
    simp only [colorAttachment, framebufferState_call, hostStep, colorBufferAt] at g1 ⊢
    exact g1 j q hq
  · intro j hn
    simp only [colorAttachment, framebufferState_call, hostStep] at g2 ⊢
    exact g2 j hn

/-- After `initGL` on a host that has seen no call, the driver's framebuffer is bound, no
slot records a binding and no attachment holds a texture. -/
theorem initGL_mirror (K : Env) (s0 : GLDriver) (h0 : s0.gl.calls = []) :
    Mirror (initGL K s0) := by
  rw [Mirror_iff]
  refine ⟨?_, ?_, ?_⟩
  · simp [initGL, framebufferState, Host.call, Host.glGenFramebuffers,
      Host.glGenProgramPipelines, Host.glGenBuffers, Host.glGenVertexArrays, h0, hostStep]
  · intro i p hp
    simp [initGL] at hp
  · intro i _
    simp [initGL, colorAttachment, framebufferState, Host.call, Host.glGenFramebuffers,
      Host.glGenProgramPipelines, Host.glGenBuffers, Host.glGenVertexArrays, h0, hostStep]

/-- Every state reached from `initGL` mirrors the host. -/
theorem reachable_mirror {K : Env} {s : GLDriver} (h : Reachable K s) : Mirror s := by
  induction h with
  | init s0 h0 => exact initGL_mirror K s0 h0
  | setRegister reg value s _ ih => exact mirror_frame ih rfl rfl rfl (fun _ _ => rfl)
  | checkActiveColorBuffer s _ ih => exact checkActiveColorBuffer_mirror K s ih
  | decafClearColor data s _ ih => exact decafClearColor_mirror K data s ih
  | decafCopyColorToScan data s _ ih => exact decafCopyColorToScan_mirror K data s ih

/-- The host calls of a colour clear of a buffer that no slot records: those of
`getColorBuffer`, then the attachment of the buffer's image to attachment 0, the clear of
draw buffer 0 and the detachment. -/
theorem decafClearColor_unbound (K : Env) (data : pm4.DecafClearColor) (s : GLDriver)
    (hnone : findActiveColorBuffer K data s 8 = none) :
    (decafClearColor K data s).gl.calls
        = (getColorBuffer K data.bufferAddr data.cb_color_size data.cb_color_info s).2.gl.calls
          ++ [ .glFramebufferTexture .GL_FRAMEBUFFER (.GL_COLOR_ATTACHMENT0_plus 0)
                (colorBufferAt
                  (getColorBuffer K data.bufferAddr data.cb_color_size data.cb_color_info s).2
                  (K.CB_COLORN_BASE_BASE_256B data.bufferAddr)).object 0,
               .glClearBufferfv .GL_COLOR 0 [data.red, data.green, data.blue, data.alpha],
               .glFramebufferTexture .GL_FRAMEBUFFER (.GL_COLOR_ATTACHMENT0_plus 0) 0 0 ]
      ∧ (decafClearColor K data s).mActiveColorBuffers 0 = none := by
  unfold decafClearColor
  simp only [hnone, getColorBuffer_fst, Host.call, List.append_assoc, List.cons_append,
    List.nil_append, Function.update_same, and_self]

/-- C28: with the host's framebuffers modelled as state (the framebuffer bound, and the
texture on each colour attachment), in every state reached from `initGL` on a fresh host
through register writes, `checkActiveColorBuffer`, `decafClearColor` and
`decafCopyColorToScan`: the driver's framebuffer is the bound one; a slot that records a cache
entry has that entry's image on its attachment, and the image exists; a slot that records
nothing has an empty attachment.  In particular a `decafClearColor` of a buffer that its first
loop finds in no slot attaches the buffer's image to attachment 0, clears draw buffer 0,
detaches, and leaves slot 0 recording nothing with attachment 0 empty. -/
theorem bindings_mirror_host (K : Env) (s : GLDriver) (h : Reachable K s) :
    (framebufferState s.gl).bound = s.mFrameBuffer_object
    ∧ (∀ i p, s.mActiveColorBuffers i = some p →
        (colorBufferAt s p).object ≠ 0 ∧ colorAttachment s i = (colorBufferAt s p).object)
    ∧ (∀ i, s.mActiveColorBuffers i = none → colorAttachment s i = 0)
    ∧ (∀ data, findActiveColorBuffer K data s 8 = none →
        (colorBufferAt
          (getColorBuffer K data.bufferAddr data.cb_color_size data.cb_color_info s).2
          (K.CB_COLORN_BASE_BASE_256B data.bufferAddr)).object ≠ 0
        ∧ (decafClearColor K data s).gl.calls
          = (getColorBuffer K data.bufferAddr data.cb_color_size
              data.cb_color_info s).2.gl.calls
            ++ [ .glFramebufferTexture .GL_FRAMEBUFFER (.GL_COLOR_ATTACHMENT0_plus 0)
                  (colorBufferAt
                    (getColorBuffer K data.bufferAddr data.cb_color_size
                      data.cb_color_info s).2
                    (K.CB_COLORN_BASE_BASE_256B data.bufferAddr)).object 0,
                 .glClearBufferfv .GL_COLOR 0 [data.red, data.green, data.blue, data.alpha],
                 .glFramebufferTexture .GL_FRAMEBUFFER (.GL_COLOR_ATTACHMENT0_plus 0) 0 0 ]
        ∧ (decafClearColor K data s).mActiveColorBuffers 0 = none
        ∧ colorAttachment (decafClearColor K data s) 0 = 0) := by
  have hm := (Mirror_iff s).1 (reachable_mirror h)
  refine ⟨hm.1, hm.2.1, hm.2.2, ?_⟩
  intro data hnone
  have hu := decafClearColor_unbound K data s hnone
  have hne := getColorBuffer_object_ne K data.bufferAddr data.cb_color_size
    data.cb_color_info s
  rw [getColorBuffer_fst] at hne
  have hm' := (Mirror_iff _).1 (reachable_mirror (Reachable.decafClearColor data s h))
  exact ⟨hne, hu.1, hu.2, hm'.2.2 0 hu.2⟩

/-- C28 (witness): right after `initGL`, a clear of the colour surface at `0x200` leaves slot
0 recording nothing and attachment 0 of the driver's framebuffer empty. -/
theorem bindings_mirror_host_witness :
    (decafClearColor refEnv clearExample (initGL refEnv newDriver)).mActiveColorBuffers 0 = none
    ∧ colorAttachment (decafClearColor refEnv clearExample (initGL refEnv newDriver)) 0 = 0 :=
  have h := (bindings_mirror_host refEnv (initGL refEnv newDriver)
    (Reachable.init newDriver rfl)).2.2.2 clearExample (by decide)
  ⟨h.2.2.1, h.2.2.2⟩

end gpu.opengl

namespace glsl2
open gpu.opengl (Outcome)

/-! ## Export translation: theorems -/

theorem validCondensed_cases {sel : SQ_SEL} (h : validCondensed sel = true) :
    sel = .SEL_X ∨ sel = .SEL_Y ∨ sel = .SEL_Z ∨ sel = .SEL_W ∨ sel = .SEL_0 ∨ sel = .SEL_1 := by
  simpa [validCondensed, or_assoc] using h

theorem insertSelectValue_valid (out src : String) {sel : SQ_SEL}
    (h : validCondensed sel = true) :
    insertSelectValue out src sel = .ok (out ++ scalarText src sel) := by
  rcases validCondensed_cases h with rfl | rfl | rfl | rfl | rfl | rfl <;>
    simp [insertSelectValue, scalarText, String.append_assoc]

theorem insertSwizzleLetter_eq (out : String) (sel : SQ_SEL) :
    insertSwizzleLetter out sel = out ++ swizzleLetter sel := by
  cases sel <;> simp [insertSwizzleLetter, swizzleLetter]

theorem notComponent_eq (sel : SQ_SEL) : notComponent sel = !plainComponent sel := by
  cases sel <;> simp [notComponent, plainComponent]

/-- What `condenseSelections` computes from four selectors. -/
theorem condenseSelections_unmasked (selX selY selZ selW : SQ_SEL) :
    (condenseSelections selX selY selZ selW 4).value = unmaskedLetters selX selY selZ selW
    ∧ (condenseSelections selX selY selZ selW 4).numSels
        = (unmasked [selX, selY, selZ, selW]).length
    ∧ [(condenseSelections selX selY selZ selW 4).selX,
        (condenseSelections selX selY selZ selW 4).selY,
        (condenseSelections selX selY selZ selW 4).selZ,
        (condenseSelections selX selY selZ selW 4).selW].take
          (condenseSelections selX selY selZ selW 4).numSels
        = unmasked [selX, selY, selZ, selW] := by
  have r : List.range 4 = [0, 1, 2, 3] := by decide
  by_cases hx : selX = .SEL_MASK <;> by_cases hy : selY = .SEL_MASK <;>
  by_cases hz : selZ = .SEL_MASK <;> by_cases hw : selW = .SEL_MASK <;>
  simp [condenseSelections, condenseStep, pushLetter, unmaskedLetters, unmasked, r, hx, hy, hz,
    hw, String.push]

/-- What `insertSelectVector` appends for a valid condensed selector list. -/
theorem insertSelectVector_render (out src : String) (selX selY selZ selW : SQ_SEL)
    (numSels : Nat) (h1 : 1 ≤ numSels) (h4 : numSels ≤ 4)
    (hv : ∀ sel ∈ [selX, selY, selZ, selW].take numSels, validCondensed sel = true) :
    insertSelectVector out src selX selY selZ selW numSels
      = .ok (out ++ renderSelections src ([selX, selY, selZ, selW].take numSels)) := by
  have r2 : List.range 2 = [0, 1] := by decide
  have r3 : List.range 3 = [0, 1, 2] := by decide
  have r4 : List.range 4 = [0, 1, 2, 3] := by decide
  have t2 : toString (2 : Nat) = "2" := by decide
  have t3 : toString (3 : Nat) = "3" := by decide
  have t4 : toString (4 : Nat) = "4" := by decide
  interval_cases numSels
  · have hx : validCondensed selX = true := hv selX (by simp)
    simp [insertSelectVector, renderSelections, insertSelectValue_valid, hx]
  · have hx : validCondensed selX = true := hv selX (by simp)
    have hy : validCondensed selY = true := hv selY (by simp)
    cases px : plainComponent selX <;> cases py : plainComponent selY <;>
    simp [insertSelectVector, renderSelections, r2, t2, notComponent_eq, insertSwizzleLetter_eq,
      insertSelectValue_valid, hx, hy, px, py, andThen, String.join, String.intercalate,
      String.intercalate.go, String.append_assoc]
  · have hx : validCondensed selX = true := hv selX (by simp)
    have hy : validCondensed selY = true := hv selY (by simp)
    have hz : validCondensed selZ = true := hv selZ (by simp)
    cases px : plainComponent selX <;> cases py : plainComponent selY <;>
    cases pz : plainComponent selZ <;>
    simp [insertSelectVector, renderSelections, r3, t3, notComponent_eq, insertSwizzleLetter_eq,
      insertSelectValue_valid, hx, hy, hz, px, py, pz, andThen, String.join, String.intercalate,
      String.intercalate.go, String.append_assoc]
  · have hx : validCondensed selX = true := hv selX (by simp)
    have hy : validCondensed selY = true := hv selY (by simp)
    have hz : validCondensed selZ = true := hv selZ (by simp)
    have hw : validCondensed selW = true := hv selW (by simp)
    cases px : plainComponent selX <;> cases py : plainComponent selY <;>
    cases pz : plainComponent selZ <;> cases pw : plainComponent selW <;>
    simp [insertSelectVector, renderSelections, r4, t4, notComponent_eq, insertSwizzleLetter_eq,
      insertSelectValue_valid, hx, hy, hz, hw, px, py, pz, pw, andThen, String.join,
      String.intercalate, String.intercalate.go, String.append_assoc]

/-- C2: with `numSels = 4`, `condenseSelections` returns the letters of the unmasked
positions in x, y, z, w order, sets `numSels` to the number of unmasked selectors, and leaves
the unmasked selectors, in their original order, in the first `numSels` selector slots. -/
theorem condenseSelections_spec (selX selY selZ selW : SQ_SEL) :
    (condenseSelections selX selY selZ selW 4).value = unmaskedLetters selX selY selZ selW
    ∧ (condenseSelections selX selY selZ selW 4).numSels
        = (unmasked [selX, selY, selZ, selW]).length
    ∧ [(condenseSelections selX selY selZ selW 4).selX,
        (condenseSelections selX selY selZ selW 4).selY,
        (condenseSelections selX selY selZ selW 4).selZ,
        (condenseSelections selX selY selZ selW 4).selW].take
          (condenseSelections selX selY selZ selW 4).numSels
        = unmasked [selX, selY, selZ, selW] :=
  condenseSelections_unmasked selX selY selZ selW

/-- C3: for a condensed selector list of length `numSels` between 1 and 4 whose entries are
components or constants, `insertSelectVector` appends the scalar access or constant when
there is one selection, the swizzle when there are several and all are components, and
otherwise the constructor listing the scalar renderings separated by a comma and a blank. -/
theorem insertSelectVector_renders (out src : String) (selX selY selZ selW : SQ_SEL)
    (numSels : Nat) (h1 : 1 ≤ numSels) (h4 : numSels ≤ 4)
    (hv : ∀ sel ∈ [selX, selY, selZ, selW].take numSels, validCondensed sel = true) :
    insertSelectVector out src selX selY selZ selW numSels
      = .ok (out ++ renderSelections src ([selX, selY, selZ, selW].take numSels)) :=
  insertSelectVector_render out src selX selY selZ selW numSels h1 h4 hv

/-- C3 (witness): the condensed selections (0, 1, Y) of source `src` are rendered as the
constructor `vec3(0, 1, src.y)`. -/
theorem insertSelectVector_renders_witness :
    insertSelectVector "" "src" .SEL_0 .SEL_1 .SEL_Y .SEL_MASK 3 = .ok "vec3(0, 1, src.y)" :=
  (insertSelectVector_renders "" "src" .SEL_0 .SEL_1 .SEL_Y .SEL_MASK 3 (by decide) (by decide)
    (by decide)).trans (by decide)

theorem condensed_valid (selX selY selZ selW : SQ_SEL)
    (hv : ∀ sel ∈ [selX, selY, selZ, selW], validSelector sel = true)
    (hm : ¬ (selX = .SEL_MASK ∧ selY = .SEL_MASK ∧ selZ = .SEL_MASK ∧ selW = .SEL_MASK)) :
    1 ≤ (unmasked [selX, selY, selZ, selW]).length
    ∧ (unmasked [selX, selY, selZ, selW]).length ≤ 4
    ∧ ∀ sel ∈ unmasked [selX, selY, selZ, selW], validCondensed sel = true := by
  refine ⟨?_, ?_, ?_⟩
  · by_cases hx : selX = .SEL_MASK <;> by_cases hy : selY = .SEL_MASK <;>
    by_cases hz : selZ = .SEL_MASK <;> by_cases hw : selW = .SEL_MASK <;>
    simp_all [unmasked]
  · exact le_trans (List.length_filter_le _ _) (by simp)
  · intro sel hsel
    have h := List.mem_filter.1 hsel
    have hval := hv sel h.1
    have hne : sel ≠ .SEL_MASK := by simpa using h.2
    simpa [validSelector, hne] using hval

theorem State.write_write (state : State) (a b : String) :
    (state.write a).write b = state.write (a ++ b) := by
  simp [State.write, String.append_assoc]

theorem expIteration_eq (T : Translator) (cf : ControlFlowInst) (i : Nat) (state : State)
    (ht : cf.exp.word0.TYPE = .POS ∨ cf.exp.word0.TYPE = .PARAM ∨ cf.exp.word0.TYPE = .PIXEL)
    (hv : ∀ sel ∈ [cf.exp.swiz.SRC_SEL_X, cf.exp.swiz.SRC_SEL_Y, cf.exp.swiz.SRC_SEL_Z,
      cf.exp.swiz.SRC_SEL_W], validSelector sel = true)
    (hm : ¬ (cf.exp.swiz.SRC_SEL_X = .SEL_MASK ∧ cf.exp.swiz.SRC_SEL_Y = .SEL_MASK
      ∧ cf.exp.swiz.SRC_SEL_Z = .SEL_MASK ∧ cf.exp.swiz.SRC_SEL_W = .SEL_MASK)) :
    expIteration T cf
        (condenseSelections cf.exp.swiz.SRC_SEL_X cf.exp.swiz.SRC_SEL_Y cf.exp.swiz.SRC_SEL_Z
          cf.exp.swiz.SRC_SEL_W 4) i state
      = .ok (emitAssignment T cf state i) := by
  obtain ⟨hval, hnum, htake⟩ := condenseSelections_unmasked cf.exp.swiz.SRC_SEL_X
    cf.exp.swiz.SRC_SEL_Y cf.exp.swiz.SRC_SEL_Z cf.exp.swiz.SRC_SEL_W
  obtain ⟨h1, h4, hvalid⟩ := condensed_valid _ _ _ _ hv hm
  have hr := fun out src => insertSelectVector_render out src _ _ _ _ _
    (hnum ▸ h1) (hnum ▸ h4) (htake ▸ hvalid)
  rw [htake] at hr
  unfold expIteration emitAssignment exportAssignment
  rcases ht with ht | ht | ht <;>
    simp only [ht, andThen, State.writeWith, hr, hval, exportTarget] <;>
    simp [State.write, String.append_assoc]

theorem expLoop_eq (T : Translator) (cf : ControlFlowInst) (c : Condensed)
    (emit : State → Nat → State)
    (h : ∀ i state, expIteration T cf c i state = .ok (emit state i)) :
    ∀ (n i : Nat) (state : State),
      expLoop T cf c n i state = .ok ((List.range' i n).foldl emit state) := by
  intro n
  induction n with
  | zero => intro i state; rfl
  | succ n ih =>
    intro i state
    rw [expLoop, h, andThen, ih]
    rfl

/-- C4 (as amended): an export of a supported type with valid selectors that are not all
masked translates without error into `BURST_COUNT + 1` assignments, emitted in order for
`i = 0, .., BURST_COUNT`; the `i`-th registers and targets output index `ARRAY_BASE + i` and
reads register `RW_GPR + i`. -/
theorem EXP_burst (T : Translator) (state : State) (cf : ControlFlowInst)
    (ht : cf.exp.word0.TYPE = .POS ∨ cf.exp.word0.TYPE = .PARAM ∨ cf.exp.word0.TYPE = .PIXEL)
    (hv : ∀ sel ∈ [cf.exp.swiz.SRC_SEL_X, cf.exp.swiz.SRC_SEL_Y, cf.exp.swiz.SRC_SEL_Z,
      cf.exp.swiz.SRC_SEL_W], validSelector sel = true)
    (hm : ¬ (cf.exp.swiz.SRC_SEL_X = .SEL_MASK ∧ cf.exp.swiz.SRC_SEL_Y = .SEL_MASK
      ∧ cf.exp.swiz.SRC_SEL_Z = .SEL_MASK ∧ cf.exp.swiz.SRC_SEL_W = .SEL_MASK)) :
    EXP T state cf
      = .ok ((List.range (cf.exp.word1.BURST_COUNT + 1)).foldl (emitAssignment T cf) state) := by
  unfold EXP
  simp only [if_neg hm]
  rw [expLoop_eq T cf _ (emitAssignment T cf) (fun i st => expIteration_eq T cf i st ht hv hm),
    List.range_eq_range']

/-- C4 (witness): the export `burstExample`, with `BURST_COUNT = 2`, to parameter 1 from
register 5 emits the three assignments to parameters 1, 2, 3 from registers 5, 6, 7. -/
theorem EXP_burst_witness :
    (EXP refTranslator emptyState burstExample).state.out
      = "exp_param_1.x = R[5].x;\nexp_param_2.x = R[6].x;\nexp_param_3.x = R[7].x;\n" := by
  rw [EXP_burst refTranslator emptyState burstExample (by decide) (by decide) (by decide)]
  decide

/-- C4 (counterexample): with `BURST_COUNT = 2` the translation emits three assignments and
three descriptors (parameters 1, 2, 3 from registers 5, 6, 7), not two. -/
theorem EXP_burst_counterexample :
    (EXP refTranslator emptyState burstExample).state.out
        = "exp_param_1.x = R[5].x;\nexp_param_2.x = R[6].x;\nexp_param_3.x = R[7].x;\n"
      ∧ (EXP refTranslator emptyState burstExample).state.shader.map (fun sh => sh.exports)
        = some [{ type := .PARAM, id := 1 }, { type := .PARAM, id := 2 },
            { type := .PARAM, id := 3 }]
      ∧ burstExample.exp.word1.BURST_COUNT = 2 := by
  decide

open gpu.opengl (Outcome)

/-! ## Export translation: errors and bookkeeping -/

theorem insertSelectVector_bits (out src : String) (b0 b1 b2 b3 : Bool) :
    insertSelectVector out src
      (condenseSelections (if b0 then .SEL_X else .SEL_MASK) (if b1 then .SEL_Y else .SEL_MASK)
        (if b2 then .SEL_Z else .SEL_MASK) (if b3 then .SEL_W else .SEL_MASK) 4).selX
      (condenseSelections (if b0 then .SEL_X else .SEL_MASK) (if b1 then .SEL_Y else .SEL_MASK)
        (if b2 then .SEL_Z else .SEL_MASK) (if b3 then .SEL_W else .SEL_MASK) 4).selY
      (condenseSelections (if b0 then .SEL_X else .SEL_MASK) (if b1 then .SEL_Y else .SEL_MASK)
        (if b2 then .SEL_Z else .SEL_MASK) (if b3 then .SEL_W else .SEL_MASK) 4).selZ
      (condenseSelections (if b0 then .SEL_X else .SEL_MASK) (if b1 then .SEL_Y else .SEL_MASK)
        (if b2 then .SEL_Z else .SEL_MASK) (if b3 then .SEL_W else .SEL_MASK) 4).selW
      (condenseSelections (if b0 then .SEL_X else .SEL_MASK) (if b1 then .SEL_Y else .SEL_MASK)
        (if b2 then .SEL_Z else .SEL_MASK) (if b3 then .SEL_W else .SEL_MASK) 4).numSels
      = .ok (out ++ src ++ "." ++ ((if b0 then "x" else "") ++ (if b1 then "y" else "")
          ++ (if b2 then "z" else "") ++ (if b3 then "w" else ""))) := by
  have r0 : List.range 0 = [] := by decide
  have r2 : List.range 2 = [0, 1] := by decide
  have r3 : List.range 3 = [0, 1, 2] := by decide
  have r4 : List.range 4 = [0, 1, 2, 3] := by decide
  cases b0 <;> cases b1 <;> cases b2 <;> cases b3 <;>
    simp [condenseSelections, condenseStep, pushLetter, insertSelectVector, insertSelectValue,
      notComponent, insertSwizzleLetter, r0, r2, r3, r4, String.append_assoc]

theorem insertMaskVector_eq (out src : String) (mask : Nat) :
    insertMaskVector out src mask = .ok (out ++ src ++ "." ++ maskLetters mask) := by
  have h := insertSelectVector_bits out src (decide (mask &&& (1 <<< 0) ≠ 0))
    (decide (mask &&& (1 <<< 1) ≠ 0)) (decide (mask &&& (1 <<< 2) ≠ 0))
    (decide (mask &&& (1 <<< 3) ≠ 0))
  simp only [decide_eq_true_eq] at h
  exact h

theorem insertSelectValue_eq (out src : String) (sel : SQ_SEL) :
    insertSelectValue out src sel
      = if validCondensed sel then .ok (out ++ scalarText src sel)
        else .thrown (selectError sel) out := by
  cases sel <;> simp [insertSelectValue, validCondensed, scalarText, selectError,
    String.append_assoc]

theorem selector_class (sel : SQ_SEL) :
    (plainComponent sel = true ∧ validCondensed sel = true)
    ∨ (plainComponent sel = false ∧ validCondensed sel = true)
    ∨ (plainComponent sel = false ∧ validCondensed sel = false) := by
  cases sel <;> simp [plainComponent, validCondensed]

/-- A condensed selector list with an entry that is no component and no constant makes
`insertSelectVector` throw. -/
theorem insertSelectVector_invalid (out src : String) (selX selY selZ selW : SQ_SEL)
    (numSels : Nat) (h1 : 1 ≤ numSels) (h4 : numSels ≤ 4)
    (hbad : ∃ sel ∈ [selX, selY, selZ, selW].take numSels, validCondensed sel = false) :
    ∃ msg out', insertSelectVector out src selX selY selZ selW numSels = .thrown msg out' := by
  have r2 : List.range 2 = [0, 1] := by decide
  have r3 : List.range 3 = [0, 1, 2] := by decide
  have r4 : List.range 4 = [0, 1, 2, 3] := by decide
  interval_cases numSels
  · rcases selector_class selX with ⟨px, vx⟩ | ⟨px, vx⟩ | ⟨px, vx⟩ <;>
    simp_all [insertSelectVector, insertSelectValue_eq]
  · rcases selector_class selX with ⟨px, vx⟩ | ⟨px, vx⟩ | ⟨px, vx⟩ <;>
    rcases selector_class selY with ⟨py, vy⟩ | ⟨py, vy⟩ | ⟨py, vy⟩ <;>
    simp_all [insertSelectVector, insertSelectValue_eq, r2, notComponent_eq, andThen]
  · rcases selector_class selX with ⟨px, vx⟩ | ⟨px, vx⟩ | ⟨px, vx⟩ <;>
    rcases selector_class selY with ⟨py, vy⟩ | ⟨py, vy⟩ | ⟨py, vy⟩ <;>
    rcases selector_class selZ with ⟨pz, vz⟩ | ⟨pz, vz⟩ | ⟨pz, vz⟩ <;>
    simp_all [insertSelectVector, insertSelectValue_eq, r3, notComponent_eq, andThen]
  · rcases selector_class selX with ⟨px, vx⟩ | ⟨px, vx⟩ | ⟨px, vx⟩ <;>
    rcases selector_class selY with ⟨py, vy⟩ | ⟨py, vy⟩ | ⟨py, vy⟩ <;>
    rcases selector_class selZ with ⟨pz, vz⟩ | ⟨pz, vz⟩ | ⟨pz, vz⟩ <;>
    rcases selector_class selW with ⟨pw, vw⟩ | ⟨pw, vw⟩ | ⟨pw, vw⟩ <;>
    simp_all [insertSelectVector, insertSelectValue_eq, r4, notComponent_eq, andThen]

/-- A stream write of the plain `WRITE` type and at most four components emits one line. -/
theorem MEM_STREAM_ok (T : Translator) (state : State) (cf : ControlFlowInst)
    (hw : T.memExportType cf.exp.word0.TYPE = .WRITE) (hs : cf.exp.buf.ARRAY_SIZE + 1 ≤ 4) :
    MEM_STREAM T state cf
      = .ok (T.insertLineEnd
          ((T.insertLineStart
              (registerFeedback state (cf.exp.word1.CF_INST - T.SQ_CF_INST_MEM_STREAM0)
                (cf.exp.word0.ARRAY_BASE * 4) (cf.exp.buf.ARRAY_SIZE + 1))).write
            ("feedback_" ++ toString (cf.exp.word1.CF_INST - T.SQ_CF_INST_MEM_STREAM0) ++ "_"
              ++ toString (cf.exp.word0.ARRAY_BASE * 4) ++ " = "
              ++ getExportRegister cf.exp.word0.RW_GPR cf.exp.word0.RW_REL ++ "."
              ++ maskLetters cf.exp.buf.COMP_MASK ++ ";"))) := by
  have hs' : ¬ cf.exp.buf.ARRAY_SIZE + 1 > 4 := by omega
  unfold MEM_STREAM
  simp only [hw, if_neg hs', State.writeWith, insertMaskVector_eq, andThen]
  simp [State.write, String.append_assoc]

/-- Every failure of `MEM_STREAM` happens before it writes anything. -/
theorem MEM_STREAM_thrown (T : Translator) (state : State) (cf : ControlFlowInst)
    (h : T.memExportType cf.exp.word0.TYPE ≠ .WRITE ∨ 4 < cf.exp.buf.ARRAY_SIZE + 1) :
    ∃ msg, MEM_STREAM T state cf = .thrown msg state := by
  unfold MEM_STREAM
  cases hw : T.memExportType cf.exp.word0.TYPE with
  | WRITE_IND => simp only [hw]; exact ⟨_, rfl⟩
  | other value => simp only [hw]; exact ⟨_, rfl⟩
  | WRITE =>
    have hs : cf.exp.buf.ARRAY_SIZE + 1 > 4 := by
      rcases h with h | h
      · exact absurd hw h
      · exact h
    simp only [hw, if_pos hs]
    exact ⟨_, rfl⟩

/-- C13: an export whose four source selectors are all `SEL_MASK` is a no-op, whatever its
type, array base and burst count: the translation raises no error and returns the state as
it was, so nothing is appended to the output text and no descriptor to the export table. -/
theorem EXP_fully_masked (T : Translator) (state : State) (cf : ControlFlowInst)
    (hx : cf.exp.swiz.SRC_SEL_X = .SEL_MASK) (hy : cf.exp.swiz.SRC_SEL_Y = .SEL_MASK)
    (hz : cf.exp.swiz.SRC_SEL_Z = .SEL_MASK) (hw : cf.exp.swiz.SRC_SEL_W = .SEL_MASK) :
    EXP T state cf = .ok state := by
  unfold EXP
  simp only [hx, hy, hz, hw, and_self, if_true]

/-- C13 (witness): the fully masked export `maskedExample`, of an unsupported type and with
`BURST_COUNT = 2`, leaves the empty state as it is. -/
theorem EXP_fully_masked_witness : EXP refTranslator emptyState maskedExample = .ok emptyState :=
  EXP_fully_masked refTranslator emptyState maskedExample rfl rfl rfl rfl

/-- C14: `MEM_STREAM` throws if and only if its export type is not the plain `WRITE` type or
`ARRAY_SIZE + 1` exceeds 4; and whenever it throws, the state (output text and feedback
table) is the one it was called with. -/
theorem MEM_STREAM_fails_iff (T : Translator) (state : State) (cf : ControlFlowInst) :
    ((∃ msg st, MEM_STREAM T state cf = .thrown msg st)
      ↔ (T.memExportType cf.exp.word0.TYPE ≠ .WRITE ∨ 4 < cf.exp.buf.ARRAY_SIZE + 1))
    ∧ ∀ msg st, MEM_STREAM T state cf = .thrown msg st → st = state := by
  by_cases h : T.memExportType cf.exp.word0.TYPE ≠ .WRITE ∨ 4 < cf.exp.buf.ARRAY_SIZE + 1
  · obtain ⟨msg, hm⟩ := MEM_STREAM_thrown T state cf h
    refine ⟨⟨fun _ => h, fun _ => ⟨msg, state, hm⟩⟩, ?_⟩
    intro msg' st hst
    rw [hm] at hst
    cases hst
    rfl
  · have hw : T.memExportType cf.exp.word0.TYPE = .WRITE := by
      by_contra hne
      exact h (Or.inl hne)
    have hs : cf.exp.buf.ARRAY_SIZE + 1 ≤ 4 := by
      by_contra hgt
      exact h (Or.inr (by omega))
    have hok := MEM_STREAM_ok T state cf hw hs
    refine ⟨⟨?_, fun hh => absurd hh h⟩, ?_⟩
    · rintro ⟨msg, st, hst⟩
      rw [hok] at hst
      cases hst
    · intro msg st hst
      rw [hok] at hst
      cases hst

/-- C14 (witness): a stream write of five components (`ARRAY_SIZE = 4`) throws. -/
theorem MEM_STREAM_fails_iff_witness :
    ∃ msg st, MEM_STREAM refTranslator emptyState wideStreamExample = .thrown msg st :=
  (MEM_STREAM_fails_iff refTranslator emptyState wideStreamExample).1.2 (Or.inr (by decide))

theorem fullyMasked_iff (cf : ControlFlowInst) :
    fullyMasked cf = true ↔ (cf.exp.swiz.SRC_SEL_X = .SEL_MASK ∧ cf.exp.swiz.SRC_SEL_Y = .SEL_MASK
      ∧ cf.exp.swiz.SRC_SEL_Z = .SEL_MASK ∧ cf.exp.swiz.SRC_SEL_W = .SEL_MASK) := by
  simp [fullyMasked, and_assoc]

theorem supportedType_iff (type : SQ_EXPORT_TYPE) :
    supportedType type = true ↔ (type = .POS ∨ type = .PARAM ∨ type = .PIXEL) := by
  simp [supportedType, or_assoc]

/-- An export of a supported type with valid selectors, not all masked, is the fold of
`emitAssignment` over the burst indices. -/
theorem EXP_fold (T : Translator) (state : State) (cf : ControlFlowInst)
    (ht : supportedType cf.exp.word0.TYPE = true)
    (hv : ∀ sel ∈ sourceSelectors cf, validSelector sel = true)
    (hm : fullyMasked cf = false) :
    EXP T state cf
      = .ok ((List.range (cf.exp.word1.BURST_COUNT + 1)).foldl (emitAssignment T cf) state) := by
  have hm' : ¬ (cf.exp.swiz.SRC_SEL_X = .SEL_MASK ∧ cf.exp.swiz.SRC_SEL_Y = .SEL_MASK
      ∧ cf.exp.swiz.SRC_SEL_Z = .SEL_MASK ∧ cf.exp.swiz.SRC_SEL_W = .SEL_MASK) := by
    rw [← fullyMasked_iff, hm]
    simp
  unfold EXP
  simp only [if_neg hm']
  rw [expLoop_eq T cf _ (emitAssignment T cf)
    (fun i st => expIteration_eq T cf i st ((supportedType_iff _).1 ht) hv hm'),
    List.range_eq_range']

/-- The burst body throws when the export type is unsupported or a selector lies outside the
enumeration. -/
theorem expIteration_thrown (T : Translator) (cf : ControlFlowInst) (i : Nat) (state : State)
    (h : supportedType cf.exp.word0.TYPE = false
      ∨ ∃ sel ∈ sourceSelectors cf, validSelector sel = false) :
    ∃ msg st, expIteration T cf
        (condenseSelections cf.exp.swiz.SRC_SEL_X cf.exp.swiz.SRC_SEL_Y cf.exp.swiz.SRC_SEL_Z
          cf.exp.swiz.SRC_SEL_W 4) i state = .thrown msg st := by
  by_cases ht : supportedType cf.exp.word0.TYPE = true
  · have hsel : ∃ sel ∈ sourceSelectors cf, validSelector sel = false := by
      rcases h with h | h
      · rw [h] at ht
        cases ht
      · exact h
    obtain ⟨sel, hmem, hbad⟩ := hsel
    obtain ⟨hval, hnum, htake⟩ := condenseSelections_unmasked cf.exp.swiz.SRC_SEL_X
      cf.exp.swiz.SRC_SEL_Y cf.exp.swiz.SRC_SEL_Z cf.exp.swiz.SRC_SEL_W
    have hne : sel ≠ .SEL_MASK := by
      intro e
      rw [e] at hbad
      cases hbad
    have hc : validCondensed sel = false := by
      cases hvc : validCondensed sel with
      | false => rfl
      | true => simp [validSelector, hvc] at hbad
    have hin : sel ∈ unmasked [cf.exp.swiz.SRC_SEL_X, cf.exp.swiz.SRC_SEL_Y,
        cf.exp.swiz.SRC_SEL_Z, cf.exp.swiz.SRC_SEL_W] :=
      List.mem_filter.2 ⟨hmem, by simpa using hne⟩
    have h1 : 1 ≤ (unmasked [cf.exp.swiz.SRC_SEL_X, cf.exp.swiz.SRC_SEL_Y,
        cf.exp.swiz.SRC_SEL_Z, cf.exp.swiz.SRC_SEL_W]).length := List.length_pos_of_mem hin
    have h4 : (unmasked [cf.exp.swiz.SRC_SEL_X, cf.exp.swiz.SRC_SEL_Y,
        cf.exp.swiz.SRC_SEL_Z, cf.exp.swiz.SRC_SEL_W]).length ≤ 4 :=
      le_trans (List.length_filter_le _ _) (by simp)
    rw [← hnum] at h1 h4
    rw [← htake] at hin
    have hthrow := fun out src => insertSelectVector_invalid out src _ _ _ _ _
      h1 h4 ⟨sel, hin, hc⟩
    unfold expIteration
    rcases (supportedType_iff _).1 ht with ht' | ht' | ht' <;>
    · simp only [ht', andThen, State.writeWith]
      obtain ⟨msg, out', ho⟩ := hthrow
        ((((T.insertLineStart (registerExport state cf.exp.word0.TYPE
          (cf.exp.word0.ARRAY_BASE + i))).write _).write _).out)
        (getExportRegister (cf.exp.word0.RW_GPR + i) cf.exp.word0.RW_REL)
      simp only [ht'] at ho
      rw [ho]
      exact ⟨_, _, rfl⟩
  · unfold expIteration
    cases hty : cf.exp.word0.TYPE with
    | other value => simp only [hty, andThen]; exact ⟨_, _, rfl⟩
    | POS => simp [supportedType, hty] at ht
    | PARAM => simp [supportedType, hty] at ht
    | PIXEL => simp [supportedType, hty] at ht

theorem EXP_masked (T : Translator) (state : State) (cf : ControlFlowInst)
    (hm : fullyMasked cf = true) : EXP T state cf = .ok state := by
  unfold EXP
  simp only [if_pos ((fullyMasked_iff cf).1 hm)]

theorem EXP_thrown (T : Translator) (state : State) (cf : ControlFlowInst)
    (hm : fullyMasked cf = false)
    (h : supportedType cf.exp.word0.TYPE = false
      ∨ ∃ sel ∈ sourceSelectors cf, validSelector sel = false) :
    ∃ msg st, EXP T state cf = .thrown msg st := by
  have hm' : ¬ (cf.exp.swiz.SRC_SEL_X = .SEL_MASK ∧ cf.exp.swiz.SRC_SEL_Y = .SEL_MASK
      ∧ cf.exp.swiz.SRC_SEL_Z = .SEL_MASK ∧ cf.exp.swiz.SRC_SEL_W = .SEL_MASK) := by
    rw [← fullyMasked_iff, hm]
    simp
  obtain ⟨msg, st, hi⟩ := expIteration_thrown T cf 0 state h
  unfold EXP
  simp only [if_neg hm']
  rw [expLoop, hi]
  exact ⟨_, _, rfl⟩

/-- The three ways an export translates: a no-op, a burst of assignments, or an error. -/
theorem EXP_cases (T : Translator) (state : State) (cf : ControlFlowInst) :
    (fullyMasked cf = true ∧ EXP T state cf = .ok state)
    ∨ (fullyMasked cf = false ∧ supportedType cf.exp.word0.TYPE = true
        ∧ (∀ sel ∈ sourceSelectors cf, validSelector sel = true)
        ∧ EXP T state cf
          = .ok ((List.range (cf.exp.word1.BURST_COUNT + 1)).foldl (emitAssignment T cf) state))
    ∨ (fullyMasked cf = false
        ∧ (supportedType cf.exp.word0.TYPE = false
          ∨ ∃ sel ∈ sourceSelectors cf, validSelector sel = false)
        ∧ ∃ msg st, EXP T state cf = .thrown msg st) := by
  cases hm : fullyMasked cf with
  | true => exact Or.inl ⟨rfl, EXP_masked T state cf hm⟩
  | false =>
    cases ht : supportedType cf.exp.word0.TYPE with
    | false => exact Or.inr (Or.inr ⟨rfl, Or.inl rfl, EXP_thrown T state cf hm (Or.inl ht)⟩)
    | true =>
      by_cases hv : ∀ sel ∈ sourceSelectors cf, validSelector sel = true
      · exact Or.inr (Or.inl ⟨rfl, rfl, hv, EXP_fold T state cf ht hv hm⟩)
      · have hbad : ∃ sel ∈ sourceSelectors cf, validSelector sel = false := by
          by_contra hno
          apply hv
          intro sel hsel
          cases hvs : validSelector sel with
          | true => rfl
          | false => exact absurd ⟨sel, hsel, hvs⟩ hno
        exact Or.inr (Or.inr ⟨rfl, Or.inr hbad, EXP_thrown T state cf hm (Or.inr hbad)⟩)

/-- C15: `EXP` throws if and only if the export is not fully masked and either its type is
none of POS, PARAM, PIXEL or one of its four selectors lies outside the enumeration
X, Y, Z, W, 0, 1, MASK; and an export of a supported type with valid selectors translates
without error, so that in particular `Unexpected SQ_SEL::SEL_MASK` is not thrown. -/
theorem EXP_fails_iff (T : Translator) (state : State) (cf : ControlFlowInst) :
    ((∃ msg st, EXP T state cf = .thrown msg st)
      ↔ (fullyMasked cf = false
          ∧ (supportedType cf.exp.word0.TYPE = false
            ∨ ∃ sel ∈ sourceSelectors cf, validSelector sel = false)))
    ∧ (supportedType cf.exp.word0.TYPE = true
        → (∀ sel ∈ sourceSelectors cf, validSelector sel = true)
        → (∃ st, EXP T state cf = .ok st)
          ∧ ∀ st, EXP T state cf ≠ .thrown "Unexpected SQ_SEL::SEL_MASK" st) := by
  rcases EXP_cases T state cf with ⟨hm, hok⟩ | ⟨hm, ht, hv, hok⟩ | ⟨hm, hbad, hth⟩
  · refine ⟨⟨?_, ?_⟩, ?_⟩
    · rintro ⟨msg, st, h⟩
      rw [hok] at h
      cases h
    · rintro ⟨hf, _⟩
      rw [hm] at hf
      cases hf
    · intro _ _
      refine ⟨⟨_, hok⟩, ?_⟩
      intro st h
      rw [hok] at h
      cases h
  · refine ⟨⟨?_, ?_⟩, ?_⟩
    · rintro ⟨msg, st, h⟩
      rw [hok] at h
      cases h
    · rintro ⟨_, hf | ⟨sel, hsel, hf⟩⟩
      · rw [ht] at hf
        cases hf
      · rw [hv sel hsel] at hf
        cases hf
    · intro _ _
      refine ⟨⟨_, hok⟩, ?_⟩
      intro st h
      rw [hok] at h
      cases h
  · refine ⟨⟨fun _ => ⟨hm, hbad⟩, fun _ => hth⟩, ?_⟩
    intro ht hv
    rcases hbad with hf | ⟨sel, hsel, hf⟩
    · rw [ht] at hf
      cases hf
    · rw [hv sel hsel] at hf
      cases hf

/-- C15 (witness): the export `badSelectorExample`, whose second selector is the value 9,
throws. -/
theorem EXP_fails_iff_witness :
    ∃ msg st, EXP refTranslator emptyState badSelectorExample = .thrown msg st :=
  (EXP_fails_iff refTranslator emptyState badSelectorExample).1.2
    ⟨by decide, Or.inr ⟨.other 9, by decide, by decide⟩⟩

theorem registerExport_shader (state : State) (sh : Shader) (cf : ControlFlowInst) (i : Nat)
    (hsh : state.shader = some sh) :
    registerExport state cf.exp.word0.TYPE (cf.exp.word0.ARRAY_BASE + i)
      = { state with
          shader := some { sh with exports := sh.exports ++ [exportDescriptor cf i] } } := by
  simp only [registerExport, hsh, exportDescriptor]

theorem emitAssignment_shader (T : Translator) (cf : ControlFlowInst) (state : State) (i : Nat)
    (hstart : ∀ st, (T.insertLineStart st).shader = st.shader)
    (hend : ∀ st, (T.insertLineEnd st).shader = st.shader) :
    (emitAssignment T cf state i).shader
      = (registerExport state cf.exp.word0.TYPE (cf.exp.word0.ARRAY_BASE + i)).shader := by
  unfold emitAssignment
  rw [hend, State.write, hstart]

/-- The export table after the `n` first assignments of a burst. -/
theorem emitAssignment_fold_shader (T : Translator) (cf : ControlFlowInst) (state : State)
    (sh : Shader) (hsh : state.shader = some sh)
    (hstart : ∀ st, (T.insertLineStart st).shader = st.shader)
    (hend : ∀ st, (T.insertLineEnd st).shader = st.shader) (n : Nat) :
    ((List.range n).foldl (emitAssignment T cf) state).shader
      = some { sh with exports := sh.exports ++ exportDescriptors cf n } := by
  induction n with
  | zero => simp [exportDescriptors, hsh]
  | succ n ih =>
    rw [List.range_succ, List.foldl_append, List.foldl_cons, List.foldl_nil]
    rw [emitAssignment_shader T cf _ n hstart hend, registerExport_shader _ _ cf n ih]
    simp [exportDescriptors, List.range_succ]

/-- C16: on a state with an owning shader, with line helpers that leave the shader alone:
a `MEM_STREAM` translated without error appends exactly the descriptor
(`CF_INST - MEM_STREAM0`, `ARRAY_BASE * 4`, `ARRAY_SIZE + 1`) to the list of its stream and
changes no other table; an `EXP` translated without error leaves the feedback table alone and
appends one export descriptor per emitted assignment (none when fully masked), in emission
order; and the index in the name of the target of assignment `i` is the id of descriptor
`i`. -/
theorem descriptor_bookkeeping (T : Translator) (state : State) (cf : ControlFlowInst)
    (sh : Shader) (hsh : state.shader = some sh)
    (hstart : ∀ st, (T.insertLineStart st).shader = st.shader)
    (hend : ∀ st, (T.insertLineEnd st).shader = st.shader) :
    (∀ st, MEM_STREAM T state cf = .ok st →
      st.shader = some { sh with
        feedbacks := Function.update sh.feedbacks (feedbackDescriptor T cf).streamIndex
          (sh.feedbacks (feedbackDescriptor T cf).streamIndex ++ [feedbackDescriptor T cf]) })
    ∧ (∀ st, EXP T state cf = .ok st →
        st = (if fullyMasked cf then state
              else (List.range (cf.exp.word1.BURST_COUNT + 1)).foldl (emitAssignment T cf) state)
        ∧ st.shader = some { sh with
            exports := sh.exports
              ++ (if fullyMasked cf then []
                  else exportDescriptors cf (cf.exp.word1.BURST_COUNT + 1)) })
    ∧ (∀ i, supportedType cf.exp.word0.TYPE = true →
        exportTarget cf.exp.word0.TYPE (cf.exp.word0.ARRAY_BASE + i)
          = outputClass cf.exp.word0.TYPE ++ toString (exportDescriptor cf i).id) := by
  refine ⟨?_, ?_, ?_⟩
  · intro st hst
    have hfail := MEM_STREAM_thrown T state cf
    by_cases h : T.memExportType cf.exp.word0.TYPE ≠ .WRITE ∨ 4 < cf.exp.buf.ARRAY_SIZE + 1
    · obtain ⟨msg, hm⟩ := hfail h
      rw [hm] at hst
      cases hst
    · have hw : T.memExportType cf.exp.word0.TYPE = .WRITE := by
        by_contra hne
        exact h (Or.inl hne)
      have hs : cf.exp.buf.ARRAY_SIZE + 1 ≤ 4 := by
        by_contra hgt
        exact h (Or.inr (by omega))
      rw [MEM_STREAM_ok T state cf hw hs] at hst
      cases hst
      rw [hend, State.write, hstart]
      simp only [registerFeedback, hsh, feedbackDescriptor]
  · intro st hst
    rcases EXP_cases T state cf with ⟨hm, hok⟩ | ⟨hm, ht, hv, hok⟩ | ⟨hm, hbad, msg, st', hth⟩
    · rw [hok] at hst
      cases hst
      simp [hm, hsh]
    · rw [hok] at hst
      cases hst
      simp only [hm, Bool.false_eq_true, if_false, true_and]
      exact emitAssignment_fold_shader T cf state sh hsh hstart hend _
    · rw [hth] at hst
      cases hst
  · intro i ht
    rcases (supportedType_iff _).1 ht with ht' | ht' | ht' <;>
      simp [exportTarget, outputClass, exportDescriptor, ht']

/-- C16 (witness): the stream write `streamExample` on the empty state registers the
descriptor (1, 8, 3) in the list of stream 1. -/
theorem descriptor_bookkeeping_witness :
    (MEM_STREAM refTranslator emptyState streamExample).state.shader.map
        (fun sh => sh.feedbacks 1)
      = some [{ streamIndex := 1, offset := 8, size := 3 }] := by
  have h := (descriptor_bookkeeping refTranslator emptyState streamExample
    { exports := [], feedbacks := fun _ => [] } rfl (fun _ => rfl) (fun _ => rfl)).1
    (MEM_STREAM refTranslator emptyState streamExample).state rfl
  rw [h]
  decide

theorem sub60_eq (x : Nat) (h60 : 60 ≤ x) (h32 : x < 2 ^ 32) : sub60 x = x - 60 := by
  unfold sub60
  omega

/-- C17: burst element `i` of an export of a supported type with valid selectors, not all
masked, on a state with an owning shader, registers a descriptor whose id is
`ARRAY_BASE + i - 60` for a position export with `ARRAY_BASE ≥ 60` and `ARRAY_BASE + i` for a
parameter or pixel export, and emits an assignment whose target is `exp_position_`,
`exp_param_` or `exp_pixel_` followed by that same number. -/
theorem position_renumbering (T : Translator) (cf : ControlFlowInst) (i : Nat) (state : State)
    (sh : Shader) (hsh : state.shader = some sh)
    (ht : supportedType cf.exp.word0.TYPE = true)
    (hv : ∀ sel ∈ sourceSelectors cf, validSelector sel = true)
    (hm : fullyMasked cf = false)
    (hpos : cf.exp.word0.TYPE = .POS →
      60 ≤ cf.exp.word0.ARRAY_BASE ∧ cf.exp.word0.ARRAY_BASE + i < 2 ^ 32) :
    expIteration T cf
        (condenseSelections cf.exp.swiz.SRC_SEL_X cf.exp.swiz.SRC_SEL_Y cf.exp.swiz.SRC_SEL_Z
          cf.exp.swiz.SRC_SEL_W 4) i state
      = .ok (T.insertLineEnd
          ((T.insertLineStart
              { state with shader := some { sh with
                  exports := sh.exports
                    ++ [{ type := cf.exp.word0.TYPE, id := outputIndex cf i }] } }).write
            (outputClass cf.exp.word0.TYPE ++ toString (outputIndex cf i) ++ "."
              ++ unmaskedLetters cf.exp.swiz.SRC_SEL_X cf.exp.swiz.SRC_SEL_Y
                  cf.exp.swiz.SRC_SEL_Z cf.exp.swiz.SRC_SEL_W
              ++ " = "
              ++ renderSelections
                  (getExportRegister (cf.exp.word0.RW_GPR + i) cf.exp.word0.RW_REL)
                  (unmasked (sourceSelectors cf))
              ++ ";"))) := by
  have hm' : ¬ (cf.exp.swiz.SRC_SEL_X = .SEL_MASK ∧ cf.exp.swiz.SRC_SEL_Y = .SEL_MASK
      ∧ cf.exp.swiz.SRC_SEL_Z = .SEL_MASK ∧ cf.exp.swiz.SRC_SEL_W = .SEL_MASK) := by
    rw [← fullyMasked_iff, hm]
    simp
  rw [expIteration_eq T cf i state ((supportedType_iff _).1 ht) hv hm']
  unfold emitAssignment exportAssignment
  rw [registerExport_shader state sh cf i hsh]
  rcases (supportedType_iff _).1 ht with ht' | ht' | ht'
  · obtain ⟨h60, h32⟩ := hpos ht'
    have e : sub60 (cf.exp.word0.ARRAY_BASE + i) = cf.exp.word0.ARRAY_BASE + i - 60 :=
      sub60_eq _ (by omega) h32
    simp [exportDescriptor, exportTarget, outputClass, outputIndex, sourceSelectors, ht', e,
      String.append_assoc]
  · simp [exportDescriptor, exportTarget, outputClass, outputIndex, sourceSelectors, ht',
      String.append_assoc]
  · simp [exportDescriptor, exportTarget, outputClass, outputIndex, sourceSelectors, ht',
      String.append_assoc]

/-- C17 (witness): element 1 of the position export `positionExample` (base 61) registers
descriptor id 2 and assigns to `exp_position_2`. -/
theorem position_renumbering_witness :
    (expIteration refTranslator positionExample
        (condenseSelections .SEL_X .SEL_Y .SEL_MASK .SEL_MASK 4) 1 emptyState).state.out
        = "exp_position_2.xy = R[3].xy;\n"
    ∧ (expIteration refTranslator positionExample
        (condenseSelections .SEL_X .SEL_Y .SEL_MASK .SEL_MASK 4) 1 emptyState).state.shader.map
          (fun sh => sh.exports)
        = some [{ type := .POS, id := 2 }] := by
  have h : expIteration refTranslator positionExample
      (condenseSelections .SEL_X .SEL_Y .SEL_MASK .SEL_MASK 4) 1 emptyState = _ :=
    position_renumbering refTranslator positionExample 1 emptyState
      { exports := [], feedbacks := fun _ => [] } rfl (by decide) (by decide) (by decide)
      (fun _ => by decide)
  rw [h]
  decide

open gpu.opengl (Outcome)

/-! ## The stream statement and the shape of assignments -/

theorem maskLetters_eq (m : Nat) (hm : m < 16) : maskLetters m = setBitLetters m := by
  have h : ∀ k, k < 16 → maskLetters k = setBitLetters k := by decide
  exact h m hm

theorem getExportRegister_eq (gpr rel : Nat) :
    getExportRegister gpr rel = symbolicRegister gpr rel := by
  have e : " + AL" ++ "]" = " + AL]" := by decide
  unfold getExportRegister insertExportRegister symbolicRegister
  by_cases h : rel = 0
  · simp [h]
  · simp [h, String.append_assoc, e]

/-- C26: a `MEM_STREAM` of type `WRITE` with `ARRAY_SIZE ≤ 3` and a 4-bit `COMP_MASK`
translates without error into one line holding the statement
`feedback_<s>_<ARRAY_BASE*4> = <src>.<letters>;`, where `s = CF_INST - MEM_STREAM0`, the
letters are those among x, y, z, w whose bit is set in the mask, in this order, and `<src>`
is `R[G]`, or `R[G + AL]` when `RW_REL` is not 0. -/
theorem MEM_STREAM_statement (T : Translator) (state : State) (cf : ControlFlowInst)
    (hw : T.memExportType cf.exp.word0.TYPE = .WRITE) (hs : cf.exp.buf.ARRAY_SIZE ≤ 3)
    (hm : cf.exp.buf.COMP_MASK < 16) :
    MEM_STREAM T state cf
      = .ok (T.insertLineEnd
          ((T.insertLineStart
              (registerFeedback state (cf.exp.word1.CF_INST - T.SQ_CF_INST_MEM_STREAM0)
                (cf.exp.word0.ARRAY_BASE * 4) (cf.exp.buf.ARRAY_SIZE + 1))).write
            (streamStatement T cf))) := by
  rw [MEM_STREAM_ok T state cf hw (by omega), getExportRegister_eq, maskLetters_eq _ hm]
  rfl

/-- C26 (witness): the relatively addressed write `relativeStreamExample` with mask 5 emits
`feedback_1_8 = R[4 + AL].xz;`. -/
theorem MEM_STREAM_statement_witness :
    (MEM_STREAM refTranslator emptyState relativeStreamExample).state.out
      = "feedback_1_8 = R[4 + AL].xz;\n" := by
  rw [MEM_STREAM_statement refTranslator emptyState relativeStreamExample (by decide)
    (by decide) (by decide)]
  decide

theorem unmaskedLetters_length (selX selY selZ selW : SQ_SEL) :
    (unmaskedLetters selX selY selZ selW).length = (unmasked [selX, selY, selZ, selW]).length := by
  by_cases hx : selX = .SEL_MASK <;> by_cases hy : selY = .SEL_MASK <;>
  by_cases hz : selZ = .SEL_MASK <;> by_cases hw : selW = .SEL_MASK <;>
  simp [unmaskedLetters, unmasked, hx, hy, hz, hw, String.length]

theorem swizzleLetter_length {sel : SQ_SEL} (h : plainComponent sel = true) :
    (swizzleLetter sel).length = 1 := by
  cases sel <;> simp [plainComponent] at h <;> rfl

theorem foldl_append_length (l : List String) (acc : String) (n : Nat)
    (h : ∀ t ∈ l, t.length = n) :
    (l.foldl (fun r t => r ++ t) acc).length = acc.length + l.length * n := by
  induction l generalizing acc with
  | nil => simp
  | cons a l ih =>
    rw [List.foldl_cons, ih _ (fun t ht => h t (List.mem_cons_of_mem _ ht)), String.length_append,
      h a (List.mem_cons_self _ _), List.length_cons]
    ring

theorem swizzle_length (sels : List SQ_SEL) (h : sels.all plainComponent = true) :
    (String.join (sels.map swizzleLetter)).length = sels.length := by
  unfold String.join
  rw [foldl_append_length _ _ 1]
  · simp
  · intro t ht
    obtain ⟨sel, hsel, rfl⟩ := List.mem_map.1 ht
    exact swizzleLetter_length (List.all_eq_true.1 h sel hsel)

/-- The three shapes of a rendered selection list, each with as many components as the list
has entries. -/
theorem renderSelections_shape (src : String) (sels : List SQ_SEL) (h1 : 1 ≤ sels.length) :
    (sels.length = 1 ∧ ∃ sel, sels = [sel] ∧ renderSelections src sels = scalarText src sel)
    ∨ (2 ≤ sels.length ∧ ∃ letters : String, letters.length = sels.length
        ∧ renderSelections src sels = src ++ "." ++ letters)
    ∨ (2 ≤ sels.length ∧ ∃ args : List String, args.length = sels.length
        ∧ renderSelections src sels
          = "vec" ++ toString sels.length ++ "(" ++ ", ".intercalate args ++ ")") := by
  unfold renderSelections
  by_cases hone : sels.length = 1
  · refine Or.inl ⟨hone, ?_⟩
    obtain ⟨sel, rfl⟩ := List.length_eq_one.1 hone
    exact ⟨sel, rfl, by simp⟩
  · have h2 : 2 ≤ sels.length := by omega
    rw [if_neg hone]
    by_cases hp : sels.all plainComponent = true
    · rw [if_pos hp]
      exact Or.inr (Or.inl ⟨h2, _, swizzle_length sels hp, rfl⟩)
    · rw [if_neg hp]
      exact Or.inr (Or.inr ⟨h2, sels.map (scalarText src), List.length_map _ _, rfl⟩)

/-- The result of `insertSelectVector` depends on the first `numSels` selectors only. -/
theorem insertSelectVector_take (out src : String) (a b c d a' b' c' d' : SQ_SEL) (n : Nat)
    (hn : n ≤ 4) (h : [a, b, c, d].take n = [a', b', c', d'].take n) :
    insertSelectVector out src a b c d n = insertSelectVector out src a' b' c' d' n := by
  have r0 : List.range 0 = [] := by decide
  have r2 : List.range 2 = [0, 1] := by decide
  have r3 : List.range 3 = [0, 1, 2] := by decide
  have r4 : List.range 4 = [0, 1, 2, 3] := by decide
  interval_cases n
  · simp [insertSelectVector, r0]
  · simp at h
    subst h
    simp [insertSelectVector]
  · simp at h
    obtain ⟨rfl, rfl⟩ := h
    simp [insertSelectVector, r2]
  · simp at h
    obtain ⟨rfl, rfl, rfl⟩ := h
    simp [insertSelectVector, r3]
  · simp at h
    obtain ⟨rfl, rfl, rfl, rfl⟩ := h
    rfl

/-- C27: an `EXP` that translates without error and is not fully masked is the sequence of
its assignments; with `n` the number of selectors that are not masked (between 1 and 4), each
assignment is the target, a dot, `n` destination letters, ` = `, the right-hand side and `;`,
and the right-hand side is a scalar when `n = 1` and otherwise a swizzle of `n` letters or a
`vec<n>` constructor with `n` arguments; the condensed count is `n`, and what
`insertSelectVector` renders depends on the first `n` condensed selectors only. -/
theorem export_assignment_shape (T : Translator) (state st : State) (cf : ControlFlowInst)
    (hok : EXP T state cf = .ok st) (hm : fullyMasked cf = false) :
    st = (List.range (cf.exp.word1.BURST_COUNT + 1)).foldl (emitAssignment T cf) state
    ∧ (∀ i, exportAssignment cf i
        = exportTarget cf.exp.word0.TYPE (cf.exp.word0.ARRAY_BASE + i) ++ "."
          ++ unmaskedLetters cf.exp.swiz.SRC_SEL_X cf.exp.swiz.SRC_SEL_Y cf.exp.swiz.SRC_SEL_Z
              cf.exp.swiz.SRC_SEL_W
          ++ " = "
          ++ renderSelections (getExportRegister (cf.exp.word0.RW_GPR + i) cf.exp.word0.RW_REL)
              (unmasked (sourceSelectors cf))
          ++ ";")
    ∧ 1 ≤ (unmasked (sourceSelectors cf)).length
    ∧ (unmasked (sourceSelectors cf)).length ≤ 4
    ∧ (unmaskedLetters cf.exp.swiz.SRC_SEL_X cf.exp.swiz.SRC_SEL_Y cf.exp.swiz.SRC_SEL_Z
        cf.exp.swiz.SRC_SEL_W).length = (unmasked (sourceSelectors cf)).length
    ∧ (∀ src,
        ((unmasked (sourceSelectors cf)).length = 1
          ∧ ∃ sel, unmasked (sourceSelectors cf) = [sel]
            ∧ renderSelections src (unmasked (sourceSelectors cf)) = scalarText src sel)
        ∨ (2 ≤ (unmasked (sourceSelectors cf)).length
          ∧ ∃ letters : String, letters.length = (unmasked (sourceSelectors cf)).length
            ∧ renderSelections src (unmasked (sourceSelectors cf)) = src ++ "." ++ letters)
        ∨ (2 ≤ (unmasked (sourceSelectors cf)).length
          ∧ ∃ args : List String, args.length = (unmasked (sourceSelectors cf)).length
            ∧ renderSelections src (unmasked (sourceSelectors cf))
              = "vec" ++ toString (unmasked (sourceSelectors cf)).length ++ "("
                ++ ", ".intercalate args ++ ")"))
    ∧ (condenseSelections cf.exp.swiz.SRC_SEL_X cf.exp.swiz.SRC_SEL_Y cf.exp.swiz.SRC_SEL_Z
        cf.exp.swiz.SRC_SEL_W 4).numSels = (unmasked (sourceSelectors cf)).length
    ∧ (∀ out src a b c d,
        [a, b, c, d].take (unmasked (sourceSelectors cf)).length
            = unmasked (sourceSelectors cf) →
        insertSelectVector out src a b c d (unmasked (sourceSelectors cf)).length
          = .ok (out ++ renderSelections src (unmasked (sourceSelectors cf)))) := by
  rcases EXP_cases T state cf with ⟨hm', _⟩ | ⟨_, ht, hv, hfold⟩ | ⟨_, _, msg, st', hth⟩
  · rw [hm] at hm'
    cases hm'
  · have hnm : ¬ (cf.exp.swiz.SRC_SEL_X = .SEL_MASK ∧ cf.exp.swiz.SRC_SEL_Y = .SEL_MASK
        ∧ cf.exp.swiz.SRC_SEL_Z = .SEL_MASK ∧ cf.exp.swiz.SRC_SEL_W = .SEL_MASK) := by
      rw [← fullyMasked_iff, hm]
      simp
    obtain ⟨h1, h4, hvalid⟩ := condensed_valid _ _ _ _ hv hnm
    obtain ⟨_, hnum, _⟩ := condenseSelections_unmasked cf.exp.swiz.SRC_SEL_X
      cf.exp.swiz.SRC_SEL_Y cf.exp.swiz.SRC_SEL_Z cf.exp.swiz.SRC_SEL_W
    rw [hfold] at hok
    cases hok
    refine ⟨rfl, fun _ => rfl, h1, h4, unmaskedLetters_length _ _ _ _, ?_, hnum, ?_⟩
    · intro src
      exact renderSelections_shape src _ h1
    · intro out src a b c d htake
      have htake' : [a, b, c, d].take (unmasked [cf.exp.swiz.SRC_SEL_X, cf.exp.swiz.SRC_SEL_Y,
          cf.exp.swiz.SRC_SEL_Z, cf.exp.swiz.SRC_SEL_W]).length
          = unmasked [cf.exp.swiz.SRC_SEL_X, cf.exp.swiz.SRC_SEL_Y, cf.exp.swiz.SRC_SEL_Z,
            cf.exp.swiz.SRC_SEL_W] := htake
      have hr := insertSelectVector_render out src a b c d _ h1 h4
        (by rw [htake']; exact hvalid)
      rw [htake'] at hr
      exact hr
  · rw [hth] at hok
    cases hok

/-- C27 (witness): the export `constructorExample` with selections (MASK, 0, Y, W) has three
selectors that are not masked and writes three destination letters. -/
theorem export_assignment_shape_witness :
    (unmasked (sourceSelectors constructorExample)).length = 3
    ∧ (unmaskedLetters .SEL_MASK .SEL_0 .SEL_Y .SEL_W).length
        = (unmasked (sourceSelectors constructorExample)).length
    ∧ (EXP refTranslator emptyState constructorExample).state.out
        = "exp_param_2.yzw = vec3(0, R[1].y, R[1].w);\n" :=
  ⟨by decide,
    (export_assignment_shape refTranslator emptyState
      (EXP refTranslator emptyState constructorExample).state constructorExample rfl
      (by decide)).2.2.2.2.1,
    by decide⟩

end glsl2
